import Mathlib

/-!
# Verification of the tinydeflate streaming DEFLATE compressor

This file gives a shallow embedding of `src/tinydeflate.cpp` (the
`tinydeflate::compressor` class and its helpers) and proves properties of
the embedding.

Modelling conventions:
* C `uint8`/`uint16`/`uint32` values are `Nat` with explicit masking/`%`
  wherever the C arithmetic can wrap; C `int` locals that can go negative
  are `Int`.
* The fixed-size member arrays (`m_dict`, `m_next`, `m_hash`,
  `m_lz_code_buf`, `m_output_buf`, and the `m_huff_*` tables) are
  modelled as natural numbers holding the array bytes in little-endian
  order, one entry every `w` bits (`aGet`/`aSet`/`aClear`, with `w = 8`
  for `uint8` arrays and `w = 16` for `uint16` arrays; the
  two-dimensional `m_huff_*[3][384]` arrays use the C row-major index
  `t * 384 + i`).  Uninitialized memory (the C++ object never clears
  `m_dict`, `m_next`, `m_lz_code_buf`, and clears `m_hash` only when
  `NONDETERMINISTIC_PARSING_FLAG` is absent) is modelled by passing
  arbitrary initial contents to `freshState`.
* The external `output_stream` is modelled by a function
  `sinkOk : Nat → Bool` giving the boolean result of the n-th `put_buf`
  call, passed as a explicit parameter to every function that can
  reach it; the byte runs handed to `put_buf` are accumulated in
  `sink_out` and the number of calls in `sink_calls`.
* Ghost (observation-only) fields `fed` (every byte inserted into the
  dictionary so far) and `tokens` (every literal/match recorded into the
  LZ code buffer) mirror the information flow; they influence nothing.
* C `while` loops whose bound is data dependent are written as
  recursion on an explicit decreasing counter; where the C loop has no
  a-priori structural bound, a fuel argument is used whose value at the
  call site is an exact upper bound for the number of iterations the C
  code performs.
-/

namespace Tinydeflate

/-! ## Constants (from the `compressor` enum) -/

def OUT_BUF_SIZE : Nat := 4096
def LZ_DICT_SIZE : Nat := 32768
def LZ_DICT_SIZE_MASK : Nat := LZ_DICT_SIZE - 1
def MIN_MATCH_LEN : Nat := 3
def MAX_MATCH_LEN : Nat := 258
def LZ_HASH_BITS : Nat := 12
def LZ_HASH_SIZE : Nat := 4096
def LZ_CODE_BUF_SIZE : Nat := 24 * 1024
def MAX_HUFF_SYMBOLS_0 : Nat := 288
def MAX_HUFF_SYMBOLS_1 : Nat := 32
def MAX_HUFF_SYMBOLS_2 : Nat := 19
def MAX_SUPPORTED_HUFF_CODESIZE : Nat := 32

/-- Flag `NONDETERMINISTIC_PARSING_FLAG`. -/
def NONDETERMINISTIC_PARSING_FLAG : Nat := 0x20000000
/-- Flag `GREEDY_PARSING_FLAG`. -/
def GREEDY_PARSING_FLAG : Nat := 0x40000000
/-- Flag `WRITE_ZLIB_HEADER`. -/
def WRITE_ZLIB_HEADER : Nat := 0x80000000
/-- Default probe count `DEFAULT_MAX_PROBES`. -/
def DEFAULT_MAX_PROBES : Nat := 100

/-- Pointwise update of a function-modelled array.  (`noinline` keeps
the stored value a value in compiled evaluation.) -/
@[noinline] def upd {α : Type} (f : Nat → α) (i : Nat) (v : α) : Nat → α :=
  fun j => if j = i then v else f j

theorem upd_same {α : Type} (f : Nat → α) (i : Nat) (v : α) : upd f i v i = v := by
  simp [upd]

theorem upd_other {α : Type} (f : Nat → α) (i : Nat) (v : α) (j : Nat) (h : j ≠ i) :
    upd f i v j = f j := by
  simp [upd, h]

/-- Conversion of a C `int` value to `uint32` (two's complement wrap). -/
def u32ofInt (x : Int) : Nat := (x % (4294967296 : Int)).toNat

/-! ## Static code tables (from the source file, verbatim data) -/

/-- Table `len_sym` from the source (256 entries). -/
def s_len_symList : List Nat := [
    257, 258, 259, 260, 261, 262, 263, 264, 265, 265, 266, 266, 267, 267, 268, 268, 269, 269, 269, 269, 270, 270, 270, 270, 271, 271, 271, 271, 272, 272, 272, 272,
    273, 273, 273, 273, 273, 273, 273, 273, 274, 274, 274, 274, 274, 274, 274, 274, 275, 275, 275, 275, 275, 275, 275, 275, 276, 276, 276, 276, 276, 276, 276, 276,
    277, 277, 277, 277, 277, 277, 277, 277, 277, 277, 277, 277, 277, 277, 277, 277, 278, 278, 278, 278, 278, 278, 278, 278, 278, 278, 278, 278, 278, 278, 278, 278,
    279, 279, 279, 279, 279, 279, 279, 279, 279, 279, 279, 279, 279, 279, 279, 279, 280, 280, 280, 280, 280, 280, 280, 280, 280, 280, 280, 280, 280, 280, 280, 280,
    281, 281, 281, 281, 281, 281, 281, 281, 281, 281, 281, 281, 281, 281, 281, 281, 281, 281, 281, 281, 281, 281, 281, 281, 281, 281, 281, 281, 281, 281, 281, 281,
    282, 282, 282, 282, 282, 282, 282, 282, 282, 282, 282, 282, 282, 282, 282, 282, 282, 282, 282, 282, 282, 282, 282, 282, 282, 282, 282, 282, 282, 282, 282, 282,
    283, 283, 283, 283, 283, 283, 283, 283, 283, 283, 283, 283, 283, 283, 283, 283, 283, 283, 283, 283, 283, 283, 283, 283, 283, 283, 283, 283, 283, 283, 283, 283,
    284, 284, 284, 284, 284, 284, 284, 284, 284, 284, 284, 284, 284, 284, 284, 284, 284, 284, 284, 284, 284, 284, 284, 284, 284, 284, 284, 284, 284, 284, 284, 285]

/-- Table `len_extra` from the source (256 entries). -/
def s_len_extraList : List Nat := [
    0, 0, 0, 0, 0, 0, 0, 0, 1, 1, 1, 1, 1, 1, 1, 1, 2, 2, 2, 2, 2, 2, 2, 2, 2, 2, 2, 2, 2, 2, 2, 2,
    3, 3, 3, 3, 3, 3, 3, 3, 3, 3, 3, 3, 3, 3, 3, 3, 3, 3, 3, 3, 3, 3, 3, 3, 3, 3, 3, 3, 3, 3, 3, 3,
    4, 4, 4, 4, 4, 4, 4, 4, 4, 4, 4, 4, 4, 4, 4, 4, 4, 4, 4, 4, 4, 4, 4, 4, 4, 4, 4, 4, 4, 4, 4, 4,
    4, 4, 4, 4, 4, 4, 4, 4, 4, 4, 4, 4, 4, 4, 4, 4, 4, 4, 4, 4, 4, 4, 4, 4, 4, 4, 4, 4, 4, 4, 4, 4,
    5, 5, 5, 5, 5, 5, 5, 5, 5, 5, 5, 5, 5, 5, 5, 5, 5, 5, 5, 5, 5, 5, 5, 5, 5, 5, 5, 5, 5, 5, 5, 5,
    5, 5, 5, 5, 5, 5, 5, 5, 5, 5, 5, 5, 5, 5, 5, 5, 5, 5, 5, 5, 5, 5, 5, 5, 5, 5, 5, 5, 5, 5, 5, 5,
    5, 5, 5, 5, 5, 5, 5, 5, 5, 5, 5, 5, 5, 5, 5, 5, 5, 5, 5, 5, 5, 5, 5, 5, 5, 5, 5, 5, 5, 5, 5, 5,
    5, 5, 5, 5, 5, 5, 5, 5, 5, 5, 5, 5, 5, 5, 5, 5, 5, 5, 5, 5, 5, 5, 5, 5, 5, 5, 5, 5, 5, 5, 5, 0]

/-- Table `small_dist_sym` from the source (512 entries). -/
def s_small_dist_symList : List Nat := [
    0, 1, 2, 3, 4, 4, 5, 5, 6, 6, 6, 6, 7, 7, 7, 7, 8, 8, 8, 8, 8, 8, 8, 8, 9, 9, 9, 9, 9, 9, 9, 9,
    10, 10, 10, 10, 10, 10, 10, 10, 10, 10, 10, 10, 10, 10, 10, 10, 11, 11, 11, 11, 11, 11, 11, 11, 11, 11, 11, 11, 11, 11, 11, 11,
    12, 12, 12, 12, 12, 12, 12, 12, 12, 12, 12, 12, 12, 12, 12, 12, 12, 12, 12, 12, 12, 12, 12, 12, 12, 12, 12, 12, 12, 12, 12, 12,
    13, 13, 13, 13, 13, 13, 13, 13, 13, 13, 13, 13, 13, 13, 13, 13, 13, 13, 13, 13, 13, 13, 13, 13, 13, 13, 13, 13, 13, 13, 13, 13,
    14, 14, 14, 14, 14, 14, 14, 14, 14, 14, 14, 14, 14, 14, 14, 14, 14, 14, 14, 14, 14, 14, 14, 14, 14, 14, 14, 14, 14, 14, 14, 14,
    14, 14, 14, 14, 14, 14, 14, 14, 14, 14, 14, 14, 14, 14, 14, 14, 14, 14, 14, 14, 14, 14, 14, 14, 14, 14, 14, 14, 14, 14, 14, 14,
    15, 15, 15, 15, 15, 15, 15, 15, 15, 15, 15, 15, 15, 15, 15, 15, 15, 15, 15, 15, 15, 15, 15, 15, 15, 15, 15, 15, 15, 15, 15, 15,
    15, 15, 15, 15, 15, 15, 15, 15, 15, 15, 15, 15, 15, 15, 15, 15, 15, 15, 15, 15, 15, 15, 15, 15, 15, 15, 15, 15, 15, 15, 15, 15,
    16, 16, 16, 16, 16, 16, 16, 16, 16, 16, 16, 16, 16, 16, 16, 16, 16, 16, 16, 16, 16, 16, 16, 16, 16, 16, 16, 16, 16, 16, 16, 16,
    16, 16, 16, 16, 16, 16, 16, 16, 16, 16, 16, 16, 16, 16, 16, 16, 16, 16, 16, 16, 16, 16, 16, 16, 16, 16, 16, 16, 16, 16, 16, 16,
    16, 16, 16, 16, 16, 16, 16, 16, 16, 16, 16, 16, 16, 16, 16, 16, 16, 16, 16, 16, 16, 16, 16, 16, 16, 16, 16, 16, 16, 16, 16, 16,
    16, 16, 16, 16, 16, 16, 16, 16, 16, 16, 16, 16, 16, 16, 16, 16, 16, 16, 16, 16, 16, 16, 16, 16, 16, 16, 16, 16, 16, 16, 16, 16,
    17, 17, 17, 17, 17, 17, 17, 17, 17, 17, 17, 17, 17, 17, 17, 17, 17, 17, 17, 17, 17, 17, 17, 17, 17, 17, 17, 17, 17, 17, 17, 17,
    17, 17, 17, 17, 17, 17, 17, 17, 17, 17, 17, 17, 17, 17, 17, 17, 17, 17, 17, 17, 17, 17, 17, 17, 17, 17, 17, 17, 17, 17, 17, 17,
    17, 17, 17, 17, 17, 17, 17, 17, 17, 17, 17, 17, 17, 17, 17, 17, 17, 17, 17, 17, 17, 17, 17, 17, 17, 17, 17, 17, 17, 17, 17, 17,
    17, 17, 17, 17, 17, 17, 17, 17, 17, 17, 17, 17, 17, 17, 17, 17, 17, 17, 17, 17, 17, 17, 17, 17, 17, 17, 17, 17, 17, 17, 17, 17]

/-- Table `small_dist_extra` from the source (512 entries). -/
def s_small_dist_extraList : List Nat := [
    0, 0, 0, 0, 1, 1, 1, 1, 2, 2, 2, 2, 2, 2, 2, 2, 3, 3, 3, 3, 3, 3, 3, 3, 3, 3, 3, 3, 3, 3, 3, 3,
    4, 4, 4, 4, 4, 4, 4, 4, 4, 4, 4, 4, 4, 4, 4, 4, 4, 4, 4, 4, 4, 4, 4, 4, 4, 4, 4, 4, 4, 4, 4, 4,
    5, 5, 5, 5, 5, 5, 5, 5, 5, 5, 5, 5, 5, 5, 5, 5, 5, 5, 5, 5, 5, 5, 5, 5, 5, 5, 5, 5, 5, 5, 5, 5,
    5, 5, 5, 5, 5, 5, 5, 5, 5, 5, 5, 5, 5, 5, 5, 5, 5, 5, 5, 5, 5, 5, 5, 5, 5, 5, 5, 5, 5, 5, 5, 5,
    6, 6, 6, 6, 6, 6, 6, 6, 6, 6, 6, 6, 6, 6, 6, 6, 6, 6, 6, 6, 6, 6, 6, 6, 6, 6, 6, 6, 6, 6, 6, 6,
    6, 6, 6, 6, 6, 6, 6, 6, 6, 6, 6, 6, 6, 6, 6, 6, 6, 6, 6, 6, 6, 6, 6, 6, 6, 6, 6, 6, 6, 6, 6, 6,
    6, 6, 6, 6, 6, 6, 6, 6, 6, 6, 6, 6, 6, 6, 6, 6, 6, 6, 6, 6, 6, 6, 6, 6, 6, 6, 6, 6, 6, 6, 6, 6,
    6, 6, 6, 6, 6, 6, 6, 6, 6, 6, 6, 6, 6, 6, 6, 6, 6, 6, 6, 6, 6, 6, 6, 6, 6, 6, 6, 6, 6, 6, 6, 6,
    7, 7, 7, 7, 7, 7, 7, 7, 7, 7, 7, 7, 7, 7, 7, 7, 7, 7, 7, 7, 7, 7, 7, 7, 7, 7, 7, 7, 7, 7, 7, 7,
    7, 7, 7, 7, 7, 7, 7, 7, 7, 7, 7, 7, 7, 7, 7, 7, 7, 7, 7, 7, 7, 7, 7, 7, 7, 7, 7, 7, 7, 7, 7, 7,
    7, 7, 7, 7, 7, 7, 7, 7, 7, 7, 7, 7, 7, 7, 7, 7, 7, 7, 7, 7, 7, 7, 7, 7, 7, 7, 7, 7, 7, 7, 7, 7,
    7, 7, 7, 7, 7, 7, 7, 7, 7, 7, 7, 7, 7, 7, 7, 7, 7, 7, 7, 7, 7, 7, 7, 7, 7, 7, 7, 7, 7, 7, 7, 7,
    7, 7, 7, 7, 7, 7, 7, 7, 7, 7, 7, 7, 7, 7, 7, 7, 7, 7, 7, 7, 7, 7, 7, 7, 7, 7, 7, 7, 7, 7, 7, 7,
    7, 7, 7, 7, 7, 7, 7, 7, 7, 7, 7, 7, 7, 7, 7, 7, 7, 7, 7, 7, 7, 7, 7, 7, 7, 7, 7, 7, 7, 7, 7, 7,
    7, 7, 7, 7, 7, 7, 7, 7, 7, 7, 7, 7, 7, 7, 7, 7, 7, 7, 7, 7, 7, 7, 7, 7, 7, 7, 7, 7, 7, 7, 7, 7,
    7, 7, 7, 7, 7, 7, 7, 7, 7, 7, 7, 7, 7, 7, 7, 7, 7, 7, 7, 7, 7, 7, 7, 7, 7, 7, 7, 7, 7, 7, 7, 7]

/-- Table `large_dist_sym` from the source (128 entries). -/
def s_large_dist_symList : List Nat := [
    0, 0, 18, 19, 20, 20, 21, 21, 22, 22, 22, 22, 23, 23, 23, 23, 24, 24, 24, 24, 24, 24, 24, 24, 25, 25, 25, 25, 25, 25, 25, 25,
    26, 26, 26, 26, 26, 26, 26, 26, 26, 26, 26, 26, 26, 26, 26, 26, 27, 27, 27, 27, 27, 27, 27, 27, 27, 27, 27, 27, 27, 27, 27, 27,
    28, 28, 28, 28, 28, 28, 28, 28, 28, 28, 28, 28, 28, 28, 28, 28, 28, 28, 28, 28, 28, 28, 28, 28, 28, 28, 28, 28, 28, 28, 28, 28,
    29, 29, 29, 29, 29, 29, 29, 29, 29, 29, 29, 29, 29, 29, 29, 29, 29, 29, 29, 29, 29, 29, 29, 29, 29, 29, 29, 29, 29, 29, 29, 29]

/-- Table `large_dist_extra` from the source (128 entries). -/
def s_large_dist_extraList : List Nat := [
    0, 0, 8, 8, 9, 9, 9, 9, 10, 10, 10, 10, 10, 10, 10, 10, 11, 11, 11, 11, 11, 11, 11, 11, 11, 11, 11, 11, 11, 11, 11, 11,
    12, 12, 12, 12, 12, 12, 12, 12, 12, 12, 12, 12, 12, 12, 12, 12, 12, 12, 12, 12, 12, 12, 12, 12, 12, 12, 12, 12, 12, 12, 12, 12,
    13, 13, 13, 13, 13, 13, 13, 13, 13, 13, 13, 13, 13, 13, 13, 13, 13, 13, 13, 13, 13, 13, 13, 13, 13, 13, 13, 13, 13, 13, 13, 13,
    13, 13, 13, 13, 13, 13, 13, 13, 13, 13, 13, 13, 13, 13, 13, 13, 13, 13, 13, 13, 13, 13, 13, 13, 13, 13, 13, 13, 13, 13, 13, 13]

/-- Access `s_len_sym[i]`. -/
def s_len_sym (i : Nat) : Nat := s_len_symList.getD i 0
/-- Access `s_len_extra[i]`. -/
def s_len_extra (i : Nat) : Nat := s_len_extraList.getD i 0
/-- Access `s_small_dist_sym[i]`. -/
def s_small_dist_sym (i : Nat) : Nat := s_small_dist_symList.getD i 0
/-- Access `s_small_dist_extra[i]`. -/
def s_small_dist_extra (i : Nat) : Nat := s_small_dist_extraList.getD i 0
/-- Access `s_large_dist_sym[i]`. -/
def s_large_dist_sym (i : Nat) : Nat := s_large_dist_symList.getD i 0
/-- Access `s_large_dist_extra[i]`. -/
def s_large_dist_extra (i : Nat) : Nat := s_large_dist_extraList.getD i 0

/-! ## `adler32`

The source processes the buffer in blocks: the first block is
`buf_len % 5552` bytes long, every further block is 5552 bytes, and
`s1`, `s2` are reduced mod 65521 after each block.  The accumulators are
C `uint32`; with a block bound of 5552 they never reach `2^32`, so plain
`Nat` addition agrees with the C arithmetic. -/

/-- One block of the adler loop: fold the bytes into `(s1, s2)`. -/
def adlerBlock (bytes : List Nat) (s1 s2 : Nat) : Nat × Nat :=
  match bytes with
  | [] => (s1, s2)
  | b :: rest => adlerBlock rest (s1 + b) (s2 + s1 + b)

/-- The `while (buf_len)` loop of `adler32`, one iteration per block.
After the first iteration every block is 5552 bytes long, so at most one
iteration makes no progress and `bytes.length + 2` units of fuel always
cover the C loop. -/
def adlerChunks (bytes : List Nat) (blockLen : Nat) (s1 s2 : Nat) (fuel : Nat) :
    Nat × Nat :=
  match fuel with
  | 0 => (s1, s2)
  | fuel + 1 =>
    match bytes with
    | [] => (s1, s2)
    | _ :: _ =>
      let p := adlerBlock (bytes.take blockLen) s1 s2
      adlerChunks (bytes.drop blockLen) 5552 (p.1 % 65521) (p.2 % 65521) fuel

/-- `tinydeflate::adler32`. -/
def adler32 (bytes : List Nat) (adler : Nat) : Nat :=
  let s1 := adler &&& 0xffff
  let s2 := adler >>> 16
  let p := adlerChunks bytes (bytes.length % 5552) s1 s2 (bytes.length + 2)
  (p.2 <<< 16) + p.1


/-! ## Packed arrays

A C array `T a[n]` with `w`-bit entries is a natural number whose bits
`[w*i, w*i + w)` hold `a[i]`. -/

/-- Read entry `i` of a `w`-bit packed array. -/
def aGet (w a i : Nat) : Nat := (a >>> (w * i)) % 2 ^ w

/-- Write value `v` (truncated to `w` bits) to entry `i` of a `w`-bit
packed array. -/
def aSet (w a i v : Nat) : Nat :=
  (a / 2 ^ (w * (i + 1))) * 2 ^ (w * (i + 1)) + (v % 2 ^ w) * 2 ^ (w * i) +
    a % 2 ^ (w * i)

/-- Zero entries `lo .. lo+n-1` of a `w`-bit packed array
(a `memset(..., 0, ...)` over that range). -/
def aClear (w a lo n : Nat) : Nat :=
  (a / 2 ^ (w * (lo + n))) * 2 ^ (w * (lo + n)) + a % 2 ^ (w * lo)

/-- Read `m_huff_count`-style cell `[t][i]` of a packed 16-bit `[3][384]`
array (C row-major layout). -/
def hGet (a t i : Nat) : Nat := aGet 16 a (t * 384 + i)

/-- Write `m_huff_count`-style cell `[t][i]`. -/
def hSet (a t i v : Nat) : Nat := aSet 16 a (t * 384 + i) v

/-- Read `m_huff_code_sizes`-style cell `[t][i]` of a packed 8-bit
`[3][384]` array. -/
def h8Get (a t i : Nat) : Nat := aGet 8 a (t * 384 + i)

/-- Write `m_huff_code_sizes`-style cell `[t][i]`. -/
def h8Set (a t i v : Nat) : Nat := aSet 8 a (t * 384 + i) v

/-! ## Compressor state

All `m_` fields of `class compressor`, plus the sink observations and the
ghost fields.  The sink behavior itself (`put_buf`) is a separate
function parameter `sinkOk`. -/

/-- A token recorded into the LZ code buffer: a literal byte, or a match
with its (unbiased) length and distance. -/
inductive Tok where
  | lit (c : Nat)
  | mtch (len dist : Nat)
deriving DecidableEq, Repr

/-- The compressor state. -/
structure CompState where
  sink_present : Bool
  m_flags : Nat
  m_max_probes : Nat
  m_greedy_parsing : Bool
  m_all_writes_succeeded : Bool
  m_adler32 : Nat
  m_lookahead_pos : Nat
  m_lookahead_size : Nat
  m_dict_size : Nat
  m_dict : Nat             -- packed, 8-bit entries
  m_next : Nat             -- packed, 16-bit entries
  m_hash : Nat             -- packed, 16-bit entries
  lz_buf : Nat             -- contents of m_lz_code_buf, packed 8-bit
  lz_code_pos : Nat        -- m_pLZ_code_buf as an index into m_lz_code_buf
  lz_flags_pos : Nat       -- m_pLZ_flags as an index into m_lz_code_buf
  m_num_flags_left : Nat
  out_buf : Nat            -- contents of m_output_buf, packed 8-bit
  out_pos : Nat            -- m_pOutput_buf as an index into m_output_buf
  m_bits_in : Nat
  m_bit_buffer : Nat
  m_saved_match_dist : Nat
  m_saved_match_len : Nat
  m_saved_lit : Nat
  m_huff_count : Nat       -- packed uint16[3][384]
  m_huff_codes : Nat       -- packed uint16[3][384]
  m_huff_code_sizes : Nat  -- packed uint8[3][384]
  sink_calls : Nat
  sink_out : List (List Nat)
  fed : List Nat           -- ghost: all bytes inserted into the dictionary
  tokens : List Tok        -- ghost: all recorded LZ tokens
deriving DecidableEq, Repr

/-- `compressor::flush_output_buffer`: hand the staged bytes to the sink
(only when no write has failed yet and the buffer is nonempty), then
reset the staging pointer. -/
def flush_output_buffer (sinkOk : Nat → Bool) (s : CompState) : CompState :=
  let s :=
    if s.m_all_writes_succeeded ∧ 0 < s.out_pos then
      { s with
        m_all_writes_succeeded := sinkOk s.sink_calls
        sink_calls := s.sink_calls + 1
        sink_out := s.sink_out ++ [(List.range s.out_pos).map (aGet 8 s.out_buf)] }
    else s
  { s with out_pos := 0 }

/-- The byte-draining loop of `TDEFL_PUT_BITS`
(`while (m_bits_in >= 8) { ... }`), by recursion on `m_bits_in`. -/
def putBitsDrain (sinkOk : Nat → Bool) (s : CompState) (fuel : Nat) : CompState :=
  match fuel with
  | 0 => s
  | fuel + 1 =>
    if 8 ≤ s.m_bits_in then
      let s := { s with
        out_buf := aSet 8 s.out_buf s.out_pos (s.m_bit_buffer &&& 0xFF)
        out_pos := s.out_pos + 1 }
      let s := if s.out_pos = OUT_BUF_SIZE then flush_output_buffer sinkOk s else s
      putBitsDrain sinkOk
        { s with
          m_bit_buffer := s.m_bit_buffer >>> 8
          m_bits_in := s.m_bits_in - 8 } fuel
    else s

/-- `TDEFL_PUT_BITS(b, l)`: or `b` into the bit accumulator at offset
`m_bits_in` and drain whole bytes.  `m_bits_in` is at most 7 on entry and
`l ≤ 16`, so `m_bits_in` is the fuel the drain loop needs. -/
def putBits (sinkOk : Nat → Bool) (s : CompState) (b l : Nat) : CompState :=
  let s := { s with
    m_bit_buffer := s.m_bit_buffer ||| (b <<< s.m_bits_in)
    m_bits_in := s.m_bits_in + l }
  putBitsDrain sinkOk s s.m_bits_in

/-! ## Huffman table construction

`sym_freq` is a pair `(m_key, m_sym_index)`.  The function-local scratch
arrays of `radix_sort_syms`, `calculate_minimum_redundancy` and
`optimize_huffman_table` (histograms, offsets, the sorted symbol array,
`num_codes`, `next_code`) are modelled as update-chained functions; only
the member arrays of the compressor use the packed representation. -/

/-- The histogram of `radix_sort_syms`: a single 512-slot array, slots
`0..255` count the low key byte, slots `256..511` the high key byte. -/
def radixHist (syms : List (Nat × Nat)) : Nat → Nat :=
  syms.foldl
    (fun h sf =>
      let h := upd h (sf.1 &&& 0xFF) (h (sf.1 &&& 0xFF) + 1)
      upd h (256 + ((sf.1 >>> 8) &&& 0xFF)) (h (256 + ((sf.1 >>> 8) &&& 0xFF)) + 1))
    (fun _ => 0)

/-- The `offsets[]` computation of one radix pass: exclusive prefix sums
of the 256 histogram slots starting at `base`. -/
def radixOffsets (hist : Nat → Nat) (base : Nat) : (Nat → Nat) × Nat :=
  (List.range 256).foldl
    (fun (p : (Nat → Nat) × Nat) i => (upd p.1 i p.2, p.2 + hist (base + i)))
    (fun _ => 0, 0)

/-- One placement pass of `radix_sort_syms`: stable bucket placement of
`syms` by the key byte selected by `pass_shift`. -/
def radixPass (syms : List (Nat × Nat)) (hist : Nat → Nat) (pass pass_shift : Nat) :
    List (Nat × Nat) :=
  let offs := (radixOffsets hist (pass <<< 8)).1
  let placed := syms.foldl
    (fun (p : (Nat → Nat × Nat) × (Nat → Nat)) x =>
      let b := (x.1 >>> pass_shift) &&& 0xFF
      (upd p.1 (p.2 b) x, upd p.2 b (p.2 b + 1)))
    (fun _ => (0, 0), offs)
  (List.range syms.length).map placed.1

/-- `radix_sort_syms`: radix sort of `(key, sym)` pairs by the 16-bit
key, two 8-bit passes, with the second pass skipped when every key has a
zero high byte (`num_syms == hist[256]`). -/
def radix_sort_syms (syms : List (Nat × Nat)) : List (Nat × Nat) :=
  let hist := radixHist syms
  let total_passes := if syms.length = hist 256 then 1 else 2
  (List.range total_passes).foldl
    (fun cur pass => radixPass cur hist pass (pass * 8))
    syms

/-- Read the `m_key` field of slot `i`. -/
def keyOf (A : Nat → Nat × Nat) (i : Nat) : Nat := (A i).1

/-- Write the `m_key` field of slot `i` (the `m_sym_index` field is kept). -/
def setKey (A : Nat → Nat × Nat) (i k : Nat) : Nat → Nat × Nat :=
  upd A i (k, (A i).2)

/-- The pairing phase of `calculate_minimum_redundancy`
(`for (next=1; next < n-1; next++) { ... }`); carries `(A, root, leaf)`. -/
def cmrPhase1 (n : Nat) (st : (Nat → Nat × Nat) × Nat × Nat) : (Nat → Nat × Nat) × Nat × Nat :=
  (List.range (n - 2)).foldl
    (fun st k =>
      let next := k + 1
      let A := st.1; let root := st.2.1; let leaf := st.2.2
      let (A, root, leaf) :=
        if n ≤ leaf ∨ keyOf A root < keyOf A leaf then
          (setKey (setKey A next (keyOf A root)) root next, root + 1, leaf)
        else
          (setKey A next (keyOf A leaf), root, leaf + 1)
      if n ≤ leaf ∨ (root < next ∧ keyOf A root < keyOf A leaf) then
        (setKey (setKey A next ((keyOf A next + keyOf A root) % 65536)) root next,
         root + 1, leaf)
      else
        (setKey A next ((keyOf A next + keyOf A leaf) % 65536), root, leaf + 1))
    st

/-- The depth-conversion phase of `calculate_minimum_redundancy`
(`A[n-2].m_key = 0; for (next=n-3; next>=0; next--) ...`). -/
def cmrPhase2 (n : Nat) (A : Nat → Nat × Nat) : Nat → Nat × Nat :=
  let A := setKey A (n - 2) 0
  (List.range (n - 2)).reverse.foldl
    (fun A next => setKey A next ((keyOf A (keyOf A next) + 1) % 65536))
    A

/-- The inner `while (root>=0 && (int)A[root].m_key==dpth)` scan of the
leaf-assignment phase; recursion on `root + 1`. -/
def cmrRootScan (A : Nat → Nat × Nat) (dpth used : Nat) (root : Int) (fuel : Nat) :
    Nat × Int :=
  match fuel with
  | 0 => (used, root)
  | fuel + 1 =>
    if 0 ≤ root ∧ keyOf A root.toNat = dpth then
      cmrRootScan A dpth (used + 1) (root - 1) fuel
    else (used, root)

/-- The leaf-assignment phase of `calculate_minimum_redundancy`
(`while (avbl>0) { ... }`).  The C loop performs at most `n + 2`
iterations (each internal node is consumed at most once and the loop
closes one step after `used` stays 0), which is the fuel passed in. -/
def cmrPhase3 (A : Nat → Nat × Nat) (avbl used dpth : Nat) (root next : Int)
    (fuel : Nat) : Nat → Nat × Nat :=
  match fuel with
  | 0 => A
  | fuel + 1 =>
    if 0 < avbl then
      let (used, root) := cmrRootScan A dpth used root (root.toNat + 1)
      let writes := avbl - used
      let (A, next) := (List.range writes).foldl
        (fun (p : (Nat → Nat × Nat) × Int) _ =>
          ((if 0 ≤ p.2 then setKey p.1 p.2.toNat (dpth % 65536) else p.1), p.2 - 1))
        (A, next)
      cmrPhase3 A (2 * used) 0 (dpth + 1) root next fuel
    else A

/-- `calculate_minimum_redundancy` (Moffat–Katajainen): turns the keys of
the frequency-sorted array `A` (of size `n`) into code lengths, in place. -/
def calculate_minimum_redundancy (A : Nat → Nat × Nat) (n : Nat) : Nat → Nat × Nat :=
  if n = 0 then A
  else if n = 1 then setKey A 0 1
  else
    let A := setKey A 0 ((keyOf A 0 + keyOf A 1) % 65536)
    let st := cmrPhase1 n (A, 0, 2)
    let A := cmrPhase2 n st.1
    cmrPhase3 A 1 0 0 ((n : Int) - 2) ((n : Int) - 1) (n + 2)

/-- The folding loop of `huffman_enforce_max_code_size`
(`for (i = max_code_size + 1; i <= 32; i++) pNum_codes[max] += pNum_codes[i]`). -/
def enforceFold (nc : Nat → Int) (max_code_size : Nat) : Nat → Int :=
  (List.range (MAX_SUPPORTED_HUFF_CODESIZE - max_code_size)).foldl
    (fun nc k =>
      upd nc max_code_size (nc max_code_size + nc (max_code_size + 1 + k)))
    nc

/-- The `total` accumulation of `huffman_enforce_max_code_size`
(`for (i = max; i > 0; i--) total += ((uint32)pNum_codes[i]) << (max-i)`,
`total` being `uint32`). -/
def enforceTotal (nc : Nat → Int) (max_code_size : Nat) : Nat :=
  (List.range max_code_size).foldl
    (fun total k =>
      let i := max_code_size - k
      (total + ((u32ofInt (nc i)) <<< (max_code_size - i))) % 4294967296)
    0

/-- The Kraft-repair loop of `huffman_enforce_max_code_size`
(`while (total != (1UL << max_code_size)) { ... }`).  Each iteration
decrements `total` by one (as `uint32`), so `total + 1` units of fuel are
exactly enough whenever `total` starts at or above `1 << max_code_size`
(which holds for every histogram produced by
`calculate_minimum_redundancy`); the C loop does not terminate earlier. -/
def enforceRepair (nc : Nat → Int) (total : Nat) (max_code_size : Nat) (fuel : Nat) :
    Nat → Int :=
  match fuel with
  | 0 => nc
  | fuel + 1 =>
    if total ≠ (1 <<< max_code_size) then
      let nc := upd nc max_code_size (nc max_code_size - 1)
      let nc :=
        match ((List.range (max_code_size - 1)).reverse.map (· + 1)).find?
            (fun i => nc i ≠ 0) with
        | some i => upd (upd nc i (nc i - 1)) (i + 1) (nc (i + 1) + 2)
        | none => nc
      enforceRepair nc ((total + 4294967295) % 4294967296) max_code_size fuel
    else nc

/-- `huffman_enforce_max_code_size`: fold histogram mass above the cap
into the cap, then repair Kraft equality.  The histogram entries are C
`int` (they can transiently go negative), hence `Int`. -/
def huffman_enforce_max_code_size (nc : Nat → Int) (code_list_len max_code_size : Nat) :
    Nat → Int :=
  if code_list_len ≤ 1 then nc
  else
    let nc := enforceFold nc max_code_size
    let total := enforceTotal nc max_code_size
    enforceRepair nc total max_code_size (total + 1)

/-- Bit-reversal of `code` over `code_size` bits
(`for (l = code_size; l > 0; l--, code >>= 1) rev = (rev << 1) | (code & 1)`). -/
def bitrev (code code_size : Nat) : Nat :=
  ((List.range code_size).foldl
    (fun (p : Nat × Nat) _ => ((p.1 <<< 1) ||| (p.2 &&& 1), p.2 >>> 1))
    (0, code)).1

/-- `compressor::optimize_huffman_table`: build code sizes and canonical
bit-reversed codes for table `table_num` from its frequency counts. -/
def optimize_huffman_table (s : CompState) (table_num table_len code_size_limit : Nat) :
    CompState :=
  let syms0 : List (Nat × Nat) := (List.range table_len).foldl
    (fun acc i =>
      if hGet s.m_huff_count table_num i ≠ 0 then
        acc ++ [(hGet s.m_huff_count table_num i, i)]
      else acc)
    []
  let num_used_syms := syms0.length
  let pSymsL := radix_sort_syms syms0
  let A := calculate_minimum_redundancy (fun i => pSymsL.getD i (0, 0)) num_used_syms
  let num_codes : Nat → Int := (List.range num_used_syms).foldl
    (fun nc i => upd nc (A i).1 (nc (A i).1 + 1))
    (fun _ => 0)
  let num_codes := huffman_enforce_max_code_size num_codes num_used_syms code_size_limit
  -- clear_obj(m_huff_code_sizes[table_num]); clear_obj(m_huff_codes[table_num]);
  -- then assign sizes walking the sorted symbols from the back
  let sizes0 := aClear 8 s.m_huff_code_sizes (table_num * 384) 384
  let codes0 := aClear 16 s.m_huff_codes (table_num * 384) 384
  let sizesArr : Nat :=
    (((List.range code_size_limit).foldl
      (fun (p : Nat × Int) k =>
        let i := k + 1
        (List.range (num_codes i).toNat).foldl
          (fun (p : Nat × Int) _ =>
            let j := p.2 - 1
            (h8Set p.1 table_num (A j.toNat).2 i, j))
          p)
      (sizes0, (num_used_syms : Int)))).1
  -- next_code[1] = 0; for (j = 0, i = 2; i <= limit; i++) next_code[i] = j = ((j + num_codes[i-1]) << 1)
  let next_code : Nat → Nat :=
    (((List.range (code_size_limit - 1)).foldl
      (fun (p : (Nat → Nat) × Int) k =>
        let i := k + 2
        let j := 2 * (p.2 + num_codes (i - 1))
        (upd p.1 i (u32ofInt j), j))
      (upd (fun _ => 0) 1 0, 0))).1
  -- assign bit-reversed canonical codes
  let codesArr : Nat :=
    (((List.range table_len).foldl
      (fun (p : Nat × (Nat → Nat)) i =>
        let code_size := h8Get sizesArr table_num i
        if code_size = 0 then p
        else
          let code := p.2 code_size
          let nxt := upd p.2 code_size ((code + 1) % 4294967296)
          (hSet p.1 table_num i (bitrev code code_size), nxt))
      (codes0, next_code))).1
  { s with m_huff_code_sizes := sizesArr, m_huff_codes := codesArr }

/-! ## Dynamic block emission -/

/-- The countdown scans computing `num_lit_codes` / `num_dist_codes`:
largest `n > lo` with `f (n-1) ≠ 0`, starting the scan at `hi`, else `lo`. -/
def scanDown (f : Nat → Nat) (hi lo : Nat) : Nat :=
  match hi with
  | 0 => 0
  | h + 1 => if lo < h + 1 then (if f h ≠ 0 then h + 1 else scanDown f h lo) else h + 1

/-- State of the RLE packing loop in `start_dynamic_block`: the
`m_huff_count` array whose row 2 is being tallied, the packed output, and
the two run counters. -/
structure RleState where
  cnt : Nat
  packed : List Nat
  rle_z_count : Nat
  rle_repeat_count : Nat
deriving DecidableEq, Repr

/-- `TDEFL_RLE_PREV_CODE_SIZE()`. -/
def rlePrev (st : RleState) (prev_code_size : Nat) : RleState :=
  if st.rle_repeat_count ≠ 0 then
    if st.rle_repeat_count < 3 then
      { st with
        cnt := hSet st.cnt 2 prev_code_size
          (hGet st.cnt 2 prev_code_size + st.rle_repeat_count)
        packed := st.packed ++ List.replicate st.rle_repeat_count prev_code_size
        rle_repeat_count := 0 }
    else
      { st with
        cnt := hSet st.cnt 2 16 (hGet st.cnt 2 16 + 1)
        packed := st.packed ++ [16, st.rle_repeat_count - 3]
        rle_repeat_count := 0 }
  else st

/-- `TDEFL_RLE_ZERO_CODE_SIZE()`. -/
def rleZero (st : RleState) : RleState :=
  if st.rle_z_count ≠ 0 then
    if st.rle_z_count < 3 then
      { st with
        cnt := hSet st.cnt 2 0 (hGet st.cnt 2 0 + st.rle_z_count)
        packed := st.packed ++ List.replicate st.rle_z_count 0
        rle_z_count := 0 }
    else if st.rle_z_count ≤ 10 then
      { st with
        cnt := hSet st.cnt 2 17 (hGet st.cnt 2 17 + 1)
        packed := st.packed ++ [17, st.rle_z_count - 3]
        rle_z_count := 0 }
    else
      { st with
        cnt := hSet st.cnt 2 18 (hGet st.cnt 2 18 + 1)
        packed := st.packed ++ [18, st.rle_z_count - 11]
        rle_z_count := 0 }
  else st

/-- The RLE packing loop over `code_sizes_to_pack`; carries the `RleState`
and `prev_code_size` (initially `0xFF`).  `cnt` starts from the
compressor's `m_huff_count` with row 2 already zeroed. -/
def rleStep (p : RleState × Nat) (code_size : Nat) : RleState × Nat :=
  let st := p.1; let prev_code_size := p.2
  let st :=
    if code_size = 0 then
      let st := rlePrev st prev_code_size
      let st := { st with rle_z_count := st.rle_z_count + 1 }
      if st.rle_z_count = 138 then rleZero st else st
    else
      let st := rleZero st
      if code_size ≠ prev_code_size then
        let st := rlePrev st prev_code_size
        { st with
          cnt := hSet st.cnt 2 code_size (hGet st.cnt 2 code_size + 1)
          packed := st.packed ++ [code_size] }
      else
        let st := { st with rle_repeat_count := st.rle_repeat_count + 1 }
        if st.rle_repeat_count = 6 then rlePrev st prev_code_size else st
  (st, code_size)

/-- Fold `rleStep` over a list of code sizes from an arbitrary carry. -/
def rleFold (p : RleState × Nat) (sizes : List Nat) : RleState × Nat :=
  sizes.foldl rleStep p

def rleLoop (cnt0 : Nat) (sizes : List Nat) : RleState :=
  rleFold ({ cnt := cnt0, packed := [], rle_z_count := 0, rle_repeat_count := 0 }, 0xFF) sizes
  |> fun p =>
    if p.1.rle_repeat_count ≠ 0 then rlePrev p.1 p.2 else rleZero p.1

/-- The swizzle order of the code-length alphabet
(`s_packed_code_size_syms_swizzle`). -/
def swizzleList : List Nat := [16, 17, 18, 0, 8, 7, 9, 6, 10, 5, 11, 4, 12, 3, 13, 2, 14, 1, 15]

/-- Access `s_packed_code_size_syms_swizzle[i]`. -/
def swizzle (i : Nat) : Nat := swizzleList.getD i 0

/-- The emission loop over the packed code sizes: each symbol is sent
with its table-2 code; symbols 16/17/18 are followed by their extra
field of 2, 3 or 7 bits (the `"\02\03\07"` string). -/
def emitPacked (sinkOk : Nat → Bool) (s : CompState) (l : List Nat) : CompState :=
  match l with
  | [] => s
  | code :: rest =>
    let s := putBits sinkOk s (hGet s.m_huff_codes 2 code) (h8Get s.m_huff_code_sizes 2 code)
    if 16 ≤ code then
      match rest with
      | [] => s
      | extra :: rest2 =>
        emitPacked sinkOk (putBits sinkOk s extra ([2, 3, 7].getD (code - 16) 0)) rest2
    else emitPacked sinkOk s rest

/-- The table-building first half of `start_dynamic_block`: the two
primary Huffman tables and the `num_lit_codes` / `num_dist_codes`
scans. -/
def sdb_build1 (s : CompState) : CompState × Nat × Nat :=
  let s := optimize_huffman_table s 0 MAX_HUFF_SYMBOLS_0 15
  let s := optimize_huffman_table s 1 MAX_HUFF_SYMBOLS_1 15
  let num_lit_codes := scanDown (h8Get s.m_huff_code_sizes 0) 286 257
  let num_dist_codes := scanDown (h8Get s.m_huff_code_sizes 1) 30 1
  (s, num_lit_codes, num_dist_codes)

/-- The second half of the table building: the RLE packing of the
concatenated code-length vector (after `memset(&m_huff_count[2][0], 0,
...)`) and the code-length-alphabet Huffman table. -/
def sizesToPack (s : CompState) (num_lit_codes num_dist_codes : Nat) : List Nat :=
  (List.range num_lit_codes).map (h8Get s.m_huff_code_sizes 0) ++
  (List.range num_dist_codes).map (h8Get s.m_huff_code_sizes 1)

def sdb_rle (s : CompState) (num_lit_codes num_dist_codes : Nat) :
    CompState × List Nat :=
  let st := rleLoop (aClear 16 s.m_huff_count (2 * 384) MAX_HUFF_SYMBOLS_2)
    (sizesToPack s num_lit_codes num_dist_codes)
  ({ s with m_huff_count := st.cnt }, st.packed)

def sdb_build2 (s : CompState) (num_lit_codes num_dist_codes : Nat) :
    CompState × List Nat :=
  let p := sdb_rle s num_lit_codes num_dist_codes
  (optimize_huffman_table p.1 2 MAX_HUFF_SYMBOLS_2 7, p.2)

/-- The header part of the emission half of `start_dynamic_block`:
block header fields and the code-length-alphabet lengths in swizzle
order. -/
def sdb_emit_header (sinkOk : Nat → Bool) (s : CompState) (last_block : Bool)
    (num_lit_codes num_dist_codes : Nat) : CompState :=
  let s := putBits sinkOk s (if last_block then 1 else 0) 1
  let s := putBits sinkOk s 2 2
  let s := putBits sinkOk s (num_lit_codes - 257) 5
  let s := putBits sinkOk s (num_dist_codes - 1) 5
  let num_bit_lengths :=
    match (List.range 19).reverse.find?
        (fun i => h8Get s.m_huff_code_sizes 2 (swizzle i) ≠ 0) with
    | some i => i + 1
    | none => 0
  let num_bit_lengths := max 4 num_bit_lengths
  let s := putBits sinkOk s (num_bit_lengths - 4) 4
  (List.range num_bit_lengths).foldl
    (fun s i => putBits sinkOk s (h8Get s.m_huff_code_sizes 2 (swizzle i)) 3) s

/-- The emission half of `start_dynamic_block`: the header, then the
RLE-packed code sizes. -/
def sdb_emit (sinkOk : Nat → Bool) (s : CompState) (last_block : Bool)
    (num_lit_codes num_dist_codes : Nat) (packed : List Nat) : CompState :=
  emitPacked sinkOk (sdb_emit_header sinkOk s last_block num_lit_codes num_dist_codes)
    packed

/-- `compressor::start_dynamic_block`: build the three Huffman tables and
emit the dynamic block header. -/
def start_dynamic_block (sinkOk : Nat → Bool) (s : CompState) (last_block : Bool) :
    CompState :=
  let r1 := sdb_build1 s
  let r2 := sdb_build2 r1.1 r1.2.1 r1.2.2
  sdb_emit sinkOk r2.1 last_block r1.2.1 r1.2.2 r2.2

/-- One pass of the token re-scan in `flush_block` (`pass` 0 counts
frequencies, `pass` 1 emits codes); `cursor`/`flags` mirror `pLZ_codes`
and the flag shift register.  Every iteration advances the cursor, so
`lz_code_pos` bounds the iteration count. -/
def flushScan (sinkOk : Nat → Bool) (s : CompState) (pass cursor flags fuel : Nat) :
    CompState :=
  match fuel with
  | 0 => s
  | fuel + 1 =>
    if cursor < s.lz_code_pos then
      let (flags, cursor) :=
        if flags = 1 then (aGet 8 s.lz_buf cursor ||| 0x100, cursor + 1)
        else (flags, cursor)
      if flags &&& 1 = 1 then
        let match_len := aGet 8 s.lz_buf cursor
        let match_dist := aGet 8 s.lz_buf (cursor + 1) |||
          (aGet 8 s.lz_buf (cursor + 2) <<< 8)
        let cursor := cursor + 3
        let s :=
          if pass = 0 then
            let cnt := hSet s.m_huff_count 0 (s_len_sym match_len)
              (hGet s.m_huff_count 0 (s_len_sym match_len) + 1)
            let cnt :=
              if match_dist < 512 then
                hSet cnt 1 (s_small_dist_sym match_dist)
                  (hGet cnt 1 (s_small_dist_sym match_dist) + 1)
              else
                hSet cnt 1 (s_large_dist_sym (match_dist >>> 8))
                  (hGet cnt 1 (s_large_dist_sym (match_dist >>> 8)) + 1)
            { s with m_huff_count := cnt }
          else
            let s := putBits sinkOk s (hGet s.m_huff_codes 0 (s_len_sym match_len))
              (h8Get s.m_huff_code_sizes 0 (s_len_sym match_len))
            let s := putBits sinkOk s (match_len &&& ((1 <<< s_len_extra match_len) - 1))
              (s_len_extra match_len)
            let (sym, num_extra_bits) :=
              if match_dist < 512 then
                (s_small_dist_sym match_dist, s_small_dist_extra match_dist)
              else
                (s_large_dist_sym (match_dist >>> 8), s_large_dist_extra (match_dist >>> 8))
            let s := putBits sinkOk s (hGet s.m_huff_codes 1 sym)
              (h8Get s.m_huff_code_sizes 1 sym)
            putBits sinkOk s (match_dist &&& ((1 <<< num_extra_bits) - 1)) num_extra_bits
        flushScan sinkOk s pass cursor (flags >>> 1) fuel
      else
        let lit := aGet 8 s.lz_buf cursor
        let cursor := cursor + 1
        let s :=
          if pass = 0 then
            { s with m_huff_count := hSet s.m_huff_count 0 lit (hGet s.m_huff_count 0 lit + 1) }
          else
            putBits sinkOk s (hGet s.m_huff_codes 0 lit) (h8Get s.m_huff_code_sizes 0 lit)
        flushScan sinkOk s pass cursor (flags >>> 1) fuel
    else s

/-- The head of `flush_block`: align the partial flag byte, drop an empty
flag slot, clear the two primary count tables
(`memset` over `MAX_HUFF_SYMBOLS_0` resp. `MAX_HUFF_SYMBOLS_1` entries),
run pass 0 over the LZ code buffer, and count the end-of-block symbol. -/
def fb_prep (sinkOk : Nat → Bool) (s : CompState) : CompState :=
  let lz1 := aSet 8 s.lz_buf s.lz_flags_pos
    ((aGet 8 s.lz_buf s.lz_flags_pos) >>> s.m_num_flags_left)
  let s := { s with lz_buf := lz1 }
  let s := { s with lz_code_pos := s.lz_code_pos - (if s.m_num_flags_left = 8 then 1 else 0) }
  let cnt := aClear 16 s.m_huff_count 0 MAX_HUFF_SYMBOLS_0
  let cnt := aClear 16 cnt 384 MAX_HUFF_SYMBOLS_1
  let s := { s with m_huff_count := cnt }
  let s := flushScan sinkOk s 0 0 1 s.lz_code_pos
  { s with m_huff_count := hSet s.m_huff_count 0 256 (hGet s.m_huff_count 0 256 + 1) }

/-- The tail of `flush_block`: pass 1 over the LZ code buffer, the
end-of-block code, the byte-boundary padding of a final block, and the
LZ code buffer reset. -/
def fb_emit (sinkOk : Nat → Bool) (s : CompState) (last_block : Bool) : CompState :=
  let s := flushScan sinkOk s 1 0 1 s.lz_code_pos
  let s := putBits sinkOk s (hGet s.m_huff_codes 0 256) (h8Get s.m_huff_code_sizes 0 256)
  let s :=
    if last_block ∧ s.m_bits_in &&& 7 ≠ 0 then putBits sinkOk s 0 (8 - s.m_bits_in)
    else s
  { s with lz_code_pos := 1, lz_flags_pos := 0, m_num_flags_left := 8 }

/-- `compressor::flush_block`. -/
def flush_block (sinkOk : Nat → Bool) (s : CompState) (last_block : Bool) : CompState :=
  let s := fb_prep sinkOk s
  let s := start_dynamic_block sinkOk s last_block
  fb_emit sinkOk s last_block

/-! ## Token recording -/

/-- `compressor::record_literal`. -/
def record_literal (sinkOk : Nat → Bool) (s : CompState) (lit : Nat) : CompState :=
  let s := { s with
    lz_buf := aSet 8 s.lz_buf s.lz_code_pos lit
    lz_code_pos := s.lz_code_pos + 1
    tokens := s.tokens ++ [Tok.lit lit] }
  let s := { s with
    lz_buf := aSet 8 s.lz_buf s.lz_flags_pos ((aGet 8 s.lz_buf s.lz_flags_pos) >>> 1)
    m_num_flags_left := s.m_num_flags_left - 1 }
  let s :=
    if s.m_num_flags_left = 0 then
      { s with
        m_num_flags_left := 8
        lz_flags_pos := s.lz_code_pos
        lz_code_pos := s.lz_code_pos + 1 }
    else s
  if LZ_CODE_BUF_SIZE - 4 < s.lz_code_pos then flush_block sinkOk s false else s

/-- `compressor::record_match`: stores `match_len - 3` and the two bytes
of `match_dist - 1`, sets the group flag bit, and flushes a near-full
buffer. -/
def record_match (sinkOk : Nat → Bool) (s : CompState) (match_len match_dist : Nat) :
    CompState :=
  let md := match_dist - 1
  let s := { s with
    lz_buf :=
      aSet 8 (aSet 8 (aSet 8 s.lz_buf s.lz_code_pos (match_len - MIN_MATCH_LEN))
        (s.lz_code_pos + 1) (md &&& 0xFF))
        (s.lz_code_pos + 2) (md >>> 8)
    lz_code_pos := s.lz_code_pos + 3
    tokens := s.tokens ++ [Tok.mtch match_len match_dist] }
  let s := { s with
    lz_buf := aSet 8 s.lz_buf s.lz_flags_pos
      (((aGet 8 s.lz_buf s.lz_flags_pos) >>> 1) ||| 0x80)
    m_num_flags_left := s.m_num_flags_left - 1 }
  let s :=
    if s.m_num_flags_left = 0 then
      { s with
        m_num_flags_left := 8
        lz_flags_pos := s.lz_code_pos
        lz_code_pos := s.lz_code_pos + 1 }
    else s
  if LZ_CODE_BUF_SIZE - 4 < s.lz_code_pos then flush_block sinkOk s false else s

/-! ## Match finder -/

/-- Result of one `TDEFL_PROBE` step: terminate the walk, break to the
full compare, or continue along the chain. -/
inductive ProbeRes where
  | stop (s : CompState)
  | hit (s : CompState) (probe_pos prev_dist : Nat)
  | next (s : CompState) (probe_pos prev_dist : Nat)

/-- One `TDEFL_PROBE` step of `find_match`. -/
def probeStep (s : CompState) (pos max_dist match_len c0 c1 probe_pos prev_dist : Nat) :
    ProbeRes :=
  let next_probe_pos := aGet 16 s.m_next probe_pos
  if 32768 ≤ next_probe_pos then .stop s
  else
    let dist := (pos + LZ_DICT_SIZE - next_probe_pos) &&& LZ_DICT_SIZE_MASK
    if max_dist < dist ∨ dist ≤ prev_dist then
      .stop { s with m_next := aSet 16 s.m_next probe_pos 0xFFFF }
    else
      if aGet 8 s.m_dict (next_probe_pos + match_len) = c0 ∧
         aGet 8 s.m_dict (next_probe_pos + match_len - 1) = c1 then
        .hit s next_probe_pos dist
      else .next s next_probe_pos dist

/-- The three chained `TDEFL_PROBE` expansions of one inner-loop
iteration. -/
def probeTriple (s : CompState) (pos max_dist match_len c0 c1 probe_pos prev_dist : Nat) :
    ProbeRes :=
  match probeStep s pos max_dist match_len c0 c1 probe_pos prev_dist with
  | .stop s => .stop s
  | .hit s pp pd => .hit s pp pd
  | .next s pp pd =>
    match probeStep s pos max_dist match_len c0 c1 pp pd with
    | .stop s => .stop s
    | .hit s pp pd => .hit s pp pd
    | .next s pp pd =>
      probeStep s pos max_dist match_len c0 c1 pp pd

/-- The byte-comparison loop of `find_match`: length of the common run of
`m_dict` bytes starting at `r` and `q`, capped at `max`. -/
def matchCompareLen (dict : Nat) (r q max : Nat) : Nat :=
  match max with
  | 0 => 0
  | max + 1 =>
    if aGet 8 dict r = aGet 8 dict q then matchCompareLen dict (r + 1) (q + 1) max + 1
    else 0

/-- The probing loop of `find_match`: the probe budget is checked and
decremented once per inner-loop iteration (one `probeTriple`). -/
def fmLoop (s : CompState) (pos max_dist max_match_len : Nat)
    (probe_pos prev_dist c0 c1 match_dist match_len budget : Nat) :
    CompState × Nat × Nat :=
  match budget with
  | 0 => (s, match_dist, match_len)
  | budget + 1 =>
    match probeTriple s pos max_dist match_len c0 c1 probe_pos prev_dist with
    | .stop s => (s, match_dist, match_len)
    | .next s pp pd =>
      fmLoop s pos max_dist max_match_len pp pd c0 c1 match_dist match_len budget
    | .hit s pp pd =>
      let probe_len := matchCompareLen s.m_dict pos pp max_match_len
      if match_len < probe_len then
        let match_dist := pd
        let match_len := probe_len
        if match_len = max_match_len then (s, match_dist, match_len)
        else
          fmLoop s pos max_dist max_match_len pp pd
            (aGet 8 s.m_dict (pos + match_len)) (aGet 8 s.m_dict (pos + match_len - 1))
            match_dist match_len budget
      else
        fmLoop s pos max_dist max_match_len pp pd c0 c1 match_dist match_len budget

/-- `compressor::find_match`: improve on the incoming `(match_dist,
match_len)` pair by walking the hash chain from `pos`, mutating `m_next`
when a terminal link is found. -/
def find_match (s : CompState) (pos max_dist max_match_len match_dist match_len : Nat) :
    CompState × Nat × Nat :=
  if max_match_len ≤ match_len then (s, match_dist, match_len)
  else
    fmLoop s pos max_dist max_match_len pos 0
      (aGet 8 s.m_dict (pos + match_len)) (aGet 8 s.m_dict (pos + match_len - 1))
      match_dist match_len s.m_max_probes

/-! ## The main compression loop -/

/-- The fast dictionary-update branch of `compress_data`
(taken when `m_lookahead_size >= MIN_MATCH_LEN - 1`). -/
def insertFast (s : CompState) (src : List Nat) : CompState × List Nat :=
  let dst_pos := (s.m_lookahead_pos + s.m_lookahead_size) &&& LZ_DICT_SIZE_MASK
  let ins_pos := (dst_pos + LZ_DICT_SIZE - 2) &&& LZ_DICT_SIZE_MASK
  let hash := (aGet 8 s.m_dict ins_pos <<< 4) ^^^
    aGet 8 s.m_dict ((ins_pos + 1) &&& LZ_DICT_SIZE_MASK)
  let n := min src.length (MAX_MATCH_LEN - s.m_lookahead_size)
  let s := { s with m_lookahead_size := s.m_lookahead_size + n }
  let s := ((src.take n).foldl
    (fun (p : CompState × Nat × Nat × Nat) b =>
      let s := p.1; let dst_pos := p.2.1; let ins_pos := p.2.2.1; let hash := p.2.2.2
      let c := b &&& 0xFF
      let s := { s with m_dict := aSet 8 s.m_dict dst_pos c, fed := s.fed ++ [c] }
      let s :=
        if dst_pos < MAX_MATCH_LEN - 1 then
          { s with m_dict := aSet 8 s.m_dict (LZ_DICT_SIZE + dst_pos) c }
        else s
      let hash := ((hash <<< 4) ^^^ c) &&& (LZ_HASH_SIZE - 1)
      let s := { s with
        m_next := aSet 16 s.m_next ins_pos (aGet 16 s.m_hash hash)
        m_hash := aSet 16 s.m_hash hash ins_pos }
      (s, (dst_pos + 1) &&& LZ_DICT_SIZE_MASK, (ins_pos + 1) &&& LZ_DICT_SIZE_MASK, hash))
    (s, dst_pos, ins_pos, hash)).1
  (s, src.drop n)

/-- The slow dictionary-update branch of `compress_data` (lookahead still
shorter than `MIN_MATCH_LEN - 1`): insert bytes one at a time until the
lookahead is full or the chunk is exhausted. -/
def insertSlow (s : CompState) (src : List Nat) : CompState × List Nat :=
  match src with
  | [] => (s, [])
  | b :: rest =>
    if s.m_lookahead_size < MAX_MATCH_LEN then
      let c := b &&& 0xFF
      let dst_pos := (s.m_lookahead_pos + s.m_lookahead_size) &&& LZ_DICT_SIZE_MASK
      let s := { s with m_dict := aSet 8 s.m_dict dst_pos c, fed := s.fed ++ [c] }
      let s :=
        if dst_pos < MAX_MATCH_LEN - 1 then
          { s with m_dict := aSet 8 s.m_dict (LZ_DICT_SIZE + dst_pos) c }
        else s
      let s := { s with m_lookahead_size := s.m_lookahead_size + 1 }
      let s :=
        if MIN_MATCH_LEN ≤ s.m_lookahead_size then
          let ins_pos := (dst_pos + LZ_DICT_SIZE - 2) &&& LZ_DICT_SIZE_MASK
          let hash := ((aGet 8 s.m_dict ins_pos <<< 8) ^^^
            (aGet 8 s.m_dict ((ins_pos + 1) &&& LZ_DICT_SIZE_MASK) <<< 4) ^^^ c) &&&
            (LZ_HASH_SIZE - 1)
          { s with
            m_next := aSet 16 s.m_next ins_pos (aGet 16 s.m_hash hash)
            m_hash := aSet 16 s.m_hash hash ins_pos }
        else s
      insertSlow s rest
    else (s, b :: rest)

/-- The lazy/greedy parsing step of `compress_data` (one iteration of the
state machine after the dictionary update). -/
def parseStep (sinkOk : Nat → Bool) (s : CompState) : CompState :=
  let cur_match_len := if s.m_saved_match_len ≠ 0 then s.m_saved_match_len
    else MIN_MATCH_LEN - 1
  let r := find_match s s.m_lookahead_pos s.m_dict_size s.m_lookahead_size 0 cur_match_len
  let s := r.1
  let (cur_match_dist, cur_match_len) :=
    if r.2.2 = MIN_MATCH_LEN ∧ 12 * 1024 ≤ r.2.1 then (0, 0) else (r.2.1, r.2.2)
  let (s, len_to_move) :=
    if s.m_saved_match_len ≠ 0 then
      if s.m_saved_match_len < cur_match_len then
        let s := record_literal sinkOk s (s.m_saved_lit &&& 0xFF)
        if 64 ≤ cur_match_len then
          let s := record_match sinkOk s cur_match_len cur_match_dist
          ({ s with m_saved_match_len := 0 }, cur_match_len)
        else
          ({ s with
              m_saved_lit := aGet 8 s.m_dict s.m_lookahead_pos
              m_saved_match_dist := cur_match_dist
              m_saved_match_len := cur_match_len }, 1)
      else
        let saved_len := s.m_saved_match_len
        let s := record_match sinkOk s s.m_saved_match_len s.m_saved_match_dist
        ({ s with m_saved_match_len := 0 }, saved_len - 1)
    else if cur_match_dist = 0 then
      (record_literal sinkOk s (aGet 8 s.m_dict s.m_lookahead_pos), 1)
    else if s.m_greedy_parsing ∨ 64 ≤ cur_match_len then
      (record_match sinkOk s cur_match_len cur_match_dist, cur_match_len)
    else
      ({ s with
          m_saved_lit := aGet 8 s.m_dict s.m_lookahead_pos
          m_saved_match_dist := cur_match_dist
          m_saved_match_len := cur_match_len }, 1)
  { s with
    m_lookahead_pos := (s.m_lookahead_pos + len_to_move) &&& LZ_DICT_SIZE_MASK
    m_lookahead_size := s.m_lookahead_size - len_to_move
    m_dict_size := min (s.m_dict_size + len_to_move) LZ_DICT_SIZE }

/-- One iteration of the `while ((data_len) || ((!pSrc) &&
(m_lookahead_size)))` loop of `compress_data`, on (state, remaining
source, loop-exited flag): the `return true` taken when a non-terminal
call's lookahead is below `TDEFL_MAX_MATCH_LEN`, and the loop condition
turning false, both set the exit flag, after which further iterations
are the identity. -/
def compressIter (sinkOk : Nat → Bool) (srcNull : Bool)
    (p : CompState × List Nat × Bool) : CompState × List Nat × Bool :=
  if p.2.2 then p
  else
    let s := p.1
    let src := p.2.1
    if src ≠ [] ∨ (srcNull ∧ s.m_lookahead_size ≠ 0) then
      let q :=
        if MIN_MATCH_LEN - 1 ≤ s.m_lookahead_size then insertFast s src
        else insertSlow s src
      let s := { q.1 with
        m_dict_size := min (LZ_DICT_SIZE - q.1.m_lookahead_size) q.1.m_dict_size }
      if ¬ srcNull ∧ s.m_lookahead_size < MAX_MATCH_LEN then (s, q.2, true)
      else (parseStep sinkOk s, q.2, false)
    else (s, src, true)

/-- `compressIter` iterated `fuel` times. -/
def compressIterN (sinkOk : Nat → Bool) (srcNull : Bool)
    (p : CompState × List Nat × Bool) (fuel : Nat) : CompState × List Nat × Bool :=
  match fuel with
  | 0 => p
  | fuel + 1 => compressIterN sinkOk srcNull (compressIter sinkOk srcNull p) fuel

/-- The compression loop of `compress_data`.  Each iteration either exits
or moves at least one unit of `src.length + m_lookahead_size`, so that
quantity plus one is an exact bound on the iteration count and is the
fuel passed in. -/
def compressLoop (sinkOk : Nat → Bool) (s : CompState) (src : List Nat)
    (srcNull : Bool) (fuel : Nat) : CompState :=
  (compressIterN sinkOk srcNull (s, src, false) fuel).1

/-- The Adler-32 trailer emission of the terminal flush
(`for (i = 0; i < 4; i++) { TDEFL_PUT_BITS((m_adler32 >> 24) & 0xFF, 8);
m_adler32 <<= 8; }`, `m_adler32` being `uint32`). -/
def emitAdler (sinkOk : Nat → Bool) (s : CompState) : CompState :=
  (List.range 4).foldl
    (fun s _ =>
      let s := putBits sinkOk s ((s.m_adler32 >>> 24) &&& 0xFF) 8
      { s with m_adler32 := (s.m_adler32 <<< 8) &&& 0xFFFFFFFF })
    s

/-- The terminal-flush block of `compress_data` (the body of
`if (!pData) { ... }`): commit a pending deferred match, emit the final
block, append the zlib Adler-32 trailer, drain the staging buffer, and
close the session (`m_pStream = NULL`). -/
def cd_finish (sinkOk : Nat → Bool) (s : CompState) : CompState :=
  let s :=
    if s.m_saved_match_len ≠ 0 then
      record_match sinkOk s s.m_saved_match_len s.m_saved_match_dist
    else s
  let s := flush_block sinkOk s true
  let s := if s.m_flags &&& WRITE_ZLIB_HEADER ≠ 0 then emitAdler sinkOk s else s
  let s := flush_output_buffer sinkOk s
  { s with sink_present := false }

/-- `compressor::compress_data`.  `srcNull` models `pData == NULL`;
`data` holds the `data_len` bytes at `pData` (junk values chosen by the
caller in the undefined null-with-nonzero-length case).  Returns the new
state and the call's boolean result. -/
def compress_data (sinkOk : Nat → Bool) (s : CompState) (srcNull : Bool)
    (data : List Nat) : CompState × Bool :=
  if ¬ s.sink_present ∨ ¬ s.m_all_writes_succeeded then (s, false)
  else
    let s :=
      if s.m_flags &&& WRITE_ZLIB_HEADER ≠ 0 then
        { s with m_adler32 := adler32 data s.m_adler32 }
      else s
    let s := compressLoop sinkOk s data srcNull (data.length + s.m_lookahead_size + 1)
    let s := if srcNull then cd_finish sinkOk s else s
    (s, s.m_all_writes_succeeded)

/-- `compressor::init`.  `hasStream` models `pStream != NULL` (the sink's
behavior itself is the separate `sinkOk` function passed to
`compress_data`). -/
def init (sinkOk : Nat → Bool) (s : CompState) (hasStream : Bool) (flags : Nat) :
    CompState × Bool :=
  if ¬ hasStream then (s, false)
  else
    let s := { s with
      sink_present := true
      m_flags := flags
      m_max_probes := ((flags &&& 0xFFF) + 2) / 3
      m_greedy_parsing := flags &&& GREEDY_PARSING_FLAG ≠ 0 }
    let s :=
      if flags &&& NONDETERMINISTIC_PARSING_FLAG = 0 then
        { s with m_hash := 2 ^ (16 * LZ_HASH_SIZE) - 1 }
      else s
    let s := { s with
      m_lookahead_pos := 0, m_lookahead_size := 0, m_dict_size := 0
      lz_code_pos := 1, lz_flags_pos := 0, m_num_flags_left := 8
      out_pos := 0, m_bits_in := 0, m_bit_buffer := 0
      m_all_writes_succeeded := true
      m_saved_match_dist := 0, m_saved_match_len := 0, m_saved_lit := 0
      m_adler32 := 1 }
    let s :=
      if s.m_flags &&& WRITE_ZLIB_HEADER ≠ 0 then
        putBits sinkOk (putBits sinkOk s 0x78 8) 1 8
      else s
    (s, s.m_all_writes_succeeded)

/-- A just-constructed `compressor` object: the constructor sets only
`m_pStream` and `m_all_writes_succeeded`; the uninitialized array members
are supplied as arbitrary contents (reduced to their C sizes), and the
uninitialized scalars are irrelevant because `init` assigns all of them
before any path reads them. -/
def freshState (gDict gNext gHash gLz : Nat) : CompState where
  sink_present := false
  m_flags := 0
  m_max_probes := 0
  m_greedy_parsing := false
  m_all_writes_succeeded := false
  m_adler32 := 0
  m_lookahead_pos := 0
  m_lookahead_size := 0
  m_dict_size := 0
  m_dict := gDict % 2 ^ (8 * (LZ_DICT_SIZE + MAX_MATCH_LEN - 1))
  m_next := gNext % 2 ^ (16 * LZ_DICT_SIZE)
  m_hash := gHash % 2 ^ (16 * LZ_HASH_SIZE)
  lz_buf := gLz % 2 ^ (8 * LZ_CODE_BUF_SIZE)
  lz_code_pos := 0
  lz_flags_pos := 0
  m_num_flags_left := 0
  out_buf := 0
  out_pos := 0
  m_bits_in := 0
  m_bit_buffer := 0
  m_saved_match_dist := 0
  m_saved_match_len := 0
  m_saved_lit := 0
  m_huff_count := 0
  m_huff_codes := 0
  m_huff_code_sizes := 0
  sink_calls := 0
  sink_out := []
  fed := []
  tokens := []

/-- A whole session: construct, `init`, feed the chunks in order, then
the terminal flush `compress_data(NULL, 0)`. -/
def runSession (gDict gNext gHash gLz : Nat) (sinkOk : Nat → Bool) (flags : Nat)
    (chunks : List (List Nat)) : CompState :=
  let s := (init sinkOk (freshState gDict gNext gHash gLz) true flags).1
  let s := chunks.foldl (fun s c => (compress_data sinkOk s false c).1) s
  (compress_data sinkOk s true []).1

/-- The byte stream a session delivered to its sink. -/
def sinkBytes (s : CompState) : List Nat := s.sink_out.flatten

/-! ## Concrete sessions and snapshot states used by the theorems -/

/-- A sink whose `put_buf` always succeeds. -/
def sinkTrue : Nat → Bool := fun _ => true

/-- The flags of a default zlib-framed session. -/
def flagsDefaultZlib : Nat := DEFAULT_MAX_PROBES ||| WRITE_ZLIB_HEADER

/-! Pipeline snapshots of the empty-input zlib session (claim C4):
`c4S1` after `init`, `c4S3` after `fb_prep`, `c4S4`/`c4S4r`/`c4S5` through
the Huffman table building, `c4S5h`/`c4S6` through the dynamic-block
emission, `c4S7` after `fb_emit`, `c4S7a` after the Adler-32 trailer,
`c4S8` after the final drain, `c4S9` the closed session.  `c4Cnt0`,
`c4SizesA`/`c4SizesB`, `c4P1`/`c4P2` stage the RLE packing fold. -/

def c4S1 : CompState where
  sink_present := true
  m_flags := 2147483748
  m_max_probes := 34
  m_greedy_parsing := false
  m_all_writes_succeeded := true
  m_adler32 := 1
  m_lookahead_pos := 0
  m_lookahead_size := 0
  m_dict_size := 0
  m_dict := 0
  m_next := 0
  m_hash := 2 ^ 65536 - 1
  lz_buf := 0
  lz_code_pos := 1
  lz_flags_pos := 0
  m_num_flags_left := 8
  out_buf := 376
  out_pos := 2
  m_bits_in := 0
  m_bit_buffer := 0
  m_saved_match_dist := 0
  m_saved_match_len := 0
  m_saved_lit := 0
  m_huff_count := 0
  m_huff_codes := 0
  m_huff_code_sizes := 0
  sink_calls := 0
  sink_out := []
  fed := []
  tokens := []

def c4S3 : CompState where
  sink_present := true
  m_flags := 2147483748
  m_max_probes := 34
  m_greedy_parsing := false
  m_all_writes_succeeded := true
  m_adler32 := 1
  m_lookahead_pos := 0
  m_lookahead_size := 0
  m_dict_size := 0
  m_dict := 0
  m_next := 0
  m_hash := 2 ^ 65536 - 1
  lz_buf := 0
  lz_code_pos := 0
  lz_flags_pos := 0
  m_num_flags_left := 8
  out_buf := 376
  out_pos := 2
  m_bits_in := 0
  m_bit_buffer := 0
  m_saved_match_dist := 0
  m_saved_match_len := 0
  m_saved_lit := 0
  m_huff_count := 1044388881413152506691752710716624382579964249047383780384233483283953907971557456848826811934997558340890106714439262837987573438185793607263236087851365277945956976543709998340361590134383718314428070011855946226376318839397712745672334684344586617496807908705803704071284048740118609114467977783598029006686938976881787785946905630190260940599579453432823469303026696443059025015972399867714215541693835559885291486318237914434496734087811872639496475100189041349008417061675093668333850551032972088269550769983616369411933015213796825837188091833656751221318492846368125550225998300412344784862595674492194617023806505913245610825731835380087608622102834270197698202313169017678006675195485079921636419370285375124784014907159135459982790513399611551794271106831134090584272884279791554849782954323534517065223269061394905987693002122963395687782878948440616007412945674919823050571642377154816321380631045902916136926708342856440730447899971901781465763473223850267253059899795996090799469201774624817718449867455659250178329070473119433165550807568221846571746373296884912819520317457002440926616910874148385078411929804522981857338977648103126085903001302413467189726673216491511131602920781738033436090243804708340403154190336
  m_huff_codes := 0
  m_huff_code_sizes := 0
  sink_calls := 0
  sink_out := []
  fed := []
  tokens := []

def c4S4 : CompState where
  sink_present := true
  m_flags := 2147483748
  m_max_probes := 34
  m_greedy_parsing := false
  m_all_writes_succeeded := true
  m_adler32 := 1
  m_lookahead_pos := 0
  m_lookahead_size := 0
  m_dict_size := 0
  m_dict := 0
  m_next := 0
  m_hash := 2 ^ 65536 - 1
  lz_buf := 0
  lz_code_pos := 0
  lz_flags_pos := 0
  m_num_flags_left := 8
  out_buf := 376
  out_pos := 2
  m_bits_in := 0
  m_bit_buffer := 0
  m_saved_match_dist := 0
  m_saved_match_len := 0
  m_saved_lit := 0
  m_huff_count := 1044388881413152506691752710716624382579964249047383780384233483283953907971557456848826811934997558340890106714439262837987573438185793607263236087851365277945956976543709998340361590134383718314428070011855946226376318839397712745672334684344586617496807908705803704071284048740118609114467977783598029006686938976881787785946905630190260940599579453432823469303026696443059025015972399867714215541693835559885291486318237914434496734087811872639496475100189041349008417061675093668333850551032972088269550769983616369411933015213796825837188091833656751221318492846368125550225998300412344784862595674492194617023806505913245610825731835380087608622102834270197698202313169017678006675195485079921636419370285375124784014907159135459982790513399611551794271106831134090584272884279791554849782954323534517065223269061394905987693002122963395687782878948440616007412945674919823050571642377154816321380631045902916136926708342856440730447899971901781465763473223850267253059899795996090799469201774624817718449867455659250178329070473119433165550807568221846571746373296884912819520317457002440926616910874148385078411929804522981857338977648103126085903001302413467189726673216491511131602920781738033436090243804708340403154190336
  m_huff_codes := 0
  m_huff_code_sizes := 32317006071311007300714876688669951960444102669715484032130345427524655138867890893197201411522913463688717960921898019494119559150490921095088152386448283120630877367300996091750197750389652106796057638384067568276792218642619756161838094338476170470581645852036305042887575891541065808607552399123930385521914333389668342420684974786564569494856176035326322058077805659331026192708460314150258592864177116725943603718461857357598351152301645904403697613233287231227125684710820209725157101726931323469678542580656697935045997268352998638215525166389437335543602135433229604645318478604952148193555853611059596230656
  sink_calls := 0
  sink_out := []
  fed := []
  tokens := []

def c4S4r : CompState where
  sink_present := true
  m_flags := 2147483748
  m_max_probes := 34
  m_greedy_parsing := false
  m_all_writes_succeeded := true
  m_adler32 := 1
  m_lookahead_pos := 0
  m_lookahead_size := 0
  m_dict_size := 0
  m_dict := 0
  m_next := 0
  m_hash := 2 ^ 65536 - 1
  lz_buf := 0
  lz_code_pos := 0
  lz_flags_pos := 0
  m_num_flags_left := 8
  out_buf := 376
  out_pos := 2
  m_bits_in := 0
  m_bit_buffer := 0
  m_saved_match_dist := 0
  m_saved_match_len := 0
  m_saved_lit := 0
  m_huff_count := (1 * 2 ^ 4096 + 1 * ((2 ^ 32 - 1) / (2 ^ 16 - 1)) * 2 ^ 12288 + 2 * 2 ^ 12576)
  m_huff_codes := 0
  m_huff_code_sizes := 32317006071311007300714876688669951960444102669715484032130345427524655138867890893197201411522913463688717960921898019494119559150490921095088152386448283120630877367300996091750197750389652106796057638384067568276792218642619756161838094338476170470581645852036305042887575891541065808607552399123930385521914333389668342420684974786564569494856176035326322058077805659331026192708460314150258592864177116725943603718461857357598351152301645904403697613233287231227125684710820209725157101726931323469678542580656697935045997268352998638215525166389437335543602135433229604645318478604952148193555853611059596230656
  sink_calls := 0
  sink_out := []
  fed := []
  tokens := []

def c4S5 : CompState where
  sink_present := true
  m_flags := 2147483748
  m_max_probes := 34
  m_greedy_parsing := false
  m_all_writes_succeeded := true
  m_adler32 := 1
  m_lookahead_pos := 0
  m_lookahead_size := 0
  m_dict_size := 0
  m_dict := 0
  m_next := 0
  m_hash := 2 ^ 65536 - 1
  lz_buf := 0
  lz_code_pos := 0
  lz_flags_pos := 0
  m_num_flags_left := 8
  out_buf := 376
  out_pos := 2
  m_bits_in := 0
  m_bit_buffer := 0
  m_saved_match_dist := 0
  m_saved_match_len := 0
  m_saved_lit := 0
  m_huff_count := (1 * 2 ^ 4096 + 1 * ((2 ^ 32 - 1) / (2 ^ 16 - 1)) * 2 ^ 12288 + 2 * 2 ^ 12576)
  m_huff_codes := (1 * 2 ^ 12288 + 3 * 2 ^ 12304)
  m_huff_code_sizes := 752684088202547545336940141978922295256804099577552513086304092664266707287477985723350587522741182830427892873082236962620293498976238805503476009713789394102536684722085201428550148487368614945009414351010269377309931750732231065891860446819869267083512476161153476650805844912405738285858066651971997633462239551936129601339256918820088907133759996921373279464316159078609960893165066465400645184218110834697291788718927594765963632964580674993080921909289621451951032236202950074308540030503165312973491084553226819725232808704904997502326247669922580005537656357334001578462255502088687286328926848746193231398296005260949550096928010685742119185702819730684948959925157819826472304294256606561523416424786738656304564245748628722255097874225121612116508270378386145271856536429052500162597362314161602191141305798926183927599961803261898830654012821464881601318574510349901108160782106359483398166442564956691784429261894730423342340292315512179308597288551604116348106785065515119551105802401261376385677016605524115004383280679361516445797078414434141039778733333548665438534010871310622087325688204686879484247028754913415312261262704423631211200583014510837663270123993178041877603724879460429568170711092604421366980968853774575451783450283304553338062849460313040941211073494972560031453388373404640883262594994511989923703844325368708179552355775206757398679304924308585452099919144175311375757939572157357236172597139646883180829400260790130255627028307154583601193425663179612021486962129582924807102947520332301306987847232444942054417190921768800516279684694300754206410809420467451098947633424003443509097987251895877995311571045238440034572699236199680663074228595802849956010379814875453000298927946688102981652046751781047907261815812922125767683789232723581752647834893865131939279738657972549252411562768871072261362665912565259963751760929726716634902799562022674497536
  sink_calls := 0
  sink_out := []
  fed := []
  tokens := []

def c4S5h : CompState where
  sink_present := true
  m_flags := 2147483748
  m_max_probes := 34
  m_greedy_parsing := false
  m_all_writes_succeeded := true
  m_adler32 := 1
  m_lookahead_pos := 0
  m_lookahead_size := 0
  m_dict_size := 0
  m_dict := 0
  m_next := 0
  m_hash := 2 ^ 65536 - 1
  lz_buf := 0
  lz_code_pos := 0
  lz_flags_pos := 0
  m_num_flags_left := 8
  out_buf := 9353365356920
  out_pos := 10
  m_bits_in := 7
  m_bit_buffer := 32
  m_saved_match_dist := 0
  m_saved_match_len := 0
  m_saved_lit := 0
  m_huff_count := (1 * 2 ^ 4096 + 1 * ((2 ^ 32 - 1) / (2 ^ 16 - 1)) * 2 ^ 12288 + 2 * 2 ^ 12576)
  m_huff_codes := (1 * 2 ^ 12288 + 3 * 2 ^ 12304)
  m_huff_code_sizes := 752684088202547545336940141978922295256804099577552513086304092664266707287477985723350587522741182830427892873082236962620293498976238805503476009713789394102536684722085201428550148487368614945009414351010269377309931750732231065891860446819869267083512476161153476650805844912405738285858066651971997633462239551936129601339256918820088907133759996921373279464316159078609960893165066465400645184218110834697291788718927594765963632964580674993080921909289621451951032236202950074308540030503165312973491084553226819725232808704904997502326247669922580005537656357334001578462255502088687286328926848746193231398296005260949550096928010685742119185702819730684948959925157819826472304294256606561523416424786738656304564245748628722255097874225121612116508270378386145271856536429052500162597362314161602191141305798926183927599961803261898830654012821464881601318574510349901108160782106359483398166442564956691784429261894730423342340292315512179308597288551604116348106785065515119551105802401261376385677016605524115004383280679361516445797078414434141039778733333548665438534010871310622087325688204686879484247028754913415312261262704423631211200583014510837663270123993178041877603724879460429568170711092604421366980968853774575451783450283304553338062849460313040941211073494972560031453388373404640883262594994511989923703844325368708179552355775206757398679304924308585452099919144175311375757939572157357236172597139646883180829400260790130255627028307154583601193425663179612021486962129582924807102947520332301306987847232444942054417190921768800516279684694300754206410809420467451098947633424003443509097987251895877995311571045238440034572699236199680663074228595802849956010379814875453000298927946688102981652046751781047907261815812922125767683789232723581752647834893865131939279738657972549252411562768871072261362665912565259963751760929726716634902799562022674497536
  sink_calls := 0
  sink_out := []
  fed := []
  tokens := []

def c4S6 : CompState where
  sink_present := true
  m_flags := 2147483748
  m_max_probes := 34
  m_greedy_parsing := false
  m_all_writes_succeeded := true
  m_adler32 := 1
  m_lookahead_pos := 0
  m_lookahead_size := 0
  m_dict_size := 0
  m_dict := 0
  m_next := 0
  m_hash := 2 ^ 65536 - 1
  lz_buf := 0
  lz_code_pos := 0
  lz_flags_pos := 0
  m_num_flags_left := 8
  out_buf := 18657961472725657835697831477624
  out_pos := 13
  m_bits_in := 3
  m_bit_buffer := 3
  m_saved_match_dist := 0
  m_saved_match_len := 0
  m_saved_lit := 0
  m_huff_count := (1 * 2 ^ 4096 + 1 * ((2 ^ 32 - 1) / (2 ^ 16 - 1)) * 2 ^ 12288 + 2 * 2 ^ 12576)
  m_huff_codes := (1 * 2 ^ 12288 + 3 * 2 ^ 12304)
  m_huff_code_sizes := 752684088202547545336940141978922295256804099577552513086304092664266707287477985723350587522741182830427892873082236962620293498976238805503476009713789394102536684722085201428550148487368614945009414351010269377309931750732231065891860446819869267083512476161153476650805844912405738285858066651971997633462239551936129601339256918820088907133759996921373279464316159078609960893165066465400645184218110834697291788718927594765963632964580674993080921909289621451951032236202950074308540030503165312973491084553226819725232808704904997502326247669922580005537656357334001578462255502088687286328926848746193231398296005260949550096928010685742119185702819730684948959925157819826472304294256606561523416424786738656304564245748628722255097874225121612116508270378386145271856536429052500162597362314161602191141305798926183927599961803261898830654012821464881601318574510349901108160782106359483398166442564956691784429261894730423342340292315512179308597288551604116348106785065515119551105802401261376385677016605524115004383280679361516445797078414434141039778733333548665438534010871310622087325688204686879484247028754913415312261262704423631211200583014510837663270123993178041877603724879460429568170711092604421366980968853774575451783450283304553338062849460313040941211073494972560031453388373404640883262594994511989923703844325368708179552355775206757398679304924308585452099919144175311375757939572157357236172597139646883180829400260790130255627028307154583601193425663179612021486962129582924807102947520332301306987847232444942054417190921768800516279684694300754206410809420467451098947633424003443509097987251895877995311571045238440034572699236199680663074228595802849956010379814875453000298927946688102981652046751781047907261815812922125767683789232723581752647834893865131939279738657972549252411562768871072261362665912565259963751760929726716634902799562022674497536
  sink_calls := 0
  sink_out := []
  fed := []
  tokens := []

def c4S7 : CompState where
  sink_present := true
  m_flags := 2147483748
  m_max_probes := 34
  m_greedy_parsing := false
  m_all_writes_succeeded := true
  m_adler32 := 1
  m_lookahead_pos := 0
  m_lookahead_size := 0
  m_dict_size := 0
  m_dict := 0
  m_next := 0
  m_hash := 2 ^ 65536 - 1
  lz_buf := 0
  lz_code_pos := 1
  lz_flags_pos := 0
  m_num_flags_left := 8
  out_buf := 79505190283680669107539585335672
  out_pos := 14
  m_bits_in := 0
  m_bit_buffer := 0
  m_saved_match_dist := 0
  m_saved_match_len := 0
  m_saved_lit := 0
  m_huff_count := (1 * 2 ^ 4096 + 1 * ((2 ^ 32 - 1) / (2 ^ 16 - 1)) * 2 ^ 12288 + 2 * 2 ^ 12576)
  m_huff_codes := (1 * 2 ^ 12288 + 3 * 2 ^ 12304)
  m_huff_code_sizes := 752684088202547545336940141978922295256804099577552513086304092664266707287477985723350587522741182830427892873082236962620293498976238805503476009713789394102536684722085201428550148487368614945009414351010269377309931750732231065891860446819869267083512476161153476650805844912405738285858066651971997633462239551936129601339256918820088907133759996921373279464316159078609960893165066465400645184218110834697291788718927594765963632964580674993080921909289621451951032236202950074308540030503165312973491084553226819725232808704904997502326247669922580005537656357334001578462255502088687286328926848746193231398296005260949550096928010685742119185702819730684948959925157819826472304294256606561523416424786738656304564245748628722255097874225121612116508270378386145271856536429052500162597362314161602191141305798926183927599961803261898830654012821464881601318574510349901108160782106359483398166442564956691784429261894730423342340292315512179308597288551604116348106785065515119551105802401261376385677016605524115004383280679361516445797078414434141039778733333548665438534010871310622087325688204686879484247028754913415312261262704423631211200583014510837663270123993178041877603724879460429568170711092604421366980968853774575451783450283304553338062849460313040941211073494972560031453388373404640883262594994511989923703844325368708179552355775206757398679304924308585452099919144175311375757939572157357236172597139646883180829400260790130255627028307154583601193425663179612021486962129582924807102947520332301306987847232444942054417190921768800516279684694300754206410809420467451098947633424003443509097987251895877995311571045238440034572699236199680663074228595802849956010379814875453000298927946688102981652046751781047907261815812922125767683789232723581752647834893865131939279738657972549252411562768871072261362665912565259963751760929726716634902799562022674497536
  sink_calls := 0
  sink_out := []
  fed := []
  tokens := []

def c4S7a : CompState where
  sink_present := true
  m_flags := 2147483748
  m_max_probes := 34
  m_greedy_parsing := false
  m_all_writes_succeeded := true
  m_adler32 := 0
  m_lookahead_pos := 0
  m_lookahead_size := 0
  m_dict_size := 0
  m_dict := 0
  m_next := 0
  m_hash := 2 ^ 65536 - 1
  lz_buf := 0
  lz_code_pos := 1
  lz_flags_pos := 0
  m_num_flags_left := 8
  out_buf := 87112286011265436930304568610072247468408
  out_pos := 18
  m_bits_in := 0
  m_bit_buffer := 0
  m_saved_match_dist := 0
  m_saved_match_len := 0
  m_saved_lit := 0
  m_huff_count := (1 * 2 ^ 4096 + 1 * ((2 ^ 32 - 1) / (2 ^ 16 - 1)) * 2 ^ 12288 + 2 * 2 ^ 12576)
  m_huff_codes := (1 * 2 ^ 12288 + 3 * 2 ^ 12304)
  m_huff_code_sizes := 752684088202547545336940141978922295256804099577552513086304092664266707287477985723350587522741182830427892873082236962620293498976238805503476009713789394102536684722085201428550148487368614945009414351010269377309931750732231065891860446819869267083512476161153476650805844912405738285858066651971997633462239551936129601339256918820088907133759996921373279464316159078609960893165066465400645184218110834697291788718927594765963632964580674993080921909289621451951032236202950074308540030503165312973491084553226819725232808704904997502326247669922580005537656357334001578462255502088687286328926848746193231398296005260949550096928010685742119185702819730684948959925157819826472304294256606561523416424786738656304564245748628722255097874225121612116508270378386145271856536429052500162597362314161602191141305798926183927599961803261898830654012821464881601318574510349901108160782106359483398166442564956691784429261894730423342340292315512179308597288551604116348106785065515119551105802401261376385677016605524115004383280679361516445797078414434141039778733333548665438534010871310622087325688204686879484247028754913415312261262704423631211200583014510837663270123993178041877603724879460429568170711092604421366980968853774575451783450283304553338062849460313040941211073494972560031453388373404640883262594994511989923703844325368708179552355775206757398679304924308585452099919144175311375757939572157357236172597139646883180829400260790130255627028307154583601193425663179612021486962129582924807102947520332301306987847232444942054417190921768800516279684694300754206410809420467451098947633424003443509097987251895877995311571045238440034572699236199680663074228595802849956010379814875453000298927946688102981652046751781047907261815812922125767683789232723581752647834893865131939279738657972549252411562768871072261362665912565259963751760929726716634902799562022674497536
  sink_calls := 0
  sink_out := []
  fed := []
  tokens := []

def c4S8 : CompState where
  sink_present := true
  m_flags := 2147483748
  m_max_probes := 34
  m_greedy_parsing := false
  m_all_writes_succeeded := true
  m_adler32 := 0
  m_lookahead_pos := 0
  m_lookahead_size := 0
  m_dict_size := 0
  m_dict := 0
  m_next := 0
  m_hash := 2 ^ 65536 - 1
  lz_buf := 0
  lz_code_pos := 1
  lz_flags_pos := 0
  m_num_flags_left := 8
  out_buf := 87112286011265436930304568610072247468408
  out_pos := 0
  m_bits_in := 0
  m_bit_buffer := 0
  m_saved_match_dist := 0
  m_saved_match_len := 0
  m_saved_lit := 0
  m_huff_count := (1 * 2 ^ 4096 + 1 * ((2 ^ 32 - 1) / (2 ^ 16 - 1)) * 2 ^ 12288 + 2 * 2 ^ 12576)
  m_huff_codes := (1 * 2 ^ 12288 + 3 * 2 ^ 12304)
  m_huff_code_sizes := 752684088202547545336940141978922295256804099577552513086304092664266707287477985723350587522741182830427892873082236962620293498976238805503476009713789394102536684722085201428550148487368614945009414351010269377309931750732231065891860446819869267083512476161153476650805844912405738285858066651971997633462239551936129601339256918820088907133759996921373279464316159078609960893165066465400645184218110834697291788718927594765963632964580674993080921909289621451951032236202950074308540030503165312973491084553226819725232808704904997502326247669922580005537656357334001578462255502088687286328926848746193231398296005260949550096928010685742119185702819730684948959925157819826472304294256606561523416424786738656304564245748628722255097874225121612116508270378386145271856536429052500162597362314161602191141305798926183927599961803261898830654012821464881601318574510349901108160782106359483398166442564956691784429261894730423342340292315512179308597288551604116348106785065515119551105802401261376385677016605524115004383280679361516445797078414434141039778733333548665438534010871310622087325688204686879484247028754913415312261262704423631211200583014510837663270123993178041877603724879460429568170711092604421366980968853774575451783450283304553338062849460313040941211073494972560031453388373404640883262594994511989923703844325368708179552355775206757398679304924308585452099919144175311375757939572157357236172597139646883180829400260790130255627028307154583601193425663179612021486962129582924807102947520332301306987847232444942054417190921768800516279684694300754206410809420467451098947633424003443509097987251895877995311571045238440034572699236199680663074228595802849956010379814875453000298927946688102981652046751781047907261815812922125767683789232723581752647834893865131939279738657972549252411562768871072261362665912565259963751760929726716634902799562022674497536
  sink_calls := 1
  sink_out := [[120, 1, 5, 192, 129, 8, 0, 0, 0, 0, 32, 127, 235, 3, 0, 0, 0, 1]]
  fed := []
  tokens := []

def c4S9 : CompState where
  sink_present := false
  m_flags := 2147483748
  m_max_probes := 34
  m_greedy_parsing := false
  m_all_writes_succeeded := true
  m_adler32 := 0
  m_lookahead_pos := 0
  m_lookahead_size := 0
  m_dict_size := 0
  m_dict := 0
  m_next := 0
  m_hash := 2 ^ 65536 - 1
  lz_buf := 0
  lz_code_pos := 1
  lz_flags_pos := 0
  m_num_flags_left := 8
  out_buf := 87112286011265436930304568610072247468408
  out_pos := 0
  m_bits_in := 0
  m_bit_buffer := 0
  m_saved_match_dist := 0
  m_saved_match_len := 0
  m_saved_lit := 0
  m_huff_count := (1 * 2 ^ 4096 + 1 * ((2 ^ 32 - 1) / (2 ^ 16 - 1)) * 2 ^ 12288 + 2 * 2 ^ 12576)
  m_huff_codes := (1 * 2 ^ 12288 + 3 * 2 ^ 12304)
  m_huff_code_sizes := 752684088202547545336940141978922295256804099577552513086304092664266707287477985723350587522741182830427892873082236962620293498976238805503476009713789394102536684722085201428550148487368614945009414351010269377309931750732231065891860446819869267083512476161153476650805844912405738285858066651971997633462239551936129601339256918820088907133759996921373279464316159078609960893165066465400645184218110834697291788718927594765963632964580674993080921909289621451951032236202950074308540030503165312973491084553226819725232808704904997502326247669922580005537656357334001578462255502088687286328926848746193231398296005260949550096928010685742119185702819730684948959925157819826472304294256606561523416424786738656304564245748628722255097874225121612116508270378386145271856536429052500162597362314161602191141305798926183927599961803261898830654012821464881601318574510349901108160782106359483398166442564956691784429261894730423342340292315512179308597288551604116348106785065515119551105802401261376385677016605524115004383280679361516445797078414434141039778733333548665438534010871310622087325688204686879484247028754913415312261262704423631211200583014510837663270123993178041877603724879460429568170711092604421366980968853774575451783450283304553338062849460313040941211073494972560031453388373404640883262594994511989923703844325368708179552355775206757398679304924308585452099919144175311375757939572157357236172597139646883180829400260790130255627028307154583601193425663179612021486962129582924807102947520332301306987847232444942054417190921768800516279684694300754206410809420467451098947633424003443509097987251895877995311571045238440034572699236199680663074228595802849956010379814875453000298927946688102981652046751781047907261815812922125767683789232723581752647834893865131939279738657972549252411562768871072261362665912565259963751760929726716634902799562022674497536
  sink_calls := 1
  sink_out := [[120, 1, 5, 192, 129, 8, 0, 0, 0, 0, 32, 127, 235, 3, 0, 0, 0, 1]]
  fed := []
  tokens := []

def c4Cnt0 : Nat := 1044388881413152506691752710716624382579964249047383780384233483283953907971557456848826811934997558340890106714439262837987573438185793607263236087851365277945956976543709998340361590134383718314428070011855946226376318839397712745672334684344586617496807908705803704071284048740118609114467977783598029006686938976881787785946905630190260940599579453432823469303026696443059025015972399867714215541693835559885291486318237914434496734087811872639496475100189041349008417061675093668333850551032972088269550769983616369411933015213796825837188091833656751221318492846368125550225998300412344784862595674492194617023806505913245610825731835380087608622102834270197698202313169017678006675195485079921636419370285375124784014907159135459982790513399611551794271106831134090584272884279791554849782954323534517065223269061394905987693002122963395687782878948440616007412945674919823050571642377154816321380631045902916136926708342856440730447899971901781465763473223850267253059899795996090799469201774624817718449867455659250178329070473119433165550807568221846571746373296884912819520317457002440926616910874148385078411929804522981857338977648103126085903001302413467189726673216491511131602920781738033436090243804708340403154190336

def c4SizesA : List Nat := [0, 0, 0, 0, 0, 0, 0, 0, 0, 0, 0, 0, 0, 0, 0, 0, 0, 0, 0, 0, 0, 0, 0, 0, 0, 0, 0, 0, 0, 0, 0, 0, 0, 0, 0, 0, 0, 0, 0, 0, 0, 0, 0, 0, 0, 0, 0, 0, 0, 0, 0, 0, 0, 0, 0, 0, 0, 0, 0, 0, 0, 0, 0, 0, 0, 0, 0, 0, 0, 0, 0, 0, 0, 0, 0, 0, 0, 0, 0, 0, 0, 0, 0, 0, 0, 0, 0, 0, 0, 0, 0, 0, 0, 0, 0, 0, 0, 0, 0, 0, 0, 0, 0, 0, 0, 0, 0, 0, 0, 0, 0, 0, 0, 0, 0, 0, 0, 0, 0, 0, 0, 0, 0, 0, 0, 0, 0, 0, 0]

def c4SizesB : List Nat := [0, 0, 0, 0, 0, 0, 0, 0, 0, 0, 0, 0, 0, 0, 0, 0, 0, 0, 0, 0, 0, 0, 0, 0, 0, 0, 0, 0, 0, 0, 0, 0, 0, 0, 0, 0, 0, 0, 0, 0, 0, 0, 0, 0, 0, 0, 0, 0, 0, 0, 0, 0, 0, 0, 0, 0, 0, 0, 0, 0, 0, 0, 0, 0, 0, 0, 0, 0, 0, 0, 0, 0, 0, 0, 0, 0, 0, 0, 0, 0, 0, 0, 0, 0, 0, 0, 0, 0, 0, 0, 0, 0, 0, 0, 0, 0, 0, 0, 0, 0, 0, 0, 0, 0, 0, 0, 0, 0, 0, 0, 0, 0, 0, 0, 0, 0, 0, 0, 0, 0, 0, 0, 0, 0, 0, 0, 0, 1, 0]

def c4P1 : RleState × Nat := (⟨1044388881413152506691752710716624382579964249047383780384233483283953907971557456848826811934997558340890106714439262837987573438185793607263236087851365277945956976543709998340361590134383718314428070011855946226376318839397712745672334684344586617496807908705803704071284048740118609114467977783598029006686938976881787785946905630190260940599579453432823469303026696443059025015972399867714215541693835559885291486318237914434496734087811872639496475100189041349008417061675093668333850551032972088269550769983616369411933015213796825837188091833656751221318492846368125550225998300412344784862595674492194617023806505913245610825731835380087608622102834270197698202313169017678006675195485079921636419370285375124784014907159135459982790513399611551794271106831134090584272884279791554849782954323534517065223269061394905987693002122963395687782878948440616007412945674919823050571642377154816321380631045902916136926708342856440730447899971901781465763473223850267253059899795996090799469201774624817718449867455659250178329070473119433165550807568221846571746373296884912819520317457002440926616910874148385078411929804522981857338977648103126085903001302413467189726673216491511131602920781738033436090243804708340403154190336, [], 129, 0⟩, 0)

def c4P2 : RleState × Nat := (⟨(1 * 2 ^ 4096 + 1 * 2 ^ 12304 + 2 * 2 ^ 12576), [18, 127, 18, 107, 1], 1, 0⟩, 0)

/-! ## A conformant DEFLATE/zlib decoder

The definitions below are NOT part of the repository: they are modelled
from the spec (RFC 1950/1951 as referenced by spec.md) so that
round-trip statements "the output decompresses to the input" can be
expressed.  They implement a strict canonical-Huffman DEFLATE decoder
with zlib framing and Adler-32 verification. -/

/-- Modelled from the spec: bit `i` of a byte stream, LSB-first within
each byte (RFC 1951 §3.1.1). -/
def bitAt (bytes : List Nat) (i : Nat) : Nat :=
  (bytes.getD (i / 8) 0 >>> (i % 8)) &&& 1

/-- Modelled from the spec: read `n` bits starting at bit `pos`,
least-significant bit first. -/
def readBits (bytes : List Nat) (pos : Nat) : Nat → Nat
  | 0 => 0
  | n + 1 => bitAt bytes pos + 2 * readBits bytes (pos + 1) n

/-- Modelled from the spec: how many symbols have code length `l`. -/
def countLen (lengths : List Nat) (l : Nat) : Nat :=
  (lengths.filter (fun x => x = l)).length

/-- Modelled from the spec: the symbols of code length `l`, in symbol
order (canonical code assignment, RFC 1951 §3.2.2). -/
def symsOfLen (lengths : List Nat) (l : Nat) : List Nat :=
  (List.range lengths.length).filter (fun s => lengths.getD s 0 = l)

/-- Modelled from the spec: the first canonical code of each length
(`next_code` of RFC 1951 §3.2.2). -/
def firstCode (lengths : List Nat) : Nat → Nat
  | 0 => 0
  | 1 => 0
  | l + 2 => (firstCode lengths (l + 1) + countLen lengths (l + 1)) * 2

/-- Modelled from the spec: decode one canonical-Huffman symbol by
accumulating bits MSB-first and comparing against the canonical first
code of each length. -/
def huffStep (lengths bytes : List Nat) (code pos l : Nat) : Nat → Option (Nat × Nat)
  | 0 => none
  | f + 1 =>
    let code := 2 * code + bitAt bytes pos
    let pos := pos + 1
    let fc := firstCode lengths l
    if fc ≤ code ∧ code < fc + countLen lengths l then
      some ((symsOfLen lengths l).getD (code - fc) 0, pos)
    else huffStep lengths bytes code pos (l + 1) f

/-- Modelled from the spec: decode one symbol (code lengths ≤ 15). -/
def huffDecode (lengths bytes : List Nat) (pos : Nat) : Option (Nat × Nat) :=
  huffStep lengths bytes 0 pos 1 15

/-- Modelled from the spec: the RLE decoding of the code-length vector of
a dynamic block (symbols 0..15 literal, 16 = repeat previous, 17/18 =
runs of zeros; RFC 1951 §3.2.7). -/
def clLoop (clLens bytes : List Nat) (pos total : Nat) (acc : List Nat) :
    Nat → Option (List Nat × Nat)
  | 0 => none
  | f + 1 =>
    if total ≤ acc.length then some (acc, pos)
    else
      match huffDecode clLens bytes pos with
      | none => none
      | some (sym, pos) =>
        if sym ≤ 15 then clLoop clLens bytes pos total (acc ++ [sym]) f
        else if sym = 16 then
          match acc.getLast? with
          | none => none
          | some prev =>
            clLoop clLens bytes (pos + 2) total
              (acc ++ List.replicate (3 + readBits bytes pos 2) prev) f
        else if sym = 17 then
          clLoop clLens bytes (pos + 3) total
            (acc ++ List.replicate (3 + readBits bytes pos 3) 0) f
        else if sym = 18 then
          clLoop clLens bytes (pos + 7) total
            (acc ++ List.replicate (11 + readBits bytes pos 7) 0) f
        else none

/-- Modelled from the spec: length-code bases (codes 257..285). -/
def lenBase : List Nat :=
  [3, 4, 5, 6, 7, 8, 9, 10, 11, 13, 15, 17] ++
  [19, 23, 27, 31, 35, 43, 51, 59, 67, 83] ++
  [99, 115, 131, 163, 195, 227, 258]

/-- Modelled from the spec: length-code extra bit counts. -/
def lenExtraBits : List Nat :=
  List.replicate 8 0 ++ [1, 1, 1, 1] ++ [2, 2, 2, 2] ++ [3, 3, 3, 3] ++
  [4, 4, 4, 4] ++ [5, 5, 5, 5] ++ [0]

/-- Modelled from the spec: distance-code bases (codes 0..29). -/
def distBase : List Nat :=
  [1, 2, 3, 4, 5, 7, 9, 13, 17, 25] ++
  [33, 49, 65, 97, 129, 193, 257, 385, 513, 769] ++
  [1025, 1537, 2049, 3073, 4097, 6145, 8193, 12289, 16385, 24577]

/-- Modelled from the spec: distance-code extra bit counts. -/
def distExtraBits : List Nat :=
  [0, 0, 0, 0] ++ [1, 1, 2, 2, 3, 3, 4, 4, 5, 5] ++
  [6, 6, 7, 7, 8, 8, 9, 9] ++ [10, 10, 11, 11, 12, 12, 13, 13]

/-- Modelled from the spec: append `n` bytes copied from distance `d`
back (byte by byte, so overlapping copies repeat recent output). -/
def copyDist (out : List Nat) (d : Nat) : Nat → List Nat
  | 0 => out
  | n + 1 => copyDist (out ++ [out.getD (out.length - d) 0]) d n

/-- Modelled from the spec: the symbol loop of a compressed block:
literals, end-of-block, and length/distance pairs. -/
def symLoop (litL distL bytes : List Nat) (pos : Nat) (out : List Nat) :
    Nat → Option (List Nat × Nat)
  | 0 => none
  | f + 1 =>
    match huffDecode litL bytes pos with
    | none => none
    | some (sym, pos) =>
      if sym < 256 then symLoop litL distL bytes pos (out ++ [sym]) f
      else if sym = 256 then some (out, pos)
      else if sym ≤ 285 then
        let i := sym - 257
        let len := lenBase.getD i 0 + readBits bytes pos (lenExtraBits.getD i 0)
        let pos := pos + lenExtraBits.getD i 0
        match huffDecode distL bytes pos with
        | none => none
        | some (dsym, pos) =>
          if dsym ≤ 29 then
            let dist := distBase.getD dsym 0 + readBits bytes pos (distExtraBits.getD dsym 0)
            let pos := pos + distExtraBits.getD dsym 0
            if 1 ≤ dist ∧ dist ≤ out.length then
              symLoop litL distL bytes pos (copyDist out dist len) f
            else none
          else none
      else none

/-- Modelled from the spec: the fixed literal/length code lengths of a
static block (RFC 1951 §3.2.6). -/
def staticLitLens : List Nat :=
  List.replicate 144 8 ++ List.replicate 112 9 ++ List.replicate 24 7 ++
    List.replicate 8 8

/-- Modelled from the spec: the fixed distance code lengths. -/
def staticDistLens : List Nat := List.replicate 32 5

/-- Modelled from the spec: the block loop of a DEFLATE stream — stored,
static and dynamic blocks, ending after a block with BFINAL set. -/
def blockLoop (bytes : List Nat) (pos : Nat) (out : List Nat) :
    Nat → Option (List Nat × Nat)
  | 0 => none
  | f + 1 =>
    let bfinal := readBits bytes pos 1
    let btype := readBits bytes (pos + 1) 2
    let pos := pos + 3
    let step : Option (List Nat × Nat) :=
      if btype = 0 then
        let q := (pos + 7) / 8
        let len := bytes.getD q 0 + 256 * bytes.getD (q + 1) 0
        let nlen := bytes.getD (q + 2) 0 + 256 * bytes.getD (q + 3) 0
        if len + nlen = 65535 ∧ q + 4 + len ≤ bytes.length then
          some (out ++ (List.range len).map (fun i => bytes.getD (q + 4 + i) 0),
            (q + 4 + len) * 8)
        else none
      else if btype = 1 then
        symLoop staticLitLens staticDistLens bytes pos out (8 * bytes.length + 8)
      else if btype = 2 then
        let hlit := readBits bytes pos 5 + 257
        let hdist := readBits bytes (pos + 5) 5 + 1
        let hclen := readBits bytes (pos + 10) 4 + 4
        let pos := pos + 14
        let clLens := (List.range hclen).foldl
          (fun (acc : List Nat) j => acc.set (swizzle j) (readBits bytes (pos + 3 * j) 3))
          (List.replicate 19 0)
        let pos := pos + 3 * hclen
        match clLoop clLens bytes pos (hlit + hdist) [] (hlit + hdist + 1) with
        | none => none
        | some (lens, pos) =>
          if lens.length = hlit + hdist then
            symLoop (lens.take hlit) (lens.drop hlit) bytes pos out
              (8 * bytes.length + 8)
          else none
      else none
    match step with
    | none => none
    | some (out, pos) =>
      if bfinal = 1 then some (out, pos) else blockLoop bytes pos out f

/-- Modelled from the spec: the Adler-32 checksum as defined in RFC 1950
(plain running sums modulo 65521). -/
def adlerSpec (data : List Nat) : Nat :=
  let p := data.foldl
    (fun (p : Nat × Nat) c => ((p.1 + c % 256) % 65521, (p.2 + (p.1 + c % 256)) % 65521))
    (1, 0)
  p.2 * 65536 + p.1

/-- Modelled from the spec: a conformant zlib decoder — check the
CMF/FLG header, inflate the DEFLATE stream, and verify the big-endian
Adler-32 trailer. -/
def zlibInflate (bytes : List Nat) : Option (List Nat) :=
  if 2 ≤ bytes.length ∧ bytes.getD 0 0 &&& 15 = 8 ∧
      (bytes.getD 0 0 * 256 + bytes.getD 1 0) % 31 = 0 then
    match blockLoop bytes 16 [] (8 * bytes.length + 8) with
    | none => none
    | some (out, pos) =>
      let q := (pos + 7) / 8
      let ad := bytes.getD q 0 <<< 24 + bytes.getD (q + 1) 0 <<< 16 +
        bytes.getD (q + 2) 0 <<< 8 + bytes.getD (q + 3) 0
      if q + 4 ≤ bytes.length ∧ ad = adlerSpec out then some out else none
  else none

/-! Pipeline snapshots of the 258-times-0x41 zlib session (claim C5):
`c5A` after the Adler update of the feeding call, `c5C` at the end of the
feeding call, `c5T` after the terminal call's parse loop, `c5F3`–`c5F9`
through the final flush (as for C4), and `c5Cnt0`/`c5SizesA`/`c5SizesB`/
`c5P1`/`c5P2` staging the RLE packing fold. -/

def c5A : CompState where
  sink_present := true
  m_flags := 2147483748
  m_max_probes := 34
  m_greedy_parsing := false
  m_all_writes_succeeded := true
  m_adler32 := 640958851
  m_lookahead_pos := 0
  m_lookahead_size := 0
  m_dict_size := 0
  m_dict := 0
  m_next := 0
  m_hash := 2 ^ 65536 - 1
  lz_buf := 0
  lz_code_pos := 1
  lz_flags_pos := 0
  m_num_flags_left := 8
  out_buf := 376
  out_pos := 2
  m_bits_in := 0
  m_bit_buffer := 0
  m_saved_match_dist := 0
  m_saved_match_len := 0
  m_saved_lit := 0
  m_huff_count := 0
  m_huff_codes := 0
  m_huff_code_sizes := 0
  sink_calls := 0
  sink_out := []
  fed := []
  tokens := []

def c5C : CompState where
  sink_present := true
  m_flags := 2147483748
  m_max_probes := 34
  m_greedy_parsing := false
  m_all_writes_succeeded := true
  m_adler32 := 640958851
  m_lookahead_pos := 1
  m_lookahead_size := 257
  m_dict_size := 1
  m_dict := (65 * ((2 ^ 2064 - 1) / (2 ^ 8 - 1)) * 2 ^ 0 + 65 * ((2 ^ 2056 - 1) / (2 ^ 8 - 1)) * 2 ^ 262144)
  m_next := 4047833370604835989168055607996563344419406473086434430611222646290325595176975714324906741163068347597697017554309807574319351567681508452260812738946308695424712692117194825179589531202775132239003304928486013427492005385891787577615235730310071738704616682476394571660166707008392203396259249033468979708089112049656283600529599010174627205547562649731410521157437092500041803308599921120760667801508649777234151650077974044113435409632699716003535231523062479829950761504147870799820333362090818427292450295240724785451867200520358196298431623847276445315602707427554556180340937825365516823299041594881118653453611832406887661366489120432807922355401741971454777028477856499989621107511054846225641243210669867312697322030927098786598660766465651791945847173769286118932684465152394761028844291207315049303495221639822549982467161344577938052087762456222464490137588626617644401436272592167401750247254454983052768581597825784906462670683843219230829076858580022734467545384074633386487720050759096811051636723524100456308248613733512869449795461441834324056983259251640102893192915088170772889837549960119139943340046639818321348511597157306201444024987110382772964836893798200806536907379141937951698134145349421958860701695
  m_hash := 2 ^ 65536 - 1 - 65280 * 2 ^ 21776
  lz_buf := 16640
  lz_code_pos := 2
  lz_flags_pos := 0
  m_num_flags_left := 7
  out_buf := 376
  out_pos := 2
  m_bits_in := 0
  m_bit_buffer := 0
  m_saved_match_dist := 0
  m_saved_match_len := 0
  m_saved_lit := 0
  m_huff_count := 0
  m_huff_codes := 0
  m_huff_code_sizes := 0
  sink_calls := 0
  sink_out := []
  fed := [65, 65, 65, 65, 65, 65, 65, 65, 65, 65, 65, 65, 65, 65, 65, 65, 65, 65, 65, 65, 65, 65, 65, 65, 65, 65, 65, 65, 65, 65, 65, 65, 65, 65, 65, 65, 65, 65, 65, 65, 65, 65, 65, 65, 65, 65, 65, 65, 65, 65, 65, 65, 65, 65, 65, 65, 65, 65, 65, 65, 65, 65, 65, 65, 65, 65, 65, 65, 65, 65, 65, 65, 65, 65, 65, 65, 65, 65, 65, 65, 65, 65, 65, 65, 65, 65, 65, 65, 65, 65, 65, 65, 65, 65, 65, 65, 65, 65, 65, 65, 65, 65, 65, 65, 65, 65, 65, 65, 65, 65, 65, 65, 65, 65, 65, 65, 65, 65, 65, 65, 65, 65, 65, 65, 65, 65, 65, 65, 65, 65, 65, 65, 65, 65, 65, 65, 65, 65, 65, 65, 65, 65, 65, 65, 65, 65, 65, 65, 65, 65, 65, 65, 65, 65, 65, 65, 65, 65, 65, 65, 65, 65, 65, 65, 65, 65, 65, 65, 65, 65, 65, 65, 65, 65, 65, 65, 65, 65, 65, 65, 65, 65, 65, 65, 65, 65, 65, 65, 65, 65, 65, 65, 65, 65, 65, 65, 65, 65, 65, 65, 65, 65, 65, 65, 65, 65, 65, 65, 65, 65, 65, 65, 65, 65, 65, 65, 65, 65, 65, 65, 65, 65, 65, 65, 65, 65, 65, 65, 65, 65, 65, 65, 65, 65, 65, 65, 65, 65, 65, 65, 65, 65, 65, 65, 65, 65, 65, 65, 65, 65, 65, 65, 65, 65, 65, 65, 65, 65]
  tokens := [Tok.lit 65]

def c5T : CompState where
  sink_present := true
  m_flags := 2147483748
  m_max_probes := 34
  m_greedy_parsing := false
  m_all_writes_succeeded := true
  m_adler32 := 640958851
  m_lookahead_pos := 258
  m_lookahead_size := 0
  m_dict_size := 258
  m_dict := (65 * ((2 ^ 2064 - 1) / (2 ^ 8 - 1)) * 2 ^ 0 + 65 * ((2 ^ 2056 - 1) / (2 ^ 8 - 1)) * 2 ^ 262144)
  m_next := 4047833370604835989168055607996563344419406473086434430611222646290325595176975714324906741163068347597697017554309807574319351567681508452260812738946308695424712692117194825179589531202775132239003304928486013427492005385891787577615235730310071738704616682476394571660166707008392203396259249033468979708089112049656283600529599010174627205547562649731410521157437092500041803308599921120760667801508649777234151650077974044113435409632699716003535231523062479829950761504147870799820333362090818427292450295240724785451867200520358196298431623847276445315602707427554556180340937825365516823299041594881118653453611832406887661366489120432807922355401741971454777028477856499989621107511054846225641243210669867312697322030927098786598660766465651791945847173769286118932684465152394761028844291207315049303495221639822549982467161344577938052087762456222464490137588626617644401436272592167401750247254454983052768581597825784906462670683843219230829076858580022734467545384074633386487720050759096811051636723524100456308248613733512869449795461441834324056983259251640102893192915088170772889837549960119139943340046639818321348511597157306201444024987110382772964836893798200806536907379141937951698134145349421958860701695
  m_hash := 2 ^ 65536 - 1 - 65280 * 2 ^ 21776
  lz_buf := 16662912
  lz_code_pos := 5
  lz_flags_pos := 0
  m_num_flags_left := 6
  out_buf := 376
  out_pos := 2
  m_bits_in := 0
  m_bit_buffer := 0
  m_saved_match_dist := 0
  m_saved_match_len := 0
  m_saved_lit := 0
  m_huff_count := 0
  m_huff_codes := 0
  m_huff_code_sizes := 0
  sink_calls := 0
  sink_out := []
  fed := [65, 65, 65, 65, 65, 65, 65, 65, 65, 65, 65, 65, 65, 65, 65, 65, 65, 65, 65, 65, 65, 65, 65, 65, 65, 65, 65, 65, 65, 65, 65, 65, 65, 65, 65, 65, 65, 65, 65, 65, 65, 65, 65, 65, 65, 65, 65, 65, 65, 65, 65, 65, 65, 65, 65, 65, 65, 65, 65, 65, 65, 65, 65, 65, 65, 65, 65, 65, 65, 65, 65, 65, 65, 65, 65, 65, 65, 65, 65, 65, 65, 65, 65, 65, 65, 65, 65, 65, 65, 65, 65, 65, 65, 65, 65, 65, 65, 65, 65, 65, 65, 65, 65, 65, 65, 65, 65, 65, 65, 65, 65, 65, 65, 65, 65, 65, 65, 65, 65, 65, 65, 65, 65, 65, 65, 65, 65, 65, 65, 65, 65, 65, 65, 65, 65, 65, 65, 65, 65, 65, 65, 65, 65, 65, 65, 65, 65, 65, 65, 65, 65, 65, 65, 65, 65, 65, 65, 65, 65, 65, 65, 65, 65, 65, 65, 65, 65, 65, 65, 65, 65, 65, 65, 65, 65, 65, 65, 65, 65, 65, 65, 65, 65, 65, 65, 65, 65, 65, 65, 65, 65, 65, 65, 65, 65, 65, 65, 65, 65, 65, 65, 65, 65, 65, 65, 65, 65, 65, 65, 65, 65, 65, 65, 65, 65, 65, 65, 65, 65, 65, 65, 65, 65, 65, 65, 65, 65, 65, 65, 65, 65, 65, 65, 65, 65, 65, 65, 65, 65, 65, 65, 65, 65, 65, 65, 65, 65, 65, 65, 65, 65, 65, 65, 65, 65, 65, 65, 65]
  tokens := [Tok.lit 65, Tok.mtch 257 1]

def c5F3 : CompState where
  sink_present := true
  m_flags := 2147483748
  m_max_probes := 34
  m_greedy_parsing := false
  m_all_writes_succeeded := true
  m_adler32 := 640958851
  m_lookahead_pos := 258
  m_lookahead_size := 0
  m_dict_size := 258
  m_dict := (65 * ((2 ^ 2064 - 1) / (2 ^ 8 - 1)) * 2 ^ 0 + 65 * ((2 ^ 2056 - 1) / (2 ^ 8 - 1)) * 2 ^ 262144)
  m_next := 4047833370604835989168055607996563344419406473086434430611222646290325595176975714324906741163068347597697017554309807574319351567681508452260812738946308695424712692117194825179589531202775132239003304928486013427492005385891787577615235730310071738704616682476394571660166707008392203396259249033468979708089112049656283600529599010174627205547562649731410521157437092500041803308599921120760667801508649777234151650077974044113435409632699716003535231523062479829950761504147870799820333362090818427292450295240724785451867200520358196298431623847276445315602707427554556180340937825365516823299041594881118653453611832406887661366489120432807922355401741971454777028477856499989621107511054846225641243210669867312697322030927098786598660766465651791945847173769286118932684465152394761028844291207315049303495221639822549982467161344577938052087762456222464490137588626617644401436272592167401750247254454983052768581597825784906462670683843219230829076858580022734467545384074633386487720050759096811051636723524100456308248613733512869449795461441834324056983259251640102893192915088170772889837549960119139943340046639818321348511597157306201444024987110382772964836893798200806536907379141937951698134145349421958860701695
  m_hash := 2 ^ 65536 - 1 - 65280 * 2 ^ 21776
  lz_buf := 16662786
  lz_code_pos := 5
  lz_flags_pos := 0
  m_num_flags_left := 6
  out_buf := 376
  out_pos := 2
  m_bits_in := 0
  m_bit_buffer := 0
  m_saved_match_dist := 0
  m_saved_match_len := 0
  m_saved_lit := 0
  m_huff_count := 33751521821438561184911174488682640477482452690613543789987115108466500378467413241650309823759915214613546295086352135117206072620702805213786429827261190495295209725036214861444552245271001884442331336463841183659029156587178439044751051570054376203776342097110897640119327918012337424313355919359639652567871781286769270711026709157352924348777515574512579207430124960745017713811475633560361746240231372186987633281890003975124517410436232751786053258030904248989784343373580021188166681958833263750103182633244153516595521508818566115324063190091972423368494842153843595990497255213829768818713885259569227418368336242886606767605174829810982150528565967118131721850837888513762657604478369609843015552880947295515799110905227572789967619536652846841752356187553525037542835471679610927616179253402222958518688936759474891488524612498164626187280657565284841749346883733821213648855303631450963165708015076605521977593885175850031272413726537711615500082361797354545610805961054776264272564694019183582670918469749326672147001251270391588519732485504212607022322789378062652832218252116768074969332637829087270046551510524074656846286201510436458987520714549283287289005695885831305972424128512088425875519676438597700997912498439011308207034294747153666791052461076040313195837304269197999861282058594309268733406145019589400563587595326829655724011259687632676757224377521053109604735883045873344618911844994989269287823117041637722902168713308785785379235805811290995264911653917176942206455852720805521609295780520836024707594143283401297689411573737325933425620797567710165485750685335734627791063793984291605357197107129849265376270094633204307645781427012377913318329730569297051387451665734273076381699149231032591009934410162081380253152467182065227001502898694065764749789831298455507496287539117107400848297853199509026535362416082944
  m_huff_codes := 0
  m_huff_code_sizes := 0
  sink_calls := 0
  sink_out := []
  fed := [65, 65, 65, 65, 65, 65, 65, 65, 65, 65, 65, 65, 65, 65, 65, 65, 65, 65, 65, 65, 65, 65, 65, 65, 65, 65, 65, 65, 65, 65, 65, 65, 65, 65, 65, 65, 65, 65, 65, 65, 65, 65, 65, 65, 65, 65, 65, 65, 65, 65, 65, 65, 65, 65, 65, 65, 65, 65, 65, 65, 65, 65, 65, 65, 65, 65, 65, 65, 65, 65, 65, 65, 65, 65, 65, 65, 65, 65, 65, 65, 65, 65, 65, 65, 65, 65, 65, 65, 65, 65, 65, 65, 65, 65, 65, 65, 65, 65, 65, 65, 65, 65, 65, 65, 65, 65, 65, 65, 65, 65, 65, 65, 65, 65, 65, 65, 65, 65, 65, 65, 65, 65, 65, 65, 65, 65, 65, 65, 65, 65, 65, 65, 65, 65, 65, 65, 65, 65, 65, 65, 65, 65, 65, 65, 65, 65, 65, 65, 65, 65, 65, 65, 65, 65, 65, 65, 65, 65, 65, 65, 65, 65, 65, 65, 65, 65, 65, 65, 65, 65, 65, 65, 65, 65, 65, 65, 65, 65, 65, 65, 65, 65, 65, 65, 65, 65, 65, 65, 65, 65, 65, 65, 65, 65, 65, 65, 65, 65, 65, 65, 65, 65, 65, 65, 65, 65, 65, 65, 65, 65, 65, 65, 65, 65, 65, 65, 65, 65, 65, 65, 65, 65, 65, 65, 65, 65, 65, 65, 65, 65, 65, 65, 65, 65, 65, 65, 65, 65, 65, 65, 65, 65, 65, 65, 65, 65, 65, 65, 65, 65, 65, 65, 65, 65, 65, 65, 65, 65]
  tokens := [Tok.lit 65, Tok.mtch 257 1]

def c5F4 : CompState where
  sink_present := true
  m_flags := 2147483748
  m_max_probes := 34
  m_greedy_parsing := false
  m_all_writes_succeeded := true
  m_adler32 := 640958851
  m_lookahead_pos := 258
  m_lookahead_size := 0
  m_dict_size := 258
  m_dict := (65 * ((2 ^ 2064 - 1) / (2 ^ 8 - 1)) * 2 ^ 0 + 65 * ((2 ^ 2056 - 1) / (2 ^ 8 - 1)) * 2 ^ 262144)
  m_next := 4047833370604835989168055607996563344419406473086434430611222646290325595176975714324906741163068347597697017554309807574319351567681508452260812738946308695424712692117194825179589531202775132239003304928486013427492005385891787577615235730310071738704616682476394571660166707008392203396259249033468979708089112049656283600529599010174627205547562649731410521157437092500041803308599921120760667801508649777234151650077974044113435409632699716003535231523062479829950761504147870799820333362090818427292450295240724785451867200520358196298431623847276445315602707427554556180340937825365516823299041594881118653453611832406887661366489120432807922355401741971454777028477856499989621107511054846225641243210669867312697322030927098786598660766465651791945847173769286118932684465152394761028844291207315049303495221639822549982467161344577938052087762456222464490137588626617644401436272592167401750247254454983052768581597825784906462670683843219230829076858580022734467545384074633386487720050759096811051636723524100456308248613733512869449795461441834324056983259251640102893192915088170772889837549960119139943340046639818321348511597157306201444024987110382772964836893798200806536907379141937951698134145349421958860701695
  m_hash := 2 ^ 65536 - 1 - 65280 * 2 ^ 21776
  lz_buf := 16662786
  lz_code_pos := 5
  lz_flags_pos := 0
  m_num_flags_left := 6
  out_buf := 376
  out_pos := 2
  m_bits_in := 0
  m_bit_buffer := 0
  m_saved_match_dist := 0
  m_saved_match_len := 0
  m_saved_lit := 0
  m_huff_count := 33751521821438561184911174488682640477482452690613543789987115108466500378467413241650309823759915214613546295086352135117206072620702805213786429827261190495295209725036214861444552245271001884442331336463841183659029156587178439044751051570054376203776342097110897640119327918012337424313355919359639652567871781286769270711026709157352924348777515574512579207430124960745017713811475633560361746240231372186987633281890003975124517410436232751786053258030904248989784343373580021188166681958833263750103182633244153516595521508818566115324063190091972423368494842153843595990497255213829768818713885259569227418368336242886606767605174829810982150528565967118131721850837888513762657604478369609843015552880947295515799110905227572789967619536652846841752356187553525037542835471679610927616179253402222958518688936759474891488524612498164626187280657565284841749346883733821213648855303631450963165708015076605521977593885175850031272413726537711615500082361797354545610805961054776264272564694019183582670918469749326672147001251270391588519732485504212607022322789378062652832218252116768074969332637829087270046551510524074656846286201510436458987520714549283287289005695885831305972424128512088425875519676438597700997912498439011308207034294747153666791052461076040313195837304269197999861282058594309268733406145019589400563587595326829655724011259687632676757224377521053109604735883045873344618911844994989269287823117041637722902168713308785785379235805811290995264911653917176942206455852720805521609295780520836024707594143283401297689411573737325933425620797567710165485750685335734627791063793984291605357197107129849265376270094633204307645781427012377913318329730569297051387451665734273076381699149231032591009934410162081380253152467182065227001502898694065764749789831298455507496287539117107400848297853199509026535362416082944
  m_huff_codes := 3133166644239457520075258132149873147739892747142151341152700449851861723914672370546480435804992675022670320143317788513962720314557380821789708263554095833837870929631129995021084770403151154943284210035567838679128956518193138237017004053033759852490423726117411112213852146220355827343403933350794087020060816930645363357840716890570782821798738360298470407909080089329177075047917199603142646625081506679655874458954713743303490202263435617918489425300567124047025251185025281005001551653098916264808652309950849108235799045641390477511564275500970253663955478539104376650677994901237034354587787023476583851071419517739736832477195506140262825866308502810593094606939507053034020025586455239764909258110856125374352044721477406379948371540198834655382813320493402271752818652839374664549348862970603551195669807184184717963079006368890187063348636845321848022238837024759469151714927131464448964141893137708748410791906390297955864876594690203699349784658445479998059534770901787025567049194634994318338119403667258430662770442670993387023098711726273311406488334279230953679957615862991765847592996409709179447713033761411883638593976062305025657983373519644055383917358717699581036261945055038306996024421326543274362519158784
  m_huff_code_sizes := 5809605995369958062859502533304574370686975176362895236661486152287203730997110225737336044533118407251326157754980517443990529594540047121662885672187032401032111639706440498844049850989051627200244765807041812394729680540024104827976584370252787052485736961800925569309830849172078214750178303938483362824182654470798893879955751312062616170873939233014762269946281362490204423771397913846187448548944357468043666636347968749452435191906679002909985909218320429219075791956997485777862997744691357103320886311460189446137004317922805056015387903741488576058626075294665832863197800660539879850917298552346399319380172353777556834948690214468536402295431659854706969787415292183739264125360419434037261187960073112513793552507654744893848406257461884479509394170181688988907389960175103505851831512260865225460457074537090422268335893798736849581402078212952330192719188501319760147697485366227722599341492672535580016377856
  sink_calls := 0
  sink_out := []
  fed := [65, 65, 65, 65, 65, 65, 65, 65, 65, 65, 65, 65, 65, 65, 65, 65, 65, 65, 65, 65, 65, 65, 65, 65, 65, 65, 65, 65, 65, 65, 65, 65, 65, 65, 65, 65, 65, 65, 65, 65, 65, 65, 65, 65, 65, 65, 65, 65, 65, 65, 65, 65, 65, 65, 65, 65, 65, 65, 65, 65, 65, 65, 65, 65, 65, 65, 65, 65, 65, 65, 65, 65, 65, 65, 65, 65, 65, 65, 65, 65, 65, 65, 65, 65, 65, 65, 65, 65, 65, 65, 65, 65, 65, 65, 65, 65, 65, 65, 65, 65, 65, 65, 65, 65, 65, 65, 65, 65, 65, 65, 65, 65, 65, 65, 65, 65, 65, 65, 65, 65, 65, 65, 65, 65, 65, 65, 65, 65, 65, 65, 65, 65, 65, 65, 65, 65, 65, 65, 65, 65, 65, 65, 65, 65, 65, 65, 65, 65, 65, 65, 65, 65, 65, 65, 65, 65, 65, 65, 65, 65, 65, 65, 65, 65, 65, 65, 65, 65, 65, 65, 65, 65, 65, 65, 65, 65, 65, 65, 65, 65, 65, 65, 65, 65, 65, 65, 65, 65, 65, 65, 65, 65, 65, 65, 65, 65, 65, 65, 65, 65, 65, 65, 65, 65, 65, 65, 65, 65, 65, 65, 65, 65, 65, 65, 65, 65, 65, 65, 65, 65, 65, 65, 65, 65, 65, 65, 65, 65, 65, 65, 65, 65, 65, 65, 65, 65, 65, 65, 65, 65, 65, 65, 65, 65, 65, 65, 65, 65, 65, 65, 65, 65, 65, 65, 65, 65, 65, 65]
  tokens := [Tok.lit 65, Tok.mtch 257 1]

def c5F4r : CompState where
  sink_present := true
  m_flags := 2147483748
  m_max_probes := 34
  m_greedy_parsing := false
  m_all_writes_succeeded := true
  m_adler32 := 640958851
  m_lookahead_pos := 258
  m_lookahead_size := 0
  m_dict_size := 258
  m_dict := (65 * ((2 ^ 2064 - 1) / (2 ^ 8 - 1)) * 2 ^ 0 + 65 * ((2 ^ 2056 - 1) / (2 ^ 8 - 1)) * 2 ^ 262144)
  m_next := 4047833370604835989168055607996563344419406473086434430611222646290325595176975714324906741163068347597697017554309807574319351567681508452260812738946308695424712692117194825179589531202775132239003304928486013427492005385891787577615235730310071738704616682476394571660166707008392203396259249033468979708089112049656283600529599010174627205547562649731410521157437092500041803308599921120760667801508649777234151650077974044113435409632699716003535231523062479829950761504147870799820333362090818427292450295240724785451867200520358196298431623847276445315602707427554556180340937825365516823299041594881118653453611832406887661366489120432807922355401741971454777028477856499989621107511054846225641243210669867312697322030927098786598660766465651791945847173769286118932684465152394761028844291207315049303495221639822549982467161344577938052087762456222464490137588626617644401436272592167401750247254454983052768581597825784906462670683843219230829076858580022734467545384074633386487720050759096811051636723524100456308248613733512869449795461441834324056983259251640102893192915088170772889837549960119139943340046639818321348511597157306201444024987110382772964836893798200806536907379141937951698134145349421958860701695
  m_hash := 2 ^ 65536 - 1 - 65280 * 2 ^ 21776
  lz_buf := 16662786
  lz_code_pos := 5
  lz_flags_pos := 0
  m_num_flags_left := 6
  out_buf := 376
  out_pos := 2
  m_bits_in := 0
  m_bit_buffer := 0
  m_saved_match_dist := 0
  m_saved_match_len := 0
  m_saved_lit := 0
  m_huff_count := (1 * 2 ^ 1040 + 1 * 2 ^ 4096 + 1 * 2 ^ 4544 + 1 * 2 ^ 6144 + 2 * ((2 ^ 32 - 1) / (2 ^ 16 - 1)) * 2 ^ 12304 + 4 * 2 ^ 12576)
  m_huff_codes := 3133166644239457520075258132149873147739892747142151341152700449851861723914672370546480435804992675022670320143317788513962720314557380821789708263554095833837870929631129995021084770403151154943284210035567838679128956518193138237017004053033759852490423726117411112213852146220355827343403933350794087020060816930645363357840716890570782821798738360298470407909080089329177075047917199603142646625081506679655874458954713743303490202263435617918489425300567124047025251185025281005001551653098916264808652309950849108235799045641390477511564275500970253663955478539104376650677994901237034354587787023476583851071419517739736832477195506140262825866308502810593094606939507053034020025586455239764909258110856125374352044721477406379948371540198834655382813320493402271752818652839374664549348862970603551195669807184184717963079006368890187063348636845321848022238837024759469151714927131464448964141893137708748410791906390297955864876594690203699349784658445479998059534770901787025567049194634994318338119403667258430662770442670993387023098711726273311406488334279230953679957615862991765847592996409709179447713033761411883638593976062305025657983373519644055383917358717699581036261945055038306996024421326543274362519158784
  m_huff_code_sizes := 5809605995369958062859502533304574370686975176362895236661486152287203730997110225737336044533118407251326157754980517443990529594540047121662885672187032401032111639706440498844049850989051627200244765807041812394729680540024104827976584370252787052485736961800925569309830849172078214750178303938483362824182654470798893879955751312062616170873939233014762269946281362490204423771397913846187448548944357468043666636347968749452435191906679002909985909218320429219075791956997485777862997744691357103320886311460189446137004317922805056015387903741488576058626075294665832863197800660539879850917298552346399319380172353777556834948690214468536402295431659854706969787415292183739264125360419434037261187960073112513793552507654744893848406257461884479509394170181688988907389960175103505851831512260865225460457074537090422268335893798736849581402078212952330192719188501319760147697485366227722599341492672535580016377856
  sink_calls := 0
  sink_out := []
  fed := [65, 65, 65, 65, 65, 65, 65, 65, 65, 65, 65, 65, 65, 65, 65, 65, 65, 65, 65, 65, 65, 65, 65, 65, 65, 65, 65, 65, 65, 65, 65, 65, 65, 65, 65, 65, 65, 65, 65, 65, 65, 65, 65, 65, 65, 65, 65, 65, 65, 65, 65, 65, 65, 65, 65, 65, 65, 65, 65, 65, 65, 65, 65, 65, 65, 65, 65, 65, 65, 65, 65, 65, 65, 65, 65, 65, 65, 65, 65, 65, 65, 65, 65, 65, 65, 65, 65, 65, 65, 65, 65, 65, 65, 65, 65, 65, 65, 65, 65, 65, 65, 65, 65, 65, 65, 65, 65, 65, 65, 65, 65, 65, 65, 65, 65, 65, 65, 65, 65, 65, 65, 65, 65, 65, 65, 65, 65, 65, 65, 65, 65, 65, 65, 65, 65, 65, 65, 65, 65, 65, 65, 65, 65, 65, 65, 65, 65, 65, 65, 65, 65, 65, 65, 65, 65, 65, 65, 65, 65, 65, 65, 65, 65, 65, 65, 65, 65, 65, 65, 65, 65, 65, 65, 65, 65, 65, 65, 65, 65, 65, 65, 65, 65, 65, 65, 65, 65, 65, 65, 65, 65, 65, 65, 65, 65, 65, 65, 65, 65, 65, 65, 65, 65, 65, 65, 65, 65, 65, 65, 65, 65, 65, 65, 65, 65, 65, 65, 65, 65, 65, 65, 65, 65, 65, 65, 65, 65, 65, 65, 65, 65, 65, 65, 65, 65, 65, 65, 65, 65, 65, 65, 65, 65, 65, 65, 65, 65, 65, 65, 65, 65, 65, 65, 65, 65, 65, 65, 65]
  tokens := [Tok.lit 65, Tok.mtch 257 1]

def c5F5 : CompState where
  sink_present := true
  m_flags := 2147483748
  m_max_probes := 34
  m_greedy_parsing := false
  m_all_writes_succeeded := true
  m_adler32 := 640958851
  m_lookahead_pos := 258
  m_lookahead_size := 0
  m_dict_size := 258
  m_dict := (65 * ((2 ^ 2064 - 1) / (2 ^ 8 - 1)) * 2 ^ 0 + 65 * ((2 ^ 2056 - 1) / (2 ^ 8 - 1)) * 2 ^ 262144)
  m_next := 4047833370604835989168055607996563344419406473086434430611222646290325595176975714324906741163068347597697017554309807574319351567681508452260812738946308695424712692117194825179589531202775132239003304928486013427492005385891787577615235730310071738704616682476394571660166707008392203396259249033468979708089112049656283600529599010174627205547562649731410521157437092500041803308599921120760667801508649777234151650077974044113435409632699716003535231523062479829950761504147870799820333362090818427292450295240724785451867200520358196298431623847276445315602707427554556180340937825365516823299041594881118653453611832406887661366489120432807922355401741971454777028477856499989621107511054846225641243210669867312697322030927098786598660766465651791945847173769286118932684465152394761028844291207315049303495221639822549982467161344577938052087762456222464490137588626617644401436272592167401750247254454983052768581597825784906462670683843219230829076858580022734467545384074633386487720050759096811051636723524100456308248613733512869449795461441834324056983259251640102893192915088170772889837549960119139943340046639818321348511597157306201444024987110382772964836893798200806536907379141937951698134145349421958860701695
  m_hash := 2 ^ 65536 - 1 - 65280 * 2 ^ 21776
  lz_buf := 16662786
  lz_code_pos := 5
  lz_flags_pos := 0
  m_num_flags_left := 6
  out_buf := 376
  out_pos := 2
  m_bits_in := 0
  m_bit_buffer := 0
  m_saved_match_dist := 0
  m_saved_match_len := 0
  m_saved_lit := 0
  m_huff_count := (1 * 2 ^ 1040 + 1 * 2 ^ 4096 + 1 * 2 ^ 4544 + 1 * 2 ^ 6144 + 2 * ((2 ^ 32 - 1) / (2 ^ 16 - 1)) * 2 ^ 12304 + 4 * 2 ^ 12576)
  m_huff_codes := (1 * 2 ^ 1040 + 3 * 2 ^ 4096 + 1 * 2 ^ 12304 + 3 * 2 ^ 12320)
  m_huff_code_sizes := 752684088202547545336940141978922295261227911542688465300810400304498340974861610797509304707294794007694597077687960816203399607576450892682873522610757568452348884660480718107921135844827739183227757489670766059199469213519901282885716815090184931025701427715034954656401365241692765374887031810640322987152679862150006667544008479170556876395830951294630127776410429847864208687559335431752008940935977313302141260468197706056720247044287800945629391003546944272970602733188827101085138031033275932888582118439201953002870279576727269642886149340131941081586881057329671873256764252967826053468880805762286156523735445475391458799793564566454522807001529739731804879225182176005890965532149804355487333681610807278357806901025493424292753511311594189012189987667036009217499014725136443572401306140126379361680295191868691527120208083461828280762863504236087067421482562700381982800239575804457332280006128385081437510119937827578223900478536109652635600079467782632503895514928395470757132161490960946153109101316134736644358169239793816978263077799631095193473998772399261425599128185753365468057517297924726708014548667290087442000275006868033173735479949075016333417409987331956839666300726625402954587851498547792119000536058139370105031898429317578634375347776670833866274529589408974686597820289017085993015315487439485789634611962901680410877200419087375459624318379245110400920620838276829552194651327025998227303049476242152574281922750987298162224153729665714937952413742344552462923413135147233613271840465292296520405007575213905235622358418664427748280183314326166919978223851061375716900850333229305803948736685128905064468697526919620497928389842729727566220753160471098367977520203378140121381724401178000467264340391974547625300739922592872413825624575583140412202421778674696192472844479054378241593919287538460068915827026812807375998272929536217601280099041206238969856
  sink_calls := 0
  sink_out := []
  fed := [65, 65, 65, 65, 65, 65, 65, 65, 65, 65, 65, 65, 65, 65, 65, 65, 65, 65, 65, 65, 65, 65, 65, 65, 65, 65, 65, 65, 65, 65, 65, 65, 65, 65, 65, 65, 65, 65, 65, 65, 65, 65, 65, 65, 65, 65, 65, 65, 65, 65, 65, 65, 65, 65, 65, 65, 65, 65, 65, 65, 65, 65, 65, 65, 65, 65, 65, 65, 65, 65, 65, 65, 65, 65, 65, 65, 65, 65, 65, 65, 65, 65, 65, 65, 65, 65, 65, 65, 65, 65, 65, 65, 65, 65, 65, 65, 65, 65, 65, 65, 65, 65, 65, 65, 65, 65, 65, 65, 65, 65, 65, 65, 65, 65, 65, 65, 65, 65, 65, 65, 65, 65, 65, 65, 65, 65, 65, 65, 65, 65, 65, 65, 65, 65, 65, 65, 65, 65, 65, 65, 65, 65, 65, 65, 65, 65, 65, 65, 65, 65, 65, 65, 65, 65, 65, 65, 65, 65, 65, 65, 65, 65, 65, 65, 65, 65, 65, 65, 65, 65, 65, 65, 65, 65, 65, 65, 65, 65, 65, 65, 65, 65, 65, 65, 65, 65, 65, 65, 65, 65, 65, 65, 65, 65, 65, 65, 65, 65, 65, 65, 65, 65, 65, 65, 65, 65, 65, 65, 65, 65, 65, 65, 65, 65, 65, 65, 65, 65, 65, 65, 65, 65, 65, 65, 65, 65, 65, 65, 65, 65, 65, 65, 65, 65, 65, 65, 65, 65, 65, 65, 65, 65, 65, 65, 65, 65, 65, 65, 65, 65, 65, 65, 65, 65, 65, 65, 65, 65]
  tokens := [Tok.lit 65, Tok.mtch 257 1]

def c5F5h : CompState where
  sink_present := true
  m_flags := 2147483748
  m_max_probes := 34
  m_greedy_parsing := false
  m_all_writes_succeeded := true
  m_adler32 := 640958851
  m_lookahead_pos := 258
  m_lookahead_size := 0
  m_dict_size := 258
  m_dict := (65 * ((2 ^ 2064 - 1) / (2 ^ 8 - 1)) * 2 ^ 0 + 65 * ((2 ^ 2056 - 1) / (2 ^ 8 - 1)) * 2 ^ 262144)
  m_next := 4047833370604835989168055607996563344419406473086434430611222646290325595176975714324906741163068347597697017554309807574319351567681508452260812738946308695424712692117194825179589531202775132239003304928486013427492005385891787577615235730310071738704616682476394571660166707008392203396259249033468979708089112049656283600529599010174627205547562649731410521157437092500041803308599921120760667801508649777234151650077974044113435409632699716003535231523062479829950761504147870799820333362090818427292450295240724785451867200520358196298431623847276445315602707427554556180340937825365516823299041594881118653453611832406887661366489120432807922355401741971454777028477856499989621107511054846225641243210669867312697322030927098786598660766465651791945847173769286118932684465152394761028844291207315049303495221639822549982467161344577938052087762456222464490137588626617644401436272592167401750247254454983052768581597825784906462670683843219230829076858580022734467545384074633386487720050759096811051636723524100456308248613733512869449795461441834324056983259251640102893192915088170772889837549960119139943340046639818321348511597157306201444024987110382772964836893798200806536907379141937951698134145349421958860701695
  m_hash := 2 ^ 65536 - 1 - 65280 * 2 ^ 21776
  lz_buf := 16662786
  lz_code_pos := 5
  lz_flags_pos := 0
  m_num_flags_left := 6
  out_buf := 604462909807871874367864
  out_pos := 10
  m_bits_in := 7
  m_bit_buffer := 32
  m_saved_match_dist := 0
  m_saved_match_len := 0
  m_saved_lit := 0
  m_huff_count := (1 * 2 ^ 1040 + 1 * 2 ^ 4096 + 1 * 2 ^ 4544 + 1 * 2 ^ 6144 + 2 * ((2 ^ 32 - 1) / (2 ^ 16 - 1)) * 2 ^ 12304 + 4 * 2 ^ 12576)
  m_huff_codes := (1 * 2 ^ 1040 + 3 * 2 ^ 4096 + 1 * 2 ^ 12304 + 3 * 2 ^ 12320)
  m_huff_code_sizes := 752684088202547545336940141978922295261227911542688465300810400304498340974861610797509304707294794007694597077687960816203399607576450892682873522610757568452348884660480718107921135844827739183227757489670766059199469213519901282885716815090184931025701427715034954656401365241692765374887031810640322987152679862150006667544008479170556876395830951294630127776410429847864208687559335431752008940935977313302141260468197706056720247044287800945629391003546944272970602733188827101085138031033275932888582118439201953002870279576727269642886149340131941081586881057329671873256764252967826053468880805762286156523735445475391458799793564566454522807001529739731804879225182176005890965532149804355487333681610807278357806901025493424292753511311594189012189987667036009217499014725136443572401306140126379361680295191868691527120208083461828280762863504236087067421482562700381982800239575804457332280006128385081437510119937827578223900478536109652635600079467782632503895514928395470757132161490960946153109101316134736644358169239793816978263077799631095193473998772399261425599128185753365468057517297924726708014548667290087442000275006868033173735479949075016333417409987331956839666300726625402954587851498547792119000536058139370105031898429317578634375347776670833866274529589408974686597820289017085993015315487439485789634611962901680410877200419087375459624318379245110400920620838276829552194651327025998227303049476242152574281922750987298162224153729665714937952413742344552462923413135147233613271840465292296520405007575213905235622358418664427748280183314326166919978223851061375716900850333229305803948736685128905064468697526919620497928389842729727566220753160471098367977520203378140121381724401178000467264340391974547625300739922592872413825624575583140412202421778674696192472844479054378241593919287538460068915827026812807375998272929536217601280099041206238969856
  sink_calls := 0
  sink_out := []
  fed := [65, 65, 65, 65, 65, 65, 65, 65, 65, 65, 65, 65, 65, 65, 65, 65, 65, 65, 65, 65, 65, 65, 65, 65, 65, 65, 65, 65, 65, 65, 65, 65, 65, 65, 65, 65, 65, 65, 65, 65, 65, 65, 65, 65, 65, 65, 65, 65, 65, 65, 65, 65, 65, 65, 65, 65, 65, 65, 65, 65, 65, 65, 65, 65, 65, 65, 65, 65, 65, 65, 65, 65, 65, 65, 65, 65, 65, 65, 65, 65, 65, 65, 65, 65, 65, 65, 65, 65, 65, 65, 65, 65, 65, 65, 65, 65, 65, 65, 65, 65, 65, 65, 65, 65, 65, 65, 65, 65, 65, 65, 65, 65, 65, 65, 65, 65, 65, 65, 65, 65, 65, 65, 65, 65, 65, 65, 65, 65, 65, 65, 65, 65, 65, 65, 65, 65, 65, 65, 65, 65, 65, 65, 65, 65, 65, 65, 65, 65, 65, 65, 65, 65, 65, 65, 65, 65, 65, 65, 65, 65, 65, 65, 65, 65, 65, 65, 65, 65, 65, 65, 65, 65, 65, 65, 65, 65, 65, 65, 65, 65, 65, 65, 65, 65, 65, 65, 65, 65, 65, 65, 65, 65, 65, 65, 65, 65, 65, 65, 65, 65, 65, 65, 65, 65, 65, 65, 65, 65, 65, 65, 65, 65, 65, 65, 65, 65, 65, 65, 65, 65, 65, 65, 65, 65, 65, 65, 65, 65, 65, 65, 65, 65, 65, 65, 65, 65, 65, 65, 65, 65, 65, 65, 65, 65, 65, 65, 65, 65, 65, 65, 65, 65, 65, 65, 65, 65, 65, 65]
  tokens := [Tok.lit 65, Tok.mtch 257 1]

def c5F6 : CompState where
  sink_present := true
  m_flags := 2147483748
  m_max_probes := 34
  m_greedy_parsing := false
  m_all_writes_succeeded := true
  m_adler32 := 640958851
  m_lookahead_pos := 258
  m_lookahead_size := 0
  m_dict_size := 258
  m_dict := (65 * ((2 ^ 2064 - 1) / (2 ^ 8 - 1)) * 2 ^ 0 + 65 * ((2 ^ 2056 - 1) / (2 ^ 8 - 1)) * 2 ^ 262144)
  m_next := 4047833370604835989168055607996563344419406473086434430611222646290325595176975714324906741163068347597697017554309807574319351567681508452260812738946308695424712692117194825179589531202775132239003304928486013427492005385891787577615235730310071738704616682476394571660166707008392203396259249033468979708089112049656283600529599010174627205547562649731410521157437092500041803308599921120760667801508649777234151650077974044113435409632699716003535231523062479829950761504147870799820333362090818427292450295240724785451867200520358196298431623847276445315602707427554556180340937825365516823299041594881118653453611832406887661366489120432807922355401741971454777028477856499989621107511054846225641243210669867312697322030927098786598660766465651791945847173769286118932684465152394761028844291207315049303495221639822549982467161344577938052087762456222464490137588626617644401436272592167401750247254454983052768581597825784906462670683843219230829076858580022734467545384074633386487720050759096811051636723524100456308248613733512869449795461441834324056983259251640102893192915088170772889837549960119139943340046639818321348511597157306201444024987110382772964836893798200806536907379141937951698134145349421958860701695
  m_hash := 2 ^ 65536 - 1 - 65280 * 2 ^ 21776
  lz_buf := 16662786
  lz_code_pos := 5
  lz_flags_pos := 0
  m_num_flags_left := 6
  out_buf := 34520479826489476890823954432065912
  out_pos := 15
  m_bits_in := 7
  m_bit_buffer := 41
  m_saved_match_dist := 0
  m_saved_match_len := 0
  m_saved_lit := 0
  m_huff_count := (1 * 2 ^ 1040 + 1 * 2 ^ 4096 + 1 * 2 ^ 4544 + 1 * 2 ^ 6144 + 2 * ((2 ^ 32 - 1) / (2 ^ 16 - 1)) * 2 ^ 12304 + 4 * 2 ^ 12576)
  m_huff_codes := (1 * 2 ^ 1040 + 3 * 2 ^ 4096 + 1 * 2 ^ 12304 + 3 * 2 ^ 12320)
  m_huff_code_sizes := 752684088202547545336940141978922295261227911542688465300810400304498340974861610797509304707294794007694597077687960816203399607576450892682873522610757568452348884660480718107921135844827739183227757489670766059199469213519901282885716815090184931025701427715034954656401365241692765374887031810640322987152679862150006667544008479170556876395830951294630127776410429847864208687559335431752008940935977313302141260468197706056720247044287800945629391003546944272970602733188827101085138031033275932888582118439201953002870279576727269642886149340131941081586881057329671873256764252967826053468880805762286156523735445475391458799793564566454522807001529739731804879225182176005890965532149804355487333681610807278357806901025493424292753511311594189012189987667036009217499014725136443572401306140126379361680295191868691527120208083461828280762863504236087067421482562700381982800239575804457332280006128385081437510119937827578223900478536109652635600079467782632503895514928395470757132161490960946153109101316134736644358169239793816978263077799631095193473998772399261425599128185753365468057517297924726708014548667290087442000275006868033173735479949075016333417409987331956839666300726625402954587851498547792119000536058139370105031898429317578634375347776670833866274529589408974686597820289017085993015315487439485789634611962901680410877200419087375459624318379245110400920620838276829552194651327025998227303049476242152574281922750987298162224153729665714937952413742344552462923413135147233613271840465292296520405007575213905235622358418664427748280183314326166919978223851061375716900850333229305803948736685128905064468697526919620497928389842729727566220753160471098367977520203378140121381724401178000467264340391974547625300739922592872413825624575583140412202421778674696192472844479054378241593919287538460068915827026812807375998272929536217601280099041206238969856
  sink_calls := 0
  sink_out := []
  fed := [65, 65, 65, 65, 65, 65, 65, 65, 65, 65, 65, 65, 65, 65, 65, 65, 65, 65, 65, 65, 65, 65, 65, 65, 65, 65, 65, 65, 65, 65, 65, 65, 65, 65, 65, 65, 65, 65, 65, 65, 65, 65, 65, 65, 65, 65, 65, 65, 65, 65, 65, 65, 65, 65, 65, 65, 65, 65, 65, 65, 65, 65, 65, 65, 65, 65, 65, 65, 65, 65, 65, 65, 65, 65, 65, 65, 65, 65, 65, 65, 65, 65, 65, 65, 65, 65, 65, 65, 65, 65, 65, 65, 65, 65, 65, 65, 65, 65, 65, 65, 65, 65, 65, 65, 65, 65, 65, 65, 65, 65, 65, 65, 65, 65, 65, 65, 65, 65, 65, 65, 65, 65, 65, 65, 65, 65, 65, 65, 65, 65, 65, 65, 65, 65, 65, 65, 65, 65, 65, 65, 65, 65, 65, 65, 65, 65, 65, 65, 65, 65, 65, 65, 65, 65, 65, 65, 65, 65, 65, 65, 65, 65, 65, 65, 65, 65, 65, 65, 65, 65, 65, 65, 65, 65, 65, 65, 65, 65, 65, 65, 65, 65, 65, 65, 65, 65, 65, 65, 65, 65, 65, 65, 65, 65, 65, 65, 65, 65, 65, 65, 65, 65, 65, 65, 65, 65, 65, 65, 65, 65, 65, 65, 65, 65, 65, 65, 65, 65, 65, 65, 65, 65, 65, 65, 65, 65, 65, 65, 65, 65, 65, 65, 65, 65, 65, 65, 65, 65, 65, 65, 65, 65, 65, 65, 65, 65, 65, 65, 65, 65, 65, 65, 65, 65, 65, 65, 65, 65]
  tokens := [Tok.lit 65, Tok.mtch 257 1]

def c5F7 : CompState where
  sink_present := true
  m_flags := 2147483748
  m_max_probes := 34
  m_greedy_parsing := false
  m_all_writes_succeeded := true
  m_adler32 := 640958851
  m_lookahead_pos := 258
  m_lookahead_size := 0
  m_dict_size := 258
  m_dict := (65 * ((2 ^ 2064 - 1) / (2 ^ 8 - 1)) * 2 ^ 0 + 65 * ((2 ^ 2056 - 1) / (2 ^ 8 - 1)) * 2 ^ 262144)
  m_next := 4047833370604835989168055607996563344419406473086434430611222646290325595176975714324906741163068347597697017554309807574319351567681508452260812738946308695424712692117194825179589531202775132239003304928486013427492005385891787577615235730310071738704616682476394571660166707008392203396259249033468979708089112049656283600529599010174627205547562649731410521157437092500041803308599921120760667801508649777234151650077974044113435409632699716003535231523062479829950761504147870799820333362090818427292450295240724785451867200520358196298431623847276445315602707427554556180340937825365516823299041594881118653453611832406887661366489120432807922355401741971454777028477856499989621107511054846225641243210669867312697322030927098786598660766465651791945847173769286118932684465152394761028844291207315049303495221639822549982467161344577938052087762456222464490137588626617644401436272592167401750247254454983052768581597825784906462670683843219230829076858580022734467545384074633386487720050759096811051636723524100456308248613733512869449795461441834324056983259251640102893192915088170772889837549960119139943340046639818321348511597157306201444024987110382772964836893798200806536907379141937951698134145349421958860701695
  m_hash := 2 ^ 65536 - 1 - 65280 * 2 ^ 21776
  lz_buf := 16662786
  lz_code_pos := 1
  lz_flags_pos := 0
  m_num_flags_left := 8
  out_buf := 302395415877560832827474285616551982072184
  out_pos := 18
  m_bits_in := 0
  m_bit_buffer := 0
  m_saved_match_dist := 0
  m_saved_match_len := 0
  m_saved_lit := 0
  m_huff_count := (1 * 2 ^ 1040 + 1 * 2 ^ 4096 + 1 * 2 ^ 4544 + 1 * 2 ^ 6144 + 2 * ((2 ^ 32 - 1) / (2 ^ 16 - 1)) * 2 ^ 12304 + 4 * 2 ^ 12576)
  m_huff_codes := (1 * 2 ^ 1040 + 3 * 2 ^ 4096 + 1 * 2 ^ 12304 + 3 * 2 ^ 12320)
  m_huff_code_sizes := 752684088202547545336940141978922295261227911542688465300810400304498340974861610797509304707294794007694597077687960816203399607576450892682873522610757568452348884660480718107921135844827739183227757489670766059199469213519901282885716815090184931025701427715034954656401365241692765374887031810640322987152679862150006667544008479170556876395830951294630127776410429847864208687559335431752008940935977313302141260468197706056720247044287800945629391003546944272970602733188827101085138031033275932888582118439201953002870279576727269642886149340131941081586881057329671873256764252967826053468880805762286156523735445475391458799793564566454522807001529739731804879225182176005890965532149804355487333681610807278357806901025493424292753511311594189012189987667036009217499014725136443572401306140126379361680295191868691527120208083461828280762863504236087067421482562700381982800239575804457332280006128385081437510119937827578223900478536109652635600079467782632503895514928395470757132161490960946153109101316134736644358169239793816978263077799631095193473998772399261425599128185753365468057517297924726708014548667290087442000275006868033173735479949075016333417409987331956839666300726625402954587851498547792119000536058139370105031898429317578634375347776670833866274529589408974686597820289017085993015315487439485789634611962901680410877200419087375459624318379245110400920620838276829552194651327025998227303049476242152574281922750987298162224153729665714937952413742344552462923413135147233613271840465292296520405007575213905235622358418664427748280183314326166919978223851061375716900850333229305803948736685128905064468697526919620497928389842729727566220753160471098367977520203378140121381724401178000467264340391974547625300739922592872413825624575583140412202421778674696192472844479054378241593919287538460068915827026812807375998272929536217601280099041206238969856
  sink_calls := 0
  sink_out := []
  fed := [65, 65, 65, 65, 65, 65, 65, 65, 65, 65, 65, 65, 65, 65, 65, 65, 65, 65, 65, 65, 65, 65, 65, 65, 65, 65, 65, 65, 65, 65, 65, 65, 65, 65, 65, 65, 65, 65, 65, 65, 65, 65, 65, 65, 65, 65, 65, 65, 65, 65, 65, 65, 65, 65, 65, 65, 65, 65, 65, 65, 65, 65, 65, 65, 65, 65, 65, 65, 65, 65, 65, 65, 65, 65, 65, 65, 65, 65, 65, 65, 65, 65, 65, 65, 65, 65, 65, 65, 65, 65, 65, 65, 65, 65, 65, 65, 65, 65, 65, 65, 65, 65, 65, 65, 65, 65, 65, 65, 65, 65, 65, 65, 65, 65, 65, 65, 65, 65, 65, 65, 65, 65, 65, 65, 65, 65, 65, 65, 65, 65, 65, 65, 65, 65, 65, 65, 65, 65, 65, 65, 65, 65, 65, 65, 65, 65, 65, 65, 65, 65, 65, 65, 65, 65, 65, 65, 65, 65, 65, 65, 65, 65, 65, 65, 65, 65, 65, 65, 65, 65, 65, 65, 65, 65, 65, 65, 65, 65, 65, 65, 65, 65, 65, 65, 65, 65, 65, 65, 65, 65, 65, 65, 65, 65, 65, 65, 65, 65, 65, 65, 65, 65, 65, 65, 65, 65, 65, 65, 65, 65, 65, 65, 65, 65, 65, 65, 65, 65, 65, 65, 65, 65, 65, 65, 65, 65, 65, 65, 65, 65, 65, 65, 65, 65, 65, 65, 65, 65, 65, 65, 65, 65, 65, 65, 65, 65, 65, 65, 65, 65, 65, 65, 65, 65, 65, 65, 65, 65]
  tokens := [Tok.lit 65, Tok.mtch 257 1]

def c5F7a : CompState where
  sink_present := true
  m_flags := 2147483748
  m_max_probes := 34
  m_greedy_parsing := false
  m_all_writes_succeeded := true
  m_adler32 := 0
  m_lookahead_pos := 258
  m_lookahead_size := 0
  m_dict_size := 258
  m_dict := (65 * ((2 ^ 2064 - 1) / (2 ^ 8 - 1)) * 2 ^ 0 + 65 * ((2 ^ 2056 - 1) / (2 ^ 8 - 1)) * 2 ^ 262144)
  m_next := 4047833370604835989168055607996563344419406473086434430611222646290325595176975714324906741163068347597697017554309807574319351567681508452260812738946308695424712692117194825179589531202775132239003304928486013427492005385891787577615235730310071738704616682476394571660166707008392203396259249033468979708089112049656283600529599010174627205547562649731410521157437092500041803308599921120760667801508649777234151650077974044113435409632699716003535231523062479829950761504147870799820333362090818427292450295240724785451867200520358196298431623847276445315602707427554556180340937825365516823299041594881118653453611832406887661366489120432807922355401741971454777028477856499989621107511054846225641243210669867312697322030927098786598660766465651791945847173769286118932684465152394761028844291207315049303495221639822549982467161344577938052087762456222464490137588626617644401436272592167401750247254454983052768581597825784906462670683843219230829076858580022734467545384074633386487720050759096811051636723524100456308248613733512869449795461441834324056983259251640102893192915088170772889837549960119139943340046639818321348511597157306201444024987110382772964836893798200806536907379141937951698134145349421958860701695
  m_hash := 2 ^ 65536 - 1 - 65280 * 2 ^ 21776
  lz_buf := 16662786
  lz_code_pos := 1
  lz_flags_pos := 0
  m_num_flags_left := 8
  out_buf := 49108214231206464754258514398766239884701646197162360
  out_pos := 22
  m_bits_in := 0
  m_bit_buffer := 0
  m_saved_match_dist := 0
  m_saved_match_len := 0
  m_saved_lit := 0
  m_huff_count := (1 * 2 ^ 1040 + 1 * 2 ^ 4096 + 1 * 2 ^ 4544 + 1 * 2 ^ 6144 + 2 * ((2 ^ 32 - 1) / (2 ^ 16 - 1)) * 2 ^ 12304 + 4 * 2 ^ 12576)
  m_huff_codes := (1 * 2 ^ 1040 + 3 * 2 ^ 4096 + 1 * 2 ^ 12304 + 3 * 2 ^ 12320)
  m_huff_code_sizes := 752684088202547545336940141978922295261227911542688465300810400304498340974861610797509304707294794007694597077687960816203399607576450892682873522610757568452348884660480718107921135844827739183227757489670766059199469213519901282885716815090184931025701427715034954656401365241692765374887031810640322987152679862150006667544008479170556876395830951294630127776410429847864208687559335431752008940935977313302141260468197706056720247044287800945629391003546944272970602733188827101085138031033275932888582118439201953002870279576727269642886149340131941081586881057329671873256764252967826053468880805762286156523735445475391458799793564566454522807001529739731804879225182176005890965532149804355487333681610807278357806901025493424292753511311594189012189987667036009217499014725136443572401306140126379361680295191868691527120208083461828280762863504236087067421482562700381982800239575804457332280006128385081437510119937827578223900478536109652635600079467782632503895514928395470757132161490960946153109101316134736644358169239793816978263077799631095193473998772399261425599128185753365468057517297924726708014548667290087442000275006868033173735479949075016333417409987331956839666300726625402954587851498547792119000536058139370105031898429317578634375347776670833866274529589408974686597820289017085993015315487439485789634611962901680410877200419087375459624318379245110400920620838276829552194651327025998227303049476242152574281922750987298162224153729665714937952413742344552462923413135147233613271840465292296520405007575213905235622358418664427748280183314326166919978223851061375716900850333229305803948736685128905064468697526919620497928389842729727566220753160471098367977520203378140121381724401178000467264340391974547625300739922592872413825624575583140412202421778674696192472844479054378241593919287538460068915827026812807375998272929536217601280099041206238969856
  sink_calls := 0
  sink_out := []
  fed := [65, 65, 65, 65, 65, 65, 65, 65, 65, 65, 65, 65, 65, 65, 65, 65, 65, 65, 65, 65, 65, 65, 65, 65, 65, 65, 65, 65, 65, 65, 65, 65, 65, 65, 65, 65, 65, 65, 65, 65, 65, 65, 65, 65, 65, 65, 65, 65, 65, 65, 65, 65, 65, 65, 65, 65, 65, 65, 65, 65, 65, 65, 65, 65, 65, 65, 65, 65, 65, 65, 65, 65, 65, 65, 65, 65, 65, 65, 65, 65, 65, 65, 65, 65, 65, 65, 65, 65, 65, 65, 65, 65, 65, 65, 65, 65, 65, 65, 65, 65, 65, 65, 65, 65, 65, 65, 65, 65, 65, 65, 65, 65, 65, 65, 65, 65, 65, 65, 65, 65, 65, 65, 65, 65, 65, 65, 65, 65, 65, 65, 65, 65, 65, 65, 65, 65, 65, 65, 65, 65, 65, 65, 65, 65, 65, 65, 65, 65, 65, 65, 65, 65, 65, 65, 65, 65, 65, 65, 65, 65, 65, 65, 65, 65, 65, 65, 65, 65, 65, 65, 65, 65, 65, 65, 65, 65, 65, 65, 65, 65, 65, 65, 65, 65, 65, 65, 65, 65, 65, 65, 65, 65, 65, 65, 65, 65, 65, 65, 65, 65, 65, 65, 65, 65, 65, 65, 65, 65, 65, 65, 65, 65, 65, 65, 65, 65, 65, 65, 65, 65, 65, 65, 65, 65, 65, 65, 65, 65, 65, 65, 65, 65, 65, 65, 65, 65, 65, 65, 65, 65, 65, 65, 65, 65, 65, 65, 65, 65, 65, 65, 65, 65, 65, 65, 65, 65, 65, 65]
  tokens := [Tok.lit 65, Tok.mtch 257 1]

def c5F8 : CompState where
  sink_present := true
  m_flags := 2147483748
  m_max_probes := 34
  m_greedy_parsing := false
  m_all_writes_succeeded := true
  m_adler32 := 0
  m_lookahead_pos := 258
  m_lookahead_size := 0
  m_dict_size := 258
  m_dict := (65 * ((2 ^ 2064 - 1) / (2 ^ 8 - 1)) * 2 ^ 0 + 65 * ((2 ^ 2056 - 1) / (2 ^ 8 - 1)) * 2 ^ 262144)
  m_next := 4047833370604835989168055607996563344419406473086434430611222646290325595176975714324906741163068347597697017554309807574319351567681508452260812738946308695424712692117194825179589531202775132239003304928486013427492005385891787577615235730310071738704616682476394571660166707008392203396259249033468979708089112049656283600529599010174627205547562649731410521157437092500041803308599921120760667801508649777234151650077974044113435409632699716003535231523062479829950761504147870799820333362090818427292450295240724785451867200520358196298431623847276445315602707427554556180340937825365516823299041594881118653453611832406887661366489120432807922355401741971454777028477856499989621107511054846225641243210669867312697322030927098786598660766465651791945847173769286118932684465152394761028844291207315049303495221639822549982467161344577938052087762456222464490137588626617644401436272592167401750247254454983052768581597825784906462670683843219230829076858580022734467545384074633386487720050759096811051636723524100456308248613733512869449795461441834324056983259251640102893192915088170772889837549960119139943340046639818321348511597157306201444024987110382772964836893798200806536907379141937951698134145349421958860701695
  m_hash := 2 ^ 65536 - 1 - 65280 * 2 ^ 21776
  lz_buf := 16662786
  lz_code_pos := 1
  lz_flags_pos := 0
  m_num_flags_left := 8
  out_buf := 49108214231206464754258514398766239884701646197162360
  out_pos := 0
  m_bits_in := 0
  m_bit_buffer := 0
  m_saved_match_dist := 0
  m_saved_match_len := 0
  m_saved_lit := 0
  m_huff_count := (1 * 2 ^ 1040 + 1 * 2 ^ 4096 + 1 * 2 ^ 4544 + 1 * 2 ^ 6144 + 2 * ((2 ^ 32 - 1) / (2 ^ 16 - 1)) * 2 ^ 12304 + 4 * 2 ^ 12576)
  m_huff_codes := (1 * 2 ^ 1040 + 3 * 2 ^ 4096 + 1 * 2 ^ 12304 + 3 * 2 ^ 12320)
  m_huff_code_sizes := 752684088202547545336940141978922295261227911542688465300810400304498340974861610797509304707294794007694597077687960816203399607576450892682873522610757568452348884660480718107921135844827739183227757489670766059199469213519901282885716815090184931025701427715034954656401365241692765374887031810640322987152679862150006667544008479170556876395830951294630127776410429847864208687559335431752008940935977313302141260468197706056720247044287800945629391003546944272970602733188827101085138031033275932888582118439201953002870279576727269642886149340131941081586881057329671873256764252967826053468880805762286156523735445475391458799793564566454522807001529739731804879225182176005890965532149804355487333681610807278357806901025493424292753511311594189012189987667036009217499014725136443572401306140126379361680295191868691527120208083461828280762863504236087067421482562700381982800239575804457332280006128385081437510119937827578223900478536109652635600079467782632503895514928395470757132161490960946153109101316134736644358169239793816978263077799631095193473998772399261425599128185753365468057517297924726708014548667290087442000275006868033173735479949075016333417409987331956839666300726625402954587851498547792119000536058139370105031898429317578634375347776670833866274529589408974686597820289017085993015315487439485789634611962901680410877200419087375459624318379245110400920620838276829552194651327025998227303049476242152574281922750987298162224153729665714937952413742344552462923413135147233613271840465292296520405007575213905235622358418664427748280183314326166919978223851061375716900850333229305803948736685128905064468697526919620497928389842729727566220753160471098367977520203378140121381724401178000467264340391974547625300739922592872413825624575583140412202421778674696192472844479054378241593919287538460068915827026812807375998272929536217601280099041206238969856
  sink_calls := 1
  sink_out := [[120, 1, 229, 192, 129, 0, 0, 0, 0, 128, 32, 182, 253, 165, 6, 169, 120, 3, 38, 52, 65, 131]]
  fed := [65, 65, 65, 65, 65, 65, 65, 65, 65, 65, 65, 65, 65, 65, 65, 65, 65, 65, 65, 65, 65, 65, 65, 65, 65, 65, 65, 65, 65, 65, 65, 65, 65, 65, 65, 65, 65, 65, 65, 65, 65, 65, 65, 65, 65, 65, 65, 65, 65, 65, 65, 65, 65, 65, 65, 65, 65, 65, 65, 65, 65, 65, 65, 65, 65, 65, 65, 65, 65, 65, 65, 65, 65, 65, 65, 65, 65, 65, 65, 65, 65, 65, 65, 65, 65, 65, 65, 65, 65, 65, 65, 65, 65, 65, 65, 65, 65, 65, 65, 65, 65, 65, 65, 65, 65, 65, 65, 65, 65, 65, 65, 65, 65, 65, 65, 65, 65, 65, 65, 65, 65, 65, 65, 65, 65, 65, 65, 65, 65, 65, 65, 65, 65, 65, 65, 65, 65, 65, 65, 65, 65, 65, 65, 65, 65, 65, 65, 65, 65, 65, 65, 65, 65, 65, 65, 65, 65, 65, 65, 65, 65, 65, 65, 65, 65, 65, 65, 65, 65, 65, 65, 65, 65, 65, 65, 65, 65, 65, 65, 65, 65, 65, 65, 65, 65, 65, 65, 65, 65, 65, 65, 65, 65, 65, 65, 65, 65, 65, 65, 65, 65, 65, 65, 65, 65, 65, 65, 65, 65, 65, 65, 65, 65, 65, 65, 65, 65, 65, 65, 65, 65, 65, 65, 65, 65, 65, 65, 65, 65, 65, 65, 65, 65, 65, 65, 65, 65, 65, 65, 65, 65, 65, 65, 65, 65, 65, 65, 65, 65, 65, 65, 65, 65, 65, 65, 65, 65, 65]
  tokens := [Tok.lit 65, Tok.mtch 257 1]

def c5F9 : CompState where
  sink_present := false
  m_flags := 2147483748
  m_max_probes := 34
  m_greedy_parsing := false
  m_all_writes_succeeded := true
  m_adler32 := 0
  m_lookahead_pos := 258
  m_lookahead_size := 0
  m_dict_size := 258
  m_dict := (65 * ((2 ^ 2064 - 1) / (2 ^ 8 - 1)) * 2 ^ 0 + 65 * ((2 ^ 2056 - 1) / (2 ^ 8 - 1)) * 2 ^ 262144)
  m_next := 4047833370604835989168055607996563344419406473086434430611222646290325595176975714324906741163068347597697017554309807574319351567681508452260812738946308695424712692117194825179589531202775132239003304928486013427492005385891787577615235730310071738704616682476394571660166707008392203396259249033468979708089112049656283600529599010174627205547562649731410521157437092500041803308599921120760667801508649777234151650077974044113435409632699716003535231523062479829950761504147870799820333362090818427292450295240724785451867200520358196298431623847276445315602707427554556180340937825365516823299041594881118653453611832406887661366489120432807922355401741971454777028477856499989621107511054846225641243210669867312697322030927098786598660766465651791945847173769286118932684465152394761028844291207315049303495221639822549982467161344577938052087762456222464490137588626617644401436272592167401750247254454983052768581597825784906462670683843219230829076858580022734467545384074633386487720050759096811051636723524100456308248613733512869449795461441834324056983259251640102893192915088170772889837549960119139943340046639818321348511597157306201444024987110382772964836893798200806536907379141937951698134145349421958860701695
  m_hash := 2 ^ 65536 - 1 - 65280 * 2 ^ 21776
  lz_buf := 16662786
  lz_code_pos := 1
  lz_flags_pos := 0
  m_num_flags_left := 8
  out_buf := 49108214231206464754258514398766239884701646197162360
  out_pos := 0
  m_bits_in := 0
  m_bit_buffer := 0
  m_saved_match_dist := 0
  m_saved_match_len := 0
  m_saved_lit := 0
  m_huff_count := (1 * 2 ^ 1040 + 1 * 2 ^ 4096 + 1 * 2 ^ 4544 + 1 * 2 ^ 6144 + 2 * ((2 ^ 32 - 1) / (2 ^ 16 - 1)) * 2 ^ 12304 + 4 * 2 ^ 12576)
  m_huff_codes := (1 * 2 ^ 1040 + 3 * 2 ^ 4096 + 1 * 2 ^ 12304 + 3 * 2 ^ 12320)
  m_huff_code_sizes := 752684088202547545336940141978922295261227911542688465300810400304498340974861610797509304707294794007694597077687960816203399607576450892682873522610757568452348884660480718107921135844827739183227757489670766059199469213519901282885716815090184931025701427715034954656401365241692765374887031810640322987152679862150006667544008479170556876395830951294630127776410429847864208687559335431752008940935977313302141260468197706056720247044287800945629391003546944272970602733188827101085138031033275932888582118439201953002870279576727269642886149340131941081586881057329671873256764252967826053468880805762286156523735445475391458799793564566454522807001529739731804879225182176005890965532149804355487333681610807278357806901025493424292753511311594189012189987667036009217499014725136443572401306140126379361680295191868691527120208083461828280762863504236087067421482562700381982800239575804457332280006128385081437510119937827578223900478536109652635600079467782632503895514928395470757132161490960946153109101316134736644358169239793816978263077799631095193473998772399261425599128185753365468057517297924726708014548667290087442000275006868033173735479949075016333417409987331956839666300726625402954587851498547792119000536058139370105031898429317578634375347776670833866274529589408974686597820289017085993015315487439485789634611962901680410877200419087375459624318379245110400920620838276829552194651327025998227303049476242152574281922750987298162224153729665714937952413742344552462923413135147233613271840465292296520405007575213905235622358418664427748280183314326166919978223851061375716900850333229305803948736685128905064468697526919620497928389842729727566220753160471098367977520203378140121381724401178000467264340391974547625300739922592872413825624575583140412202421778674696192472844479054378241593919287538460068915827026812807375998272929536217601280099041206238969856
  sink_calls := 1
  sink_out := [[120, 1, 229, 192, 129, 0, 0, 0, 0, 128, 32, 182, 253, 165, 6, 169, 120, 3, 38, 52, 65, 131]]
  fed := [65, 65, 65, 65, 65, 65, 65, 65, 65, 65, 65, 65, 65, 65, 65, 65, 65, 65, 65, 65, 65, 65, 65, 65, 65, 65, 65, 65, 65, 65, 65, 65, 65, 65, 65, 65, 65, 65, 65, 65, 65, 65, 65, 65, 65, 65, 65, 65, 65, 65, 65, 65, 65, 65, 65, 65, 65, 65, 65, 65, 65, 65, 65, 65, 65, 65, 65, 65, 65, 65, 65, 65, 65, 65, 65, 65, 65, 65, 65, 65, 65, 65, 65, 65, 65, 65, 65, 65, 65, 65, 65, 65, 65, 65, 65, 65, 65, 65, 65, 65, 65, 65, 65, 65, 65, 65, 65, 65, 65, 65, 65, 65, 65, 65, 65, 65, 65, 65, 65, 65, 65, 65, 65, 65, 65, 65, 65, 65, 65, 65, 65, 65, 65, 65, 65, 65, 65, 65, 65, 65, 65, 65, 65, 65, 65, 65, 65, 65, 65, 65, 65, 65, 65, 65, 65, 65, 65, 65, 65, 65, 65, 65, 65, 65, 65, 65, 65, 65, 65, 65, 65, 65, 65, 65, 65, 65, 65, 65, 65, 65, 65, 65, 65, 65, 65, 65, 65, 65, 65, 65, 65, 65, 65, 65, 65, 65, 65, 65, 65, 65, 65, 65, 65, 65, 65, 65, 65, 65, 65, 65, 65, 65, 65, 65, 65, 65, 65, 65, 65, 65, 65, 65, 65, 65, 65, 65, 65, 65, 65, 65, 65, 65, 65, 65, 65, 65, 65, 65, 65, 65, 65, 65, 65, 65, 65, 65, 65, 65, 65, 65, 65, 65, 65, 65, 65, 65, 65, 65]
  tokens := [Tok.lit 65, Tok.mtch 257 1]

def c5Cnt0 : Nat := 33751521821438561184911174488682640477482452690613543789987115108466500378467413241650309823759915214613546295086352135117206072620702805213786429827261190495295209725036214861444552245271001884442331336463841183659029156587178439044751051570054376203776342097110897640119327918012337424313355919359639652567871781286769270711026709157352924348777515574512579207430124960745017713811475633560361746240231372186987633281890003975124517410436232751786053258030904248989784343373580021188166681958833263750103182633244153516595521508818566115324063190091972423368494842153843595990497255213829768818713885259569227418368336242886606767605174829810982150528565967118131721850837888513762657604478369609843015552880947295515799110905227572789967619536652846841752356187553525037542835471679610927616179253402222958518688936759474891488524612498164626187280657565284841749346883733821213648855303631450963165708015076605521977593885175850031272413726537711615500082361797354545610805961054776264272564694019183582670918469749326672147001251270391588519732485504212607022322789378062652832218252116768074969332637829087270046551510524074656846286201510436458987520714549283287289005695885831305972424128512088425875519676438597700997912498439011308207034294747153666791052461076040313195837304269197999861282058594309268733406145019589400563587595326829655724011259687632676757224377521053109604735883045873344618911844994989269287823117041637722902168713308785785379235805811290995264911653917176942206455852720805521609295780520836024707594143283401297689411573737325933425620797567710165485750685335734627791063793984291605357197107129849265376270094633204307645781427012377913318329730569297051387451665734273076381699149231032591009934410162081380253152467182065227001502898694065764749789831298455507496287539117107400848297853199509026535362416082944

def c5SizesA : List Nat := [0, 0, 0, 0, 0, 0, 0, 0, 0, 0, 0, 0, 0, 0, 0, 0, 0, 0, 0, 0, 0, 0, 0, 0, 0, 0, 0, 0, 0, 0, 0, 0, 0, 0, 0, 0, 0, 0, 0, 0, 0, 0, 0, 0, 0, 0, 0, 0, 0, 0, 0, 0, 0, 0, 0, 0, 0, 0, 0, 0, 0, 0, 0, 0, 0, 2, 0, 0, 0, 0, 0, 0, 0, 0, 0, 0, 0, 0, 0, 0, 0, 0, 0, 0, 0, 0, 0, 0, 0, 0, 0, 0, 0, 0, 0, 0, 0, 0, 0, 0, 0, 0, 0, 0, 0, 0, 0, 0, 0, 0, 0, 0, 0, 0, 0, 0, 0, 0, 0, 0, 0, 0, 0, 0, 0, 0, 0, 0, 0, 0, 0, 0, 0, 0, 0, 0, 0, 0, 0, 0, 0, 0, 0]

def c5SizesB : List Nat := [0, 0, 0, 0, 0, 0, 0, 0, 0, 0, 0, 0, 0, 0, 0, 0, 0, 0, 0, 0, 0, 0, 0, 0, 0, 0, 0, 0, 0, 0, 0, 0, 0, 0, 0, 0, 0, 0, 0, 0, 0, 0, 0, 0, 0, 0, 0, 0, 0, 0, 0, 0, 0, 0, 0, 0, 0, 0, 0, 0, 0, 0, 0, 0, 0, 0, 0, 0, 0, 0, 0, 0, 0, 0, 0, 0, 0, 0, 0, 0, 0, 0, 0, 0, 0, 0, 0, 0, 0, 0, 0, 0, 0, 0, 0, 0, 0, 0, 0, 0, 0, 0, 0, 0, 0, 0, 0, 0, 0, 0, 0, 0, 0, 2, 0, 0, 0, 0, 0, 0, 0, 0, 0, 0, 0, 0, 0, 0, 0, 0, 0, 0, 0, 0, 0, 0, 0, 0, 0, 0, 0, 1, 1]

def c5P1 : RleState × Nat := (⟨(1 * 2 ^ 1040 + 1 * 2 ^ 4096 + 1 * 2 ^ 4544 + 1 * 2 ^ 6144 + 1 * 2 ^ 12320 + 1 * 2 ^ 12576), [18, 54, 2], 77, 0⟩, 0)

def c5P2 : RleState × Nat := (⟨(1 * 2 ^ 1040 + 1 * 2 ^ 4096 + 1 * 2 ^ 4544 + 1 * 2 ^ 6144 + 1 * 2 ^ 12304 + 2 * 2 ^ 12320 + 4 * 2 ^ 12576), [18, 54, 2, 18, 127, 18, 41, 2, 18, 16, 1], 0, 1⟩, 1)

/-! Pipeline snapshots of the null-data-pointer call with nonzero length
(claim C9): a fresh zlib session's terminal call whose `pData` is NULL
but `data_len` is 1, with 0x41 as the byte the undefined read happens to
produce.  `c9A` after the Adler update, `c9B` after the parse loop,
`c9F3`–`c9F9` through the final flush. -/

def c9A : CompState where
  sink_present := true
  m_flags := 2147483748
  m_max_probes := 34
  m_greedy_parsing := false
  m_all_writes_succeeded := true
  m_adler32 := 4325442
  m_lookahead_pos := 0
  m_lookahead_size := 0
  m_dict_size := 0
  m_dict := 0
  m_next := 0
  m_hash := 2 ^ 65536 - 1
  lz_buf := 0
  lz_code_pos := 1
  lz_flags_pos := 0
  m_num_flags_left := 8
  out_buf := 376
  out_pos := 2
  m_bits_in := 0
  m_bit_buffer := 0
  m_saved_match_dist := 0
  m_saved_match_len := 0
  m_saved_lit := 0
  m_huff_count := 0
  m_huff_codes := 0
  m_huff_code_sizes := 0
  sink_calls := 0
  sink_out := []
  fed := []
  tokens := []

def c9B : CompState where
  sink_present := true
  m_flags := 2147483748
  m_max_probes := 34
  m_greedy_parsing := false
  m_all_writes_succeeded := true
  m_adler32 := 4325442
  m_lookahead_pos := 1
  m_lookahead_size := 0
  m_dict_size := 1
  m_dict := (65 * 2 ^ 0 + 65 * 2 ^ 262144)
  m_next := 0
  m_hash := 2 ^ 65536 - 1
  lz_buf := 16640
  lz_code_pos := 2
  lz_flags_pos := 0
  m_num_flags_left := 7
  out_buf := 376
  out_pos := 2
  m_bits_in := 0
  m_bit_buffer := 0
  m_saved_match_dist := 0
  m_saved_match_len := 0
  m_saved_lit := 0
  m_huff_count := 0
  m_huff_codes := 0
  m_huff_code_sizes := 0
  sink_calls := 0
  sink_out := []
  fed := [65]
  tokens := [Tok.lit 65]

def c9F3 : CompState where
  sink_present := true
  m_flags := 2147483748
  m_max_probes := 34
  m_greedy_parsing := false
  m_all_writes_succeeded := true
  m_adler32 := 4325442
  m_lookahead_pos := 1
  m_lookahead_size := 0
  m_dict_size := 1
  m_dict := (65 * 2 ^ 0 + 65 * 2 ^ 262144)
  m_next := 0
  m_hash := 2 ^ 65536 - 1
  lz_buf := 16640
  lz_code_pos := 2
  lz_flags_pos := 0
  m_num_flags_left := 7
  out_buf := 376
  out_pos := 2
  m_bits_in := 0
  m_bit_buffer := 0
  m_saved_match_dist := 0
  m_saved_match_len := 0
  m_saved_lit := 0
  m_huff_count := 1044388881413152506691752710716624382579964249047383780384233483283953907971557456848826811934997558340890106714439262837987573438185793607263236087851365277945956976543709998340361590134383718314428070011855946226376318839397712745672334684344586617496807908705803704071284048740118609114467977783598029006686938976881787785946905630190260940599579453432823469303026696443059025015972399867714215541693835559885291486318237914434496734087811872639496475100189041349008417061675093668333850551032972088269550769983616369411933015213796825837188091833656751221318492846368125550225998300412344784862595674492194617023806505913245610825731835380087608622102834270197698202313169017678006675195485079921636419370285375124784014907159135459982790513399611551794271106831134090584272884279791554849782954323534517065223269061394905987693002122963395687782878948440616007412945674919823050571642377154816321380631045902916136938489704585074403980794746400136418257711997779463553414971309794843968110791085744682901219668755939930306112301724754520691997096589829618262995587685461128040916980948986883994359174661412409290889174152365919923916020766098773486177370914817121004464012284716558773056103491562240123843933717126593556210778112
  m_huff_codes := 0
  m_huff_code_sizes := 0
  sink_calls := 0
  sink_out := []
  fed := [65]
  tokens := [Tok.lit 65]

def c9F4 : CompState where
  sink_present := true
  m_flags := 2147483748
  m_max_probes := 34
  m_greedy_parsing := false
  m_all_writes_succeeded := true
  m_adler32 := 4325442
  m_lookahead_pos := 1
  m_lookahead_size := 0
  m_dict_size := 1
  m_dict := (65 * 2 ^ 0 + 65 * 2 ^ 262144)
  m_next := 0
  m_hash := 2 ^ 65536 - 1
  lz_buf := 16640
  lz_code_pos := 2
  lz_flags_pos := 0
  m_num_flags_left := 7
  out_buf := 376
  out_pos := 2
  m_bits_in := 0
  m_bit_buffer := 0
  m_saved_match_dist := 0
  m_saved_match_len := 0
  m_saved_lit := 0
  m_huff_count := 1044388881413152506691752710716624382579964249047383780384233483283953907971557456848826811934997558340890106714439262837987573438185793607263236087851365277945956976543709998340361590134383718314428070011855946226376318839397712745672334684344586617496807908705803704071284048740118609114467977783598029006686938976881787785946905630190260940599579453432823469303026696443059025015972399867714215541693835559885291486318237914434496734087811872639496475100189041349008417061675093668333850551032972088269550769983616369411933015213796825837188091833656751221318492846368125550225998300412344784862595674492194617023806505913245610825731835380087608622102834270197698202313169017678006675195485079921636419370285375124784014907159135459982790513399611551794271106831134090584272884279791554849782954323534517065223269061394905987693002122963395687782878948440616007412945674919823050571642377154816321380631045902916136938489704585074403980794746400136418257711997779463553414971309794843968110791085744682901219668755939930306112301724754520691997096589829618262995587685461128040916980948986883994359174661412409290889174152365919923916020766098773486177370914817121004464012284716558773056103491562240123843933717126593556210778112
  m_huff_codes := 1044388881413152506691752710716624382579964249047383780384233483283953907971557456848826811934997558340890106714439262837987573438185793607263236087851365277945956976543709998340361590134383718314428070011855946226376318839397712745672334684344586617496807908705803704071284048740118609114467977783598029006686938976881787785946905630190260940599579453432823469303026696443059025015972399867714215541693835559885291486318237914434496734087811872639496475100189041349008417061675093668333850551032972088269550769983616369411933015213796825837188091833656751221318492846368125550225998300412344784862595674492194617023806505913245610825731835380087608622102834270197698202313169017678006675195485079921636419370285375124784014907159135459982790513399611551794271106831134090584272884279791554849782954323534517065223269061394905987693002122963395687782878948440616007412945674919823050571642377154816321380631045902916136926708342856440730447899971901781465763473223850267253059899795996090799469201774624817718449867455659250178329070473119433165550807568221846571746373296884912819520317457002440926616910874148385078411929804522981857338977648103126085903001302413467189726673216491511131602920781738033436090243804708340403154190336
  m_huff_code_sizes := 32317006071311007300714876688669951960444102669715484032130345427524655138867890893197201411522913463688717960921898019494119559150490921095088152386448283120630877367300996091750197750389652106796057638384067568276792218642619756161838094338476170470581645852036305042887575891541065808607552399123930385521914333389668342420684974786564569494856176035326322058077805659331026192708460314150258592864177116725943603718461857357598351152301645904403697613233290663625955750015677700675556642423539958187328614233361395166775590039944697466241586446209768062821090783588925345074337039598952006515462140625205153759232
  sink_calls := 0
  sink_out := []
  fed := [65]
  tokens := [Tok.lit 65]

def c9F4r : CompState where
  sink_present := true
  m_flags := 2147483748
  m_max_probes := 34
  m_greedy_parsing := false
  m_all_writes_succeeded := true
  m_adler32 := 4325442
  m_lookahead_pos := 1
  m_lookahead_size := 0
  m_dict_size := 1
  m_dict := (65 * 2 ^ 0 + 65 * 2 ^ 262144)
  m_next := 0
  m_hash := 2 ^ 65536 - 1
  lz_buf := 16640
  lz_code_pos := 2
  lz_flags_pos := 0
  m_num_flags_left := 7
  out_buf := 376
  out_pos := 2
  m_bits_in := 0
  m_bit_buffer := 0
  m_saved_match_dist := 0
  m_saved_match_len := 0
  m_saved_lit := 0
  m_huff_count := (1 * 2 ^ 1040 + 1 * 2 ^ 4096 + 1 * 2 ^ 12288 + 2 * 2 ^ 12304 + 3 * 2 ^ 12576)
  m_huff_codes := 1044388881413152506691752710716624382579964249047383780384233483283953907971557456848826811934997558340890106714439262837987573438185793607263236087851365277945956976543709998340361590134383718314428070011855946226376318839397712745672334684344586617496807908705803704071284048740118609114467977783598029006686938976881787785946905630190260940599579453432823469303026696443059025015972399867714215541693835559885291486318237914434496734087811872639496475100189041349008417061675093668333850551032972088269550769983616369411933015213796825837188091833656751221318492846368125550225998300412344784862595674492194617023806505913245610825731835380087608622102834270197698202313169017678006675195485079921636419370285375124784014907159135459982790513399611551794271106831134090584272884279791554849782954323534517065223269061394905987693002122963395687782878948440616007412945674919823050571642377154816321380631045902916136926708342856440730447899971901781465763473223850267253059899795996090799469201774624817718449867455659250178329070473119433165550807568221846571746373296884912819520317457002440926616910874148385078411929804522981857338977648103126085903001302413467189726673216491511131602920781738033436090243804708340403154190336
  m_huff_code_sizes := 32317006071311007300714876688669951960444102669715484032130345427524655138867890893197201411522913463688717960921898019494119559150490921095088152386448283120630877367300996091750197750389652106796057638384067568276792218642619756161838094338476170470581645852036305042887575891541065808607552399123930385521914333389668342420684974786564569494856176035326322058077805659331026192708460314150258592864177116725943603718461857357598351152301645904403697613233290663625955750015677700675556642423539958187328614233361395166775590039944697466241586446209768062821090783588925345074337039598952006515462140625205153759232
  sink_calls := 0
  sink_out := []
  fed := [65]
  tokens := [Tok.lit 65]

def c9F5 : CompState where
  sink_present := true
  m_flags := 2147483748
  m_max_probes := 34
  m_greedy_parsing := false
  m_all_writes_succeeded := true
  m_adler32 := 4325442
  m_lookahead_pos := 1
  m_lookahead_size := 0
  m_dict_size := 1
  m_dict := (65 * 2 ^ 0 + 65 * 2 ^ 262144)
  m_next := 0
  m_hash := 2 ^ 65536 - 1
  lz_buf := 16640
  lz_code_pos := 2
  lz_flags_pos := 0
  m_num_flags_left := 7
  out_buf := 376
  out_pos := 2
  m_bits_in := 0
  m_bit_buffer := 0
  m_saved_match_dist := 0
  m_saved_match_len := 0
  m_saved_lit := 0
  m_huff_count := (1 * 2 ^ 1040 + 1 * 2 ^ 4096 + 1 * 2 ^ 12288 + 2 * 2 ^ 12304 + 3 * 2 ^ 12576)
  m_huff_codes := (1 * 2 ^ 4096 + 1 * 2 ^ 12288 + 3 * 2 ^ 12304)
  m_huff_code_sizes := 752684088202547545336940141978922295256804099577552513086304092664266707287477985723350587522741182830427892873082236962620293498976238805503476009713789394102536684722085201428550148487368614945009414351010269377309931750732231065891860446819869267083512476161153476650805844912405738285858066651971997633462239551936129601339256918820088907133759996921373279464316159078609960893165066465400645184218110834697291788718927594765963632964580674993080921909289621451951032236202950074308540030503165312973491084553226819725232808704904997502326247669922580005537656357334001578462255502088687286328926848746193231398296005260949550096928010685742119185702819730684948959925157819826472304294256606561523416424786738656304564245748628722255097874225121612116508270378386145271856536429052500162597362314161602191141305798926183927599961803261898830654012821464881601318574510349901108160782106359483398166442564956691784429261894730423342340292315512179308597288551604116348106785065515119551105802401261376385677016605524115004383280679361516445797078414434141039778733333548665438534010871310622087325688204686879484247028754913415312261262704423631211200583014510837663270123993178041877603724879460429568170711092604421366980968853774575451783450283304553338062849460313040941211073494972560031453388373404640883262594994511989923703844325368708179552355775206757398679304924308585452099919144175311375757939572157357236172597139646883180829400260790130255627028307154583601193425663179612021486962129582924807102947520332301306987847232444942054417190921768800516279684694300754206410809420467451098947633424003443509097987251895877995311571045238440034572699236199680663074228595802849956010379814875453000298927946688102981652046755213446737327120670413076167224485841358299402719487598562363668872510249671377278472842589201799538851314068261000392770321923726574956809086576168232026112
  sink_calls := 0
  sink_out := []
  fed := [65]
  tokens := [Tok.lit 65]

def c9F5h : CompState where
  sink_present := true
  m_flags := 2147483748
  m_max_probes := 34
  m_greedy_parsing := false
  m_all_writes_succeeded := true
  m_adler32 := 4325442
  m_lookahead_pos := 1
  m_lookahead_size := 0
  m_dict_size := 1
  m_dict := (65 * 2 ^ 0 + 65 * 2 ^ 262144)
  m_next := 0
  m_hash := 2 ^ 65536 - 1
  lz_buf := 16640
  lz_code_pos := 2
  lz_flags_pos := 0
  m_num_flags_left := 7
  out_buf := 9353365356920
  out_pos := 10
  m_bits_in := 7
  m_bit_buffer := 32
  m_saved_match_dist := 0
  m_saved_match_len := 0
  m_saved_lit := 0
  m_huff_count := (1 * 2 ^ 1040 + 1 * 2 ^ 4096 + 1 * 2 ^ 12288 + 2 * 2 ^ 12304 + 3 * 2 ^ 12576)
  m_huff_codes := (1 * 2 ^ 4096 + 1 * 2 ^ 12288 + 3 * 2 ^ 12304)
  m_huff_code_sizes := 752684088202547545336940141978922295256804099577552513086304092664266707287477985723350587522741182830427892873082236962620293498976238805503476009713789394102536684722085201428550148487368614945009414351010269377309931750732231065891860446819869267083512476161153476650805844912405738285858066651971997633462239551936129601339256918820088907133759996921373279464316159078609960893165066465400645184218110834697291788718927594765963632964580674993080921909289621451951032236202950074308540030503165312973491084553226819725232808704904997502326247669922580005537656357334001578462255502088687286328926848746193231398296005260949550096928010685742119185702819730684948959925157819826472304294256606561523416424786738656304564245748628722255097874225121612116508270378386145271856536429052500162597362314161602191141305798926183927599961803261898830654012821464881601318574510349901108160782106359483398166442564956691784429261894730423342340292315512179308597288551604116348106785065515119551105802401261376385677016605524115004383280679361516445797078414434141039778733333548665438534010871310622087325688204686879484247028754913415312261262704423631211200583014510837663270123993178041877603724879460429568170711092604421366980968853774575451783450283304553338062849460313040941211073494972560031453388373404640883262594994511989923703844325368708179552355775206757398679304924308585452099919144175311375757939572157357236172597139646883180829400260790130255627028307154583601193425663179612021486962129582924807102947520332301306987847232444942054417190921768800516279684694300754206410809420467451098947633424003443509097987251895877995311571045238440034572699236199680663074228595802849956010379814875453000298927946688102981652046755213446737327120670413076167224485841358299402719487598562363668872510249671377278472842589201799538851314068261000392770321923726574956809086576168232026112
  sink_calls := 0
  sink_out := []
  fed := [65]
  tokens := [Tok.lit 65]

def c9F6 : CompState where
  sink_present := true
  m_flags := 2147483748
  m_max_probes := 34
  m_greedy_parsing := false
  m_all_writes_succeeded := true
  m_adler32 := 4325442
  m_lookahead_pos := 1
  m_lookahead_size := 0
  m_dict_size := 1
  m_dict := (65 * 2 ^ 0 + 65 * 2 ^ 262144)
  m_next := 0
  m_hash := 2 ^ 65536 - 1
  lz_buf := 16640
  lz_code_pos := 2
  lz_flags_pos := 0
  m_num_flags_left := 7
  out_buf := 3366698674676048209842457947734392
  out_pos := 14
  m_bits_in := 5
  m_bit_buffer := 14
  m_saved_match_dist := 0
  m_saved_match_len := 0
  m_saved_lit := 0
  m_huff_count := (1 * 2 ^ 1040 + 1 * 2 ^ 4096 + 1 * 2 ^ 12288 + 2 * 2 ^ 12304 + 3 * 2 ^ 12576)
  m_huff_codes := (1 * 2 ^ 4096 + 1 * 2 ^ 12288 + 3 * 2 ^ 12304)
  m_huff_code_sizes := 752684088202547545336940141978922295256804099577552513086304092664266707287477985723350587522741182830427892873082236962620293498976238805503476009713789394102536684722085201428550148487368614945009414351010269377309931750732231065891860446819869267083512476161153476650805844912405738285858066651971997633462239551936129601339256918820088907133759996921373279464316159078609960893165066465400645184218110834697291788718927594765963632964580674993080921909289621451951032236202950074308540030503165312973491084553226819725232808704904997502326247669922580005537656357334001578462255502088687286328926848746193231398296005260949550096928010685742119185702819730684948959925157819826472304294256606561523416424786738656304564245748628722255097874225121612116508270378386145271856536429052500162597362314161602191141305798926183927599961803261898830654012821464881601318574510349901108160782106359483398166442564956691784429261894730423342340292315512179308597288551604116348106785065515119551105802401261376385677016605524115004383280679361516445797078414434141039778733333548665438534010871310622087325688204686879484247028754913415312261262704423631211200583014510837663270123993178041877603724879460429568170711092604421366980968853774575451783450283304553338062849460313040941211073494972560031453388373404640883262594994511989923703844325368708179552355775206757398679304924308585452099919144175311375757939572157357236172597139646883180829400260790130255627028307154583601193425663179612021486962129582924807102947520332301306987847232444942054417190921768800516279684694300754206410809420467451098947633424003443509097987251895877995311571045238440034572699236199680663074228595802849956010379814875453000298927946688102981652046755213446737327120670413076167224485841358299402719487598562363668872510249671377278472842589201799538851314068261000392770321923726574956809086576168232026112
  sink_calls := 0
  sink_out := []
  fed := [65]
  tokens := [Tok.lit 65]

def c9F7 : CompState where
  sink_present := true
  m_flags := 2147483748
  m_max_probes := 34
  m_greedy_parsing := false
  m_all_writes_succeeded := true
  m_adler32 := 4325442
  m_lookahead_pos := 1
  m_lookahead_size := 0
  m_dict_size := 1
  m_dict := (65 * 2 ^ 0 + 65 * 2 ^ 262144)
  m_next := 0
  m_hash := 2 ^ 65536 - 1
  lz_buf := 16640
  lz_code_pos := 1
  lz_flags_pos := 0
  m_num_flags_left := 8
  out_buf := 408365853640392603235221171626901880
  out_pos := 15
  m_bits_in := 0
  m_bit_buffer := 0
  m_saved_match_dist := 0
  m_saved_match_len := 0
  m_saved_lit := 0
  m_huff_count := (1 * 2 ^ 1040 + 1 * 2 ^ 4096 + 1 * 2 ^ 12288 + 2 * 2 ^ 12304 + 3 * 2 ^ 12576)
  m_huff_codes := (1 * 2 ^ 4096 + 1 * 2 ^ 12288 + 3 * 2 ^ 12304)
  m_huff_code_sizes := 752684088202547545336940141978922295256804099577552513086304092664266707287477985723350587522741182830427892873082236962620293498976238805503476009713789394102536684722085201428550148487368614945009414351010269377309931750732231065891860446819869267083512476161153476650805844912405738285858066651971997633462239551936129601339256918820088907133759996921373279464316159078609960893165066465400645184218110834697291788718927594765963632964580674993080921909289621451951032236202950074308540030503165312973491084553226819725232808704904997502326247669922580005537656357334001578462255502088687286328926848746193231398296005260949550096928010685742119185702819730684948959925157819826472304294256606561523416424786738656304564245748628722255097874225121612116508270378386145271856536429052500162597362314161602191141305798926183927599961803261898830654012821464881601318574510349901108160782106359483398166442564956691784429261894730423342340292315512179308597288551604116348106785065515119551105802401261376385677016605524115004383280679361516445797078414434141039778733333548665438534010871310622087325688204686879484247028754913415312261262704423631211200583014510837663270123993178041877603724879460429568170711092604421366980968853774575451783450283304553338062849460313040941211073494972560031453388373404640883262594994511989923703844325368708179552355775206757398679304924308585452099919144175311375757939572157357236172597139646883180829400260790130255627028307154583601193425663179612021486962129582924807102947520332301306987847232444942054417190921768800516279684694300754206410809420467451098947633424003443509097987251895877995311571045238440034572699236199680663074228595802849956010379814875453000298927946688102981652046755213446737327120670413076167224485841358299402719487598562363668872510249671377278472842589201799538851314068261000392770321923726574956809086576168232026112
  sink_calls := 0
  sink_out := []
  fed := [65]
  tokens := [Tok.lit 65]

def c9F7a : CompState where
  sink_present := true
  m_flags := 2147483748
  m_max_probes := 34
  m_greedy_parsing := false
  m_all_writes_succeeded := true
  m_adler32 := 0
  m_lookahead_pos := 1
  m_lookahead_size := 0
  m_dict_size := 1
  m_dict := (65 * 2 ^ 0 + 65 * 2 ^ 262144)
  m_next := 0
  m_hash := 2 ^ 65536 - 1
  lz_buf := 16640
  lz_code_pos := 1
  lz_flags_pos := 0
  m_num_flags_left := 8
  out_buf := 1471871642147603762920338591954103527723565432
  out_pos := 19
  m_bits_in := 0
  m_bit_buffer := 0
  m_saved_match_dist := 0
  m_saved_match_len := 0
  m_saved_lit := 0
  m_huff_count := (1 * 2 ^ 1040 + 1 * 2 ^ 4096 + 1 * 2 ^ 12288 + 2 * 2 ^ 12304 + 3 * 2 ^ 12576)
  m_huff_codes := (1 * 2 ^ 4096 + 1 * 2 ^ 12288 + 3 * 2 ^ 12304)
  m_huff_code_sizes := 752684088202547545336940141978922295256804099577552513086304092664266707287477985723350587522741182830427892873082236962620293498976238805503476009713789394102536684722085201428550148487368614945009414351010269377309931750732231065891860446819869267083512476161153476650805844912405738285858066651971997633462239551936129601339256918820088907133759996921373279464316159078609960893165066465400645184218110834697291788718927594765963632964580674993080921909289621451951032236202950074308540030503165312973491084553226819725232808704904997502326247669922580005537656357334001578462255502088687286328926848746193231398296005260949550096928010685742119185702819730684948959925157819826472304294256606561523416424786738656304564245748628722255097874225121612116508270378386145271856536429052500162597362314161602191141305798926183927599961803261898830654012821464881601318574510349901108160782106359483398166442564956691784429261894730423342340292315512179308597288551604116348106785065515119551105802401261376385677016605524115004383280679361516445797078414434141039778733333548665438534010871310622087325688204686879484247028754913415312261262704423631211200583014510837663270123993178041877603724879460429568170711092604421366980968853774575451783450283304553338062849460313040941211073494972560031453388373404640883262594994511989923703844325368708179552355775206757398679304924308585452099919144175311375757939572157357236172597139646883180829400260790130255627028307154583601193425663179612021486962129582924807102947520332301306987847232444942054417190921768800516279684694300754206410809420467451098947633424003443509097987251895877995311571045238440034572699236199680663074228595802849956010379814875453000298927946688102981652046755213446737327120670413076167224485841358299402719487598562363668872510249671377278472842589201799538851314068261000392770321923726574956809086576168232026112
  sink_calls := 0
  sink_out := []
  fed := [65]
  tokens := [Tok.lit 65]

def c9F8 : CompState where
  sink_present := true
  m_flags := 2147483748
  m_max_probes := 34
  m_greedy_parsing := false
  m_all_writes_succeeded := true
  m_adler32 := 0
  m_lookahead_pos := 1
  m_lookahead_size := 0
  m_dict_size := 1
  m_dict := (65 * 2 ^ 0 + 65 * 2 ^ 262144)
  m_next := 0
  m_hash := 2 ^ 65536 - 1
  lz_buf := 16640
  lz_code_pos := 1
  lz_flags_pos := 0
  m_num_flags_left := 8
  out_buf := 1471871642147603762920338591954103527723565432
  out_pos := 0
  m_bits_in := 0
  m_bit_buffer := 0
  m_saved_match_dist := 0
  m_saved_match_len := 0
  m_saved_lit := 0
  m_huff_count := (1 * 2 ^ 1040 + 1 * 2 ^ 4096 + 1 * 2 ^ 12288 + 2 * 2 ^ 12304 + 3 * 2 ^ 12576)
  m_huff_codes := (1 * 2 ^ 4096 + 1 * 2 ^ 12288 + 3 * 2 ^ 12304)
  m_huff_code_sizes := 752684088202547545336940141978922295256804099577552513086304092664266707287477985723350587522741182830427892873082236962620293498976238805503476009713789394102536684722085201428550148487368614945009414351010269377309931750732231065891860446819869267083512476161153476650805844912405738285858066651971997633462239551936129601339256918820088907133759996921373279464316159078609960893165066465400645184218110834697291788718927594765963632964580674993080921909289621451951032236202950074308540030503165312973491084553226819725232808704904997502326247669922580005537656357334001578462255502088687286328926848746193231398296005260949550096928010685742119185702819730684948959925157819826472304294256606561523416424786738656304564245748628722255097874225121612116508270378386145271856536429052500162597362314161602191141305798926183927599961803261898830654012821464881601318574510349901108160782106359483398166442564956691784429261894730423342340292315512179308597288551604116348106785065515119551105802401261376385677016605524115004383280679361516445797078414434141039778733333548665438534010871310622087325688204686879484247028754913415312261262704423631211200583014510837663270123993178041877603724879460429568170711092604421366980968853774575451783450283304553338062849460313040941211073494972560031453388373404640883262594994511989923703844325368708179552355775206757398679304924308585452099919144175311375757939572157357236172597139646883180829400260790130255627028307154583601193425663179612021486962129582924807102947520332301306987847232444942054417190921768800516279684694300754206410809420467451098947633424003443509097987251895877995311571045238440034572699236199680663074228595802849956010379814875453000298927946688102981652046755213446737327120670413076167224485841358299402719487598562363668872510249671377278472842589201799538851314068261000392770321923726574956809086576168232026112
  sink_calls := 1
  sink_out := [[120, 1, 5, 192, 129, 8, 0, 0, 0, 0, 32, 182, 253, 165, 78, 0, 66, 0, 66]]
  fed := [65]
  tokens := [Tok.lit 65]

def c9F9 : CompState where
  sink_present := false
  m_flags := 2147483748
  m_max_probes := 34
  m_greedy_parsing := false
  m_all_writes_succeeded := true
  m_adler32 := 0
  m_lookahead_pos := 1
  m_lookahead_size := 0
  m_dict_size := 1
  m_dict := (65 * 2 ^ 0 + 65 * 2 ^ 262144)
  m_next := 0
  m_hash := 2 ^ 65536 - 1
  lz_buf := 16640
  lz_code_pos := 1
  lz_flags_pos := 0
  m_num_flags_left := 8
  out_buf := 1471871642147603762920338591954103527723565432
  out_pos := 0
  m_bits_in := 0
  m_bit_buffer := 0
  m_saved_match_dist := 0
  m_saved_match_len := 0
  m_saved_lit := 0
  m_huff_count := (1 * 2 ^ 1040 + 1 * 2 ^ 4096 + 1 * 2 ^ 12288 + 2 * 2 ^ 12304 + 3 * 2 ^ 12576)
  m_huff_codes := (1 * 2 ^ 4096 + 1 * 2 ^ 12288 + 3 * 2 ^ 12304)
  m_huff_code_sizes := 752684088202547545336940141978922295256804099577552513086304092664266707287477985723350587522741182830427892873082236962620293498976238805503476009713789394102536684722085201428550148487368614945009414351010269377309931750732231065891860446819869267083512476161153476650805844912405738285858066651971997633462239551936129601339256918820088907133759996921373279464316159078609960893165066465400645184218110834697291788718927594765963632964580674993080921909289621451951032236202950074308540030503165312973491084553226819725232808704904997502326247669922580005537656357334001578462255502088687286328926848746193231398296005260949550096928010685742119185702819730684948959925157819826472304294256606561523416424786738656304564245748628722255097874225121612116508270378386145271856536429052500162597362314161602191141305798926183927599961803261898830654012821464881601318574510349901108160782106359483398166442564956691784429261894730423342340292315512179308597288551604116348106785065515119551105802401261376385677016605524115004383280679361516445797078414434141039778733333548665438534010871310622087325688204686879484247028754913415312261262704423631211200583014510837663270123993178041877603724879460429568170711092604421366980968853774575451783450283304553338062849460313040941211073494972560031453388373404640883262594994511989923703844325368708179552355775206757398679304924308585452099919144175311375757939572157357236172597139646883180829400260790130255627028307154583601193425663179612021486962129582924807102947520332301306987847232444942054417190921768800516279684694300754206410809420467451098947633424003443509097987251895877995311571045238440034572699236199680663074228595802849956010379814875453000298927946688102981652046755213446737327120670413076167224485841358299402719487598562363668872510249671377278472842589201799538851314068261000392770321923726574956809086576168232026112
  sink_calls := 1
  sink_out := [[120, 1, 5, 192, 129, 8, 0, 0, 0, 0, 32, 182, 253, 165, 78, 0, 66, 0, 66]]
  fed := [65]
  tokens := [Tok.lit 65]

def c9Cnt0 : Nat := 1044388881413152506691752710716624382579964249047383780384233483283953907971557456848826811934997558340890106714439262837987573438185793607263236087851365277945956976543709998340361590134383718314428070011855946226376318839397712745672334684344586617496807908705803704071284048740118609114467977783598029006686938976881787785946905630190260940599579453432823469303026696443059025015972399867714215541693835559885291486318237914434496734087811872639496475100189041349008417061675093668333850551032972088269550769983616369411933015213796825837188091833656751221318492846368125550225998300412344784862595674492194617023806505913245610825731835380087608622102834270197698202313169017678006675195485079921636419370285375124784014907159135459982790513399611551794271106831134090584272884279791554849782954323534517065223269061394905987693002122963395687782878948440616007412945674919823050571642377154816321380631045902916136938489704585074403980794746400136418257711997779463553414971309794843968110791085744682901219668755939930306112301724754520691997096589829618262995587685461128040916980948986883994359174661412409290889174152365919923916020766098773486177370914817121004464012284716558773056103491562240123843933717126593556210778112

def c9SizesA : List Nat := [0, 0, 0, 0, 0, 0, 0, 0, 0, 0, 0, 0, 0, 0, 0, 0, 0, 0, 0, 0, 0, 0, 0, 0, 0, 0, 0, 0, 0, 0, 0, 0, 0, 0, 0, 0, 0, 0, 0, 0, 0, 0, 0, 0, 0, 0, 0, 0, 0, 0, 0, 0, 0, 0, 0, 0, 0, 0, 0, 0, 0, 0, 0, 0, 0, 1, 0, 0, 0, 0, 0, 0, 0, 0, 0, 0, 0, 0, 0, 0, 0, 0, 0, 0, 0, 0, 0, 0, 0, 0, 0, 0, 0, 0, 0, 0, 0, 0, 0, 0, 0, 0, 0, 0, 0, 0, 0, 0, 0, 0, 0, 0, 0, 0, 0, 0, 0, 0, 0, 0, 0, 0, 0, 0, 0, 0, 0, 0, 0]

def c9SizesB : List Nat := [0, 0, 0, 0, 0, 0, 0, 0, 0, 0, 0, 0, 0, 0, 0, 0, 0, 0, 0, 0, 0, 0, 0, 0, 0, 0, 0, 0, 0, 0, 0, 0, 0, 0, 0, 0, 0, 0, 0, 0, 0, 0, 0, 0, 0, 0, 0, 0, 0, 0, 0, 0, 0, 0, 0, 0, 0, 0, 0, 0, 0, 0, 0, 0, 0, 0, 0, 0, 0, 0, 0, 0, 0, 0, 0, 0, 0, 0, 0, 0, 0, 0, 0, 0, 0, 0, 0, 0, 0, 0, 0, 0, 0, 0, 0, 0, 0, 0, 0, 0, 0, 0, 0, 0, 0, 0, 0, 0, 0, 0, 0, 0, 0, 0, 0, 0, 0, 0, 0, 0, 0, 0, 0, 0, 0, 0, 0, 1, 0]

def c9P1 : RleState × Nat := (⟨(1 * 2 ^ 1040 + 1 * 2 ^ 4096 + 1 * 2 ^ 12304 + 1 * 2 ^ 12576), [18, 54, 1], 63, 0⟩, 0)

def c9P2 : RleState × Nat := (⟨(1 * 2 ^ 1040 + 1 * 2 ^ 4096 + 2 * 2 ^ 12304 + 3 * 2 ^ 12576), [18, 54, 1, 18, 127, 18, 41, 1], 1, 0⟩, 0)

/-! Pipeline snapshots of the zero-probe-budget raw session (claim C7):
flags 0 (low 12 bits zero, no zlib framing), input 61 62 61 62 61 62 —
with probe budget 0 the match finder never probes and all six bytes are
recorded as literals.  `c7S1` after `init`, `c7C` after the feeding call,
`c7T1`–`c7T7` the terminal parse iterations, `c7F3`–`c7F9` the final
flush. -/

def c7S1 : CompState where
  sink_present := true
  m_flags := 0
  m_max_probes := 0
  m_greedy_parsing := false
  m_all_writes_succeeded := true
  m_adler32 := 1
  m_lookahead_pos := 0
  m_lookahead_size := 0
  m_dict_size := 0
  m_dict := 0
  m_next := 0
  m_hash := 2 ^ 65536 - 1
  lz_buf := 0
  lz_code_pos := 1
  lz_flags_pos := 0
  m_num_flags_left := 8
  out_buf := 0
  out_pos := 0
  m_bits_in := 0
  m_bit_buffer := 0
  m_saved_match_dist := 0
  m_saved_match_len := 0
  m_saved_lit := 0
  m_huff_count := 0
  m_huff_codes := 0
  m_huff_code_sizes := 0
  sink_calls := 0
  sink_out := []
  fed := []
  tokens := []

def c7C : CompState where
  sink_present := true
  m_flags := 0
  m_max_probes := 0
  m_greedy_parsing := false
  m_all_writes_succeeded := true
  m_adler32 := 1
  m_lookahead_pos := 0
  m_lookahead_size := 6
  m_dict_size := 0
  m_dict := (97 * 2 ^ 0 + 98 * 2 ^ 8 + 97 * 2 ^ 16 + 98 * 2 ^ 24 + 97 * 2 ^ 32 + 98 * 2 ^ 40 + 97 * 2 ^ 262144 + 98 * 2 ^ 262152 + 97 * 2 ^ 262160 + 98 * 2 ^ 262168 + 97 * 2 ^ 262176 + 98 * 2 ^ 262184)
  m_next := 281479271677951
  m_hash := 2 ^ 65536 - 1 - 65532 * 2 ^ 18208 - 65533 * 2 ^ 29712
  lz_buf := 0
  lz_code_pos := 1
  lz_flags_pos := 0
  m_num_flags_left := 8
  out_buf := 0
  out_pos := 0
  m_bits_in := 0
  m_bit_buffer := 0
  m_saved_match_dist := 0
  m_saved_match_len := 0
  m_saved_lit := 0
  m_huff_count := 0
  m_huff_codes := 0
  m_huff_code_sizes := 0
  sink_calls := 0
  sink_out := []
  fed := [97, 98, 97, 98, 97, 98]
  tokens := []

def c7T1 : CompState where
  sink_present := true
  m_flags := 0
  m_max_probes := 0
  m_greedy_parsing := false
  m_all_writes_succeeded := true
  m_adler32 := 1
  m_lookahead_pos := 1
  m_lookahead_size := 5
  m_dict_size := 1
  m_dict := (97 * 2 ^ 0 + 98 * 2 ^ 8 + 97 * 2 ^ 16 + 98 * 2 ^ 24 + 97 * 2 ^ 32 + 98 * 2 ^ 40 + 97 * 2 ^ 262144 + 98 * 2 ^ 262152 + 97 * 2 ^ 262160 + 98 * 2 ^ 262168 + 97 * 2 ^ 262176 + 98 * 2 ^ 262184)
  m_next := 281479271677951
  m_hash := 2 ^ 65536 - 1 - 65532 * 2 ^ 18208 - 65533 * 2 ^ 29712
  lz_buf := 24832
  lz_code_pos := 2
  lz_flags_pos := 0
  m_num_flags_left := 7
  out_buf := 0
  out_pos := 0
  m_bits_in := 0
  m_bit_buffer := 0
  m_saved_match_dist := 0
  m_saved_match_len := 0
  m_saved_lit := 0
  m_huff_count := 0
  m_huff_codes := 0
  m_huff_code_sizes := 0
  sink_calls := 0
  sink_out := []
  fed := [97, 98, 97, 98, 97, 98]
  tokens := [Tok.lit 97]

def c7T2 : CompState where
  sink_present := true
  m_flags := 0
  m_max_probes := 0
  m_greedy_parsing := false
  m_all_writes_succeeded := true
  m_adler32 := 1
  m_lookahead_pos := 2
  m_lookahead_size := 4
  m_dict_size := 2
  m_dict := (97 * 2 ^ 0 + 98 * 2 ^ 8 + 97 * 2 ^ 16 + 98 * 2 ^ 24 + 97 * 2 ^ 32 + 98 * 2 ^ 40 + 97 * 2 ^ 262144 + 98 * 2 ^ 262152 + 97 * 2 ^ 262160 + 98 * 2 ^ 262168 + 97 * 2 ^ 262176 + 98 * 2 ^ 262184)
  m_next := 281479271677951
  m_hash := 2 ^ 65536 - 1 - 65532 * 2 ^ 18208 - 65533 * 2 ^ 29712
  lz_buf := 6447360
  lz_code_pos := 3
  lz_flags_pos := 0
  m_num_flags_left := 6
  out_buf := 0
  out_pos := 0
  m_bits_in := 0
  m_bit_buffer := 0
  m_saved_match_dist := 0
  m_saved_match_len := 0
  m_saved_lit := 0
  m_huff_count := 0
  m_huff_codes := 0
  m_huff_code_sizes := 0
  sink_calls := 0
  sink_out := []
  fed := [97, 98, 97, 98, 97, 98]
  tokens := [Tok.lit 97, Tok.lit 98]

def c7T3 : CompState where
  sink_present := true
  m_flags := 0
  m_max_probes := 0
  m_greedy_parsing := false
  m_all_writes_succeeded := true
  m_adler32 := 1
  m_lookahead_pos := 3
  m_lookahead_size := 3
  m_dict_size := 3
  m_dict := (97 * 2 ^ 0 + 98 * 2 ^ 8 + 97 * 2 ^ 16 + 98 * 2 ^ 24 + 97 * 2 ^ 32 + 98 * 2 ^ 40 + 97 * 2 ^ 262144 + 98 * 2 ^ 262152 + 97 * 2 ^ 262160 + 98 * 2 ^ 262168 + 97 * 2 ^ 262176 + 98 * 2 ^ 262184)
  m_next := 281479271677951
  m_hash := 2 ^ 65536 - 1 - 65532 * 2 ^ 18208 - 65533 * 2 ^ 29712
  lz_buf := 1633837312
  lz_code_pos := 4
  lz_flags_pos := 0
  m_num_flags_left := 5
  out_buf := 0
  out_pos := 0
  m_bits_in := 0
  m_bit_buffer := 0
  m_saved_match_dist := 0
  m_saved_match_len := 0
  m_saved_lit := 0
  m_huff_count := 0
  m_huff_codes := 0
  m_huff_code_sizes := 0
  sink_calls := 0
  sink_out := []
  fed := [97, 98, 97, 98, 97, 98]
  tokens := [Tok.lit 97, Tok.lit 98, Tok.lit 97]

def c7T4 : CompState where
  sink_present := true
  m_flags := 0
  m_max_probes := 0
  m_greedy_parsing := false
  m_all_writes_succeeded := true
  m_adler32 := 1
  m_lookahead_pos := 4
  m_lookahead_size := 2
  m_dict_size := 4
  m_dict := (97 * 2 ^ 0 + 98 * 2 ^ 8 + 97 * 2 ^ 16 + 98 * 2 ^ 24 + 97 * 2 ^ 32 + 98 * 2 ^ 40 + 97 * 2 ^ 262144 + 98 * 2 ^ 262152 + 97 * 2 ^ 262160 + 98 * 2 ^ 262168 + 97 * 2 ^ 262176 + 98 * 2 ^ 262184)
  m_next := 281479271677951
  m_hash := 2 ^ 65536 - 1 - 65532 * 2 ^ 18208 - 65533 * 2 ^ 29712
  lz_buf := 422540632320
  lz_code_pos := 5
  lz_flags_pos := 0
  m_num_flags_left := 4
  out_buf := 0
  out_pos := 0
  m_bits_in := 0
  m_bit_buffer := 0
  m_saved_match_dist := 0
  m_saved_match_len := 0
  m_saved_lit := 0
  m_huff_count := 0
  m_huff_codes := 0
  m_huff_code_sizes := 0
  sink_calls := 0
  sink_out := []
  fed := [97, 98, 97, 98, 97, 98]
  tokens := [Tok.lit 97, Tok.lit 98, Tok.lit 97, Tok.lit 98]

def c7T5 : CompState where
  sink_present := true
  m_flags := 0
  m_max_probes := 0
  m_greedy_parsing := false
  m_all_writes_succeeded := true
  m_adler32 := 1
  m_lookahead_pos := 5
  m_lookahead_size := 1
  m_dict_size := 5
  m_dict := (97 * 2 ^ 0 + 98 * 2 ^ 8 + 97 * 2 ^ 16 + 98 * 2 ^ 24 + 97 * 2 ^ 32 + 98 * 2 ^ 40 + 97 * 2 ^ 262144 + 98 * 2 ^ 262152 + 97 * 2 ^ 262160 + 98 * 2 ^ 262168 + 97 * 2 ^ 262176 + 98 * 2 ^ 262184)
  m_next := 281479271677951
  m_hash := 2 ^ 65536 - 1 - 65532 * 2 ^ 18208 - 65533 * 2 ^ 29712
  lz_buf := 107075168526592
  lz_code_pos := 6
  lz_flags_pos := 0
  m_num_flags_left := 3
  out_buf := 0
  out_pos := 0
  m_bits_in := 0
  m_bit_buffer := 0
  m_saved_match_dist := 0
  m_saved_match_len := 0
  m_saved_lit := 0
  m_huff_count := 0
  m_huff_codes := 0
  m_huff_code_sizes := 0
  sink_calls := 0
  sink_out := []
  fed := [97, 98, 97, 98, 97, 98]
  tokens := [Tok.lit 97, Tok.lit 98, Tok.lit 97, Tok.lit 98, Tok.lit 97]

def c7T6 : CompState where
  sink_present := true
  m_flags := 0
  m_max_probes := 0
  m_greedy_parsing := false
  m_all_writes_succeeded := true
  m_adler32 := 1
  m_lookahead_pos := 6
  m_lookahead_size := 0
  m_dict_size := 6
  m_dict := (97 * 2 ^ 0 + 98 * 2 ^ 8 + 97 * 2 ^ 16 + 98 * 2 ^ 24 + 97 * 2 ^ 32 + 98 * 2 ^ 40 + 97 * 2 ^ 262144 + 98 * 2 ^ 262152 + 97 * 2 ^ 262160 + 98 * 2 ^ 262168 + 97 * 2 ^ 262176 + 98 * 2 ^ 262184)
  m_next := 281479271677951
  m_hash := 2 ^ 65536 - 1 - 65532 * 2 ^ 18208 - 65533 * 2 ^ 29712
  lz_buf := 27691622886170880
  lz_code_pos := 7
  lz_flags_pos := 0
  m_num_flags_left := 2
  out_buf := 0
  out_pos := 0
  m_bits_in := 0
  m_bit_buffer := 0
  m_saved_match_dist := 0
  m_saved_match_len := 0
  m_saved_lit := 0
  m_huff_count := 0
  m_huff_codes := 0
  m_huff_code_sizes := 0
  sink_calls := 0
  sink_out := []
  fed := [97, 98, 97, 98, 97, 98]
  tokens := [Tok.lit 97, Tok.lit 98, Tok.lit 97, Tok.lit 98, Tok.lit 97, Tok.lit 98]

def c7T7 : CompState where
  sink_present := true
  m_flags := 0
  m_max_probes := 0
  m_greedy_parsing := false
  m_all_writes_succeeded := true
  m_adler32 := 1
  m_lookahead_pos := 6
  m_lookahead_size := 0
  m_dict_size := 6
  m_dict := (97 * 2 ^ 0 + 98 * 2 ^ 8 + 97 * 2 ^ 16 + 98 * 2 ^ 24 + 97 * 2 ^ 32 + 98 * 2 ^ 40 + 97 * 2 ^ 262144 + 98 * 2 ^ 262152 + 97 * 2 ^ 262160 + 98 * 2 ^ 262168 + 97 * 2 ^ 262176 + 98 * 2 ^ 262184)
  m_next := 281479271677951
  m_hash := 2 ^ 65536 - 1 - 65532 * 2 ^ 18208 - 65533 * 2 ^ 29712
  lz_buf := 27691622886170880
  lz_code_pos := 7
  lz_flags_pos := 0
  m_num_flags_left := 2
  out_buf := 0
  out_pos := 0
  m_bits_in := 0
  m_bit_buffer := 0
  m_saved_match_dist := 0
  m_saved_match_len := 0
  m_saved_lit := 0
  m_huff_count := 0
  m_huff_codes := 0
  m_huff_code_sizes := 0
  sink_calls := 0
  sink_out := []
  fed := [97, 98, 97, 98, 97, 98]
  tokens := [Tok.lit 97, Tok.lit 98, Tok.lit 97, Tok.lit 98, Tok.lit 97, Tok.lit 98]

def c7F3 : CompState where
  sink_present := true
  m_flags := 0
  m_max_probes := 0
  m_greedy_parsing := false
  m_all_writes_succeeded := true
  m_adler32 := 1
  m_lookahead_pos := 6
  m_lookahead_size := 0
  m_dict_size := 6
  m_dict := (97 * 2 ^ 0 + 98 * 2 ^ 8 + 97 * 2 ^ 16 + 98 * 2 ^ 24 + 97 * 2 ^ 32 + 98 * 2 ^ 40 + 97 * 2 ^ 262144 + 98 * 2 ^ 262152 + 97 * 2 ^ 262160 + 98 * 2 ^ 262168 + 97 * 2 ^ 262176 + 98 * 2 ^ 262184)
  m_next := 281479271677951
  m_hash := 2 ^ 65536 - 1 - 65532 * 2 ^ 18208 - 65533 * 2 ^ 29712
  lz_buf := 27691622886170880
  lz_code_pos := 7
  lz_flags_pos := 0
  m_num_flags_left := 2
  out_buf := 0
  out_pos := 0
  m_bits_in := 0
  m_bit_buffer := 0
  m_saved_match_dist := 0
  m_saved_match_len := 0
  m_saved_lit := 0
  m_huff_count := 1044388881413152506691752710716624382579964249047383780384233483283953907971557456848826811934997558340890106714439262837987573438185793607263236087851365277945956976543709998340361590134383718314428070011855946226376318839397712745672334684344586617496807908705803704071284048740118609114467977783598029006686938976881787785946905630190260940599579453432823469303026696443059025015972399867714215541693835559885291486318237914434496734087811872639496475100189041349008417061675093668333850551032972088269550769983616369411933015213796825837188091833656751221318492846368125550225998300412344784862595674492194617023806505913245610825731835380087608622102834270197698202313169017678006675195485079921636419370285375124784014907159135459982790513399611551794271137888247117594579802160438810689837664022721406381975065909760906896182264375389862556996516770128943077457950253845367087098470445550597726829270601876402810667201953481757484177566068822654169056620217754126174652765990483369179166005633201855856892000830622795132211573781094844407934083764872649466857132589051747121114393630804979548970425618715511304356196165186996484284136208509577719420965333802042113052693347879618571319261762112000695587023609221310927855419392
  m_huff_codes := 0
  m_huff_code_sizes := 0
  sink_calls := 0
  sink_out := []
  fed := [97, 98, 97, 98, 97, 98]
  tokens := [Tok.lit 97, Tok.lit 98, Tok.lit 97, Tok.lit 98, Tok.lit 97, Tok.lit 98]

def c7F4 : CompState where
  sink_present := true
  m_flags := 0
  m_max_probes := 0
  m_greedy_parsing := false
  m_all_writes_succeeded := true
  m_adler32 := 1
  m_lookahead_pos := 6
  m_lookahead_size := 0
  m_dict_size := 6
  m_dict := (97 * 2 ^ 0 + 98 * 2 ^ 8 + 97 * 2 ^ 16 + 98 * 2 ^ 24 + 97 * 2 ^ 32 + 98 * 2 ^ 40 + 97 * 2 ^ 262144 + 98 * 2 ^ 262152 + 97 * 2 ^ 262160 + 98 * 2 ^ 262168 + 97 * 2 ^ 262176 + 98 * 2 ^ 262184)
  m_next := 281479271677951
  m_hash := 2 ^ 65536 - 1 - 65532 * 2 ^ 18208 - 65533 * 2 ^ 29712
  lz_buf := 27691622886170880
  lz_code_pos := 7
  lz_flags_pos := 0
  m_num_flags_left := 2
  out_buf := 0
  out_pos := 0
  m_bits_in := 0
  m_bit_buffer := 0
  m_saved_match_dist := 0
  m_saved_match_len := 0
  m_saved_lit := 0
  m_huff_count := 1044388881413152506691752710716624382579964249047383780384233483283953907971557456848826811934997558340890106714439262837987573438185793607263236087851365277945956976543709998340361590134383718314428070011855946226376318839397712745672334684344586617496807908705803704071284048740118609114467977783598029006686938976881787785946905630190260940599579453432823469303026696443059025015972399867714215541693835559885291486318237914434496734087811872639496475100189041349008417061675093668333850551032972088269550769983616369411933015213796825837188091833656751221318492846368125550225998300412344784862595674492194617023806505913245610825731835380087608622102834270197698202313169017678006675195485079921636419370285375124784014907159135459982790513399611551794271137888247117594579802160438810689837664022721406381975065909760906896182264375389862556996516770128943077457950253845367087098470445550597726829270601876402810667201953481757484177566068822654169056620217754126174652765990483369179166005633201855856892000830622795132211573781094844407934083764872649466857132589051747121114393630804979548970425618715511304356196165186996484284136208509577719420965333802042113052693347879618571319261762112000695587023609221310927855419392
  m_huff_codes := 3133166644239457520075258132149873147739892747142151341152700449851861723914672370546480435804992675022670320143317788513962720314557380821789708263554095833837870929631129995021084770403151154943284210035567838679128956518193138237017004053033759852490423726117411112213852146220355827343403933350794087020060816930645363357840716890570782821798738360298470407909080089329177075047917199603142646625081506679655874458954713743303490202263435617918489425300567124047025251185025281005001551653098916264808652309950849108235799045641390477511564275500970253663955478539104376650677994901237034354587787023476583851071419517739736832477195506140262825866308502810593094606939507053034020025586455239764909258110856125374352044721477406379948371540198834655382813320493560233988029349631099851071241534564307358138767175855301025626439187077305547477907686001461747052949580803106453427996704482823571270530678346265522820587682797430731905534430493679602810465182493300316811027874682687930542043412561535919589262956361074596405996228628483465308388502493060882045031934691247239218102898620587324928960509560229636099105186061093044752706858457930490028930520088756346193717422572099062989325039238882208267475758074788994806924181504
  m_huff_code_sizes := 64634012142622014601429753377339903920888205339430968064260690855049310277735781786394402823045826927377435921843796038988239118300981842190176304772896566241261754734601992183500395500779304213592115276768135136553584437285239512323676188676952340941163291704072610085775151783082131617215104798247860771043828666779336684841369949573129138989712352070652644116155611318662052385519461343260794409477074030705858576206530522373720280077115400816352008549496395050836108515736082995124127840537975770060577603915008656796204280478625929158606892589003969232871125856262273293109607527956489624446082456222962181734400
  sink_calls := 0
  sink_out := []
  fed := [97, 98, 97, 98, 97, 98]
  tokens := [Tok.lit 97, Tok.lit 98, Tok.lit 97, Tok.lit 98, Tok.lit 97, Tok.lit 98]

def c7F4r : CompState where
  sink_present := true
  m_flags := 0
  m_max_probes := 0
  m_greedy_parsing := false
  m_all_writes_succeeded := true
  m_adler32 := 1
  m_lookahead_pos := 6
  m_lookahead_size := 0
  m_dict_size := 6
  m_dict := (97 * 2 ^ 0 + 98 * 2 ^ 8 + 97 * 2 ^ 16 + 98 * 2 ^ 24 + 97 * 2 ^ 32 + 98 * 2 ^ 40 + 97 * 2 ^ 262144 + 98 * 2 ^ 262152 + 97 * 2 ^ 262160 + 98 * 2 ^ 262168 + 97 * 2 ^ 262176 + 98 * 2 ^ 262184)
  m_next := 281479271677951
  m_hash := 2 ^ 65536 - 1 - 65532 * 2 ^ 18208 - 65533 * 2 ^ 29712
  lz_buf := 27691622886170880
  lz_code_pos := 7
  lz_flags_pos := 0
  m_num_flags_left := 2
  out_buf := 0
  out_pos := 0
  m_bits_in := 0
  m_bit_buffer := 0
  m_saved_match_dist := 0
  m_saved_match_len := 0
  m_saved_lit := 0
  m_huff_count := (3 * ((2 ^ 32 - 1) / (2 ^ 16 - 1)) * 2 ^ 1552 + 1 * 2 ^ 4096 + 1 * ((2 ^ 32 - 1) / (2 ^ 16 - 1)) * 2 ^ 12288 + 2 * 2 ^ 12320 + 3 * 2 ^ 12576)
  m_huff_codes := 3133166644239457520075258132149873147739892747142151341152700449851861723914672370546480435804992675022670320143317788513962720314557380821789708263554095833837870929631129995021084770403151154943284210035567838679128956518193138237017004053033759852490423726117411112213852146220355827343403933350794087020060816930645363357840716890570782821798738360298470407909080089329177075047917199603142646625081506679655874458954713743303490202263435617918489425300567124047025251185025281005001551653098916264808652309950849108235799045641390477511564275500970253663955478539104376650677994901237034354587787023476583851071419517739736832477195506140262825866308502810593094606939507053034020025586455239764909258110856125374352044721477406379948371540198834655382813320493560233988029349631099851071241534564307358138767175855301025626439187077305547477907686001461747052949580803106453427996704482823571270530678346265522820587682797430731905534430493679602810465182493300316811027874682687930542043412561535919589262956361074596405996228628483465308388502493060882045031934691247239218102898620587324928960509560229636099105186061093044752706858457930490028930520088756346193717422572099062989325039238882208267475758074788994806924181504
  m_huff_code_sizes := 64634012142622014601429753377339903920888205339430968064260690855049310277735781786394402823045826927377435921843796038988239118300981842190176304772896566241261754734601992183500395500779304213592115276768135136553584437285239512323676188676952340941163291704072610085775151783082131617215104798247860771043828666779336684841369949573129138989712352070652644116155611318662052385519461343260794409477074030705858576206530522373720280077115400816352008549496395050836108515736082995124127840537975770060577603915008656796204280478625929158606892589003969232871125856262273293109607527956489624446082456222962181734400
  sink_calls := 0
  sink_out := []
  fed := [97, 98, 97, 98, 97, 98]
  tokens := [Tok.lit 97, Tok.lit 98, Tok.lit 97, Tok.lit 98, Tok.lit 97, Tok.lit 98]

def c7F5 : CompState where
  sink_present := true
  m_flags := 0
  m_max_probes := 0
  m_greedy_parsing := false
  m_all_writes_succeeded := true
  m_adler32 := 1
  m_lookahead_pos := 6
  m_lookahead_size := 0
  m_dict_size := 6
  m_dict := (97 * 2 ^ 0 + 98 * 2 ^ 8 + 97 * 2 ^ 16 + 98 * 2 ^ 24 + 97 * 2 ^ 32 + 98 * 2 ^ 40 + 97 * 2 ^ 262144 + 98 * 2 ^ 262152 + 97 * 2 ^ 262160 + 98 * 2 ^ 262168 + 97 * 2 ^ 262176 + 98 * 2 ^ 262184)
  m_next := 281479271677951
  m_hash := 2 ^ 65536 - 1 - 65532 * 2 ^ 18208 - 65533 * 2 ^ 29712
  lz_buf := 27691622886170880
  lz_code_pos := 7
  lz_flags_pos := 0
  m_num_flags_left := 2
  out_buf := 0
  out_pos := 0
  m_bits_in := 0
  m_bit_buffer := 0
  m_saved_match_dist := 0
  m_saved_match_len := 0
  m_saved_lit := 0
  m_huff_count := (3 * ((2 ^ 32 - 1) / (2 ^ 16 - 1)) * 2 ^ 1552 + 1 * 2 ^ 4096 + 1 * ((2 ^ 32 - 1) / (2 ^ 16 - 1)) * 2 ^ 12288 + 2 * 2 ^ 12320 + 3 * 2 ^ 12576)
  m_huff_codes := (1 * 2 ^ 1552 + 3 * 2 ^ 4096 + 3 * 2 ^ 12288 + 7 * 2 ^ 12304 + 1 * 2 ^ 12320)
  m_huff_code_sizes := 752684088202547545336940141978922295261236653186840217888157292298690909778745278752756173615136400670507689901285983876232987037820804710723458431101184933655344241033289480134471506530152999831566038948989550438848583352551426472373787378906329065892269116266591033872113955764049409458323809883243474709641470768080771862936905638353671023065846030085983401017524585765535963094965668808285807698950701715666974220056074878245812380736564020871025820800566953784000159983198130085367850618827105937089070472584135710228161407256255780884851549618857692394005411225921255596506568004905551672914133327886854464051068083111887533068154304464639496580846928121454114604433839430207847701881128322233175871520700739633382692762379859091171732322710124717717583911255788281398485673776625615322940248853569004503109833593125822140290847770549428660159965757435428962711943027990370344336301370910784090874157444192878438503085088000479445494467154642762772104952610738987678341257776440512137209621097642754809704828586886087948916333597854190654301987221941010648085273418307931087282301222928984674697173171078640570746714757639971996441377317950987909584685542707969544883765010544731767258681755704996997910664583878710206093819907623146644587864159156233150170472519040409968843481414284702735633459826860461617097351944619827333855726818925989971553115653243674405040296150837219720404463763882772255264114429000328544255987803463000912431660254525249310438852581962804531803616638801256933325817663465207377343737918013702987252666077037511089112825763014333441027024893348976087438039813526818856786632024393025893659483786204569217341261162864257328434973267594067596891527732430921255428307847820324554902974070562237077778280370156373171799573474715325656004808888881383701124146239114389810607703303346000913890411698974140210428823992397431418846463671148692571613196106658578694144
  sink_calls := 0
  sink_out := []
  fed := [97, 98, 97, 98, 97, 98]
  tokens := [Tok.lit 97, Tok.lit 98, Tok.lit 97, Tok.lit 98, Tok.lit 97, Tok.lit 98]

def c7F5h : CompState where
  sink_present := true
  m_flags := 0
  m_max_probes := 0
  m_greedy_parsing := false
  m_all_writes_succeeded := true
  m_adler32 := 1
  m_lookahead_pos := 6
  m_lookahead_size := 0
  m_dict_size := 6
  m_dict := (97 * 2 ^ 0 + 98 * 2 ^ 8 + 97 * 2 ^ 16 + 98 * 2 ^ 24 + 97 * 2 ^ 32 + 98 * 2 ^ 40 + 97 * 2 ^ 262144 + 98 * 2 ^ 262152 + 97 * 2 ^ 262160 + 98 * 2 ^ 262168 + 97 * 2 ^ 262176 + 98 * 2 ^ 262184)
  m_next := 281479271677951
  m_hash := 2 ^ 65536 - 1 - 65532 * 2 ^ 18208 - 65533 * 2 ^ 29712
  lz_buf := 27691622886170880
  lz_code_pos := 7
  lz_flags_pos := 0
  m_num_flags_left := 2
  out_buf := 9223372037064605701
  out_pos := 8
  m_bits_in := 7
  m_bit_buffer := 48
  m_saved_match_dist := 0
  m_saved_match_len := 0
  m_saved_lit := 0
  m_huff_count := (3 * ((2 ^ 32 - 1) / (2 ^ 16 - 1)) * 2 ^ 1552 + 1 * 2 ^ 4096 + 1 * ((2 ^ 32 - 1) / (2 ^ 16 - 1)) * 2 ^ 12288 + 2 * 2 ^ 12320 + 3 * 2 ^ 12576)
  m_huff_codes := (1 * 2 ^ 1552 + 3 * 2 ^ 4096 + 3 * 2 ^ 12288 + 7 * 2 ^ 12304 + 1 * 2 ^ 12320)
  m_huff_code_sizes := 752684088202547545336940141978922295261236653186840217888157292298690909778745278752756173615136400670507689901285983876232987037820804710723458431101184933655344241033289480134471506530152999831566038948989550438848583352551426472373787378906329065892269116266591033872113955764049409458323809883243474709641470768080771862936905638353671023065846030085983401017524585765535963094965668808285807698950701715666974220056074878245812380736564020871025820800566953784000159983198130085367850618827105937089070472584135710228161407256255780884851549618857692394005411225921255596506568004905551672914133327886854464051068083111887533068154304464639496580846928121454114604433839430207847701881128322233175871520700739633382692762379859091171732322710124717717583911255788281398485673776625615322940248853569004503109833593125822140290847770549428660159965757435428962711943027990370344336301370910784090874157444192878438503085088000479445494467154642762772104952610738987678341257776440512137209621097642754809704828586886087948916333597854190654301987221941010648085273418307931087282301222928984674697173171078640570746714757639971996441377317950987909584685542707969544883765010544731767258681755704996997910664583878710206093819907623146644587864159156233150170472519040409968843481414284702735633459826860461617097351944619827333855726818925989971553115653243674405040296150837219720404463763882772255264114429000328544255987803463000912431660254525249310438852581962804531803616638801256933325817663465207377343737918013702987252666077037511089112825763014333441027024893348976087438039813526818856786632024393025893659483786204569217341261162864257328434973267594067596891527732430921255428307847820324554902974070562237077778280370156373171799573474715325656004808888881383701124146239114389810607703303346000913890411698974140210428823992397431418846463671148692571613196106658578694144
  sink_calls := 0
  sink_out := []
  fed := [97, 98, 97, 98, 97, 98]
  tokens := [Tok.lit 97, Tok.lit 98, Tok.lit 97, Tok.lit 98, Tok.lit 97, Tok.lit 98]

def c7F6 : CompState where
  sink_present := true
  m_flags := 0
  m_max_probes := 0
  m_greedy_parsing := false
  m_all_writes_succeeded := true
  m_adler32 := 1
  m_lookahead_pos := 6
  m_lookahead_size := 0
  m_dict_size := 6
  m_dict := (97 * 2 ^ 0 + 98 * 2 ^ 8 + 97 * 2 ^ 16 + 98 * 2 ^ 24 + 97 * 2 ^ 32 + 98 * 2 ^ 40 + 97 * 2 ^ 262144 + 98 * 2 ^ 262152 + 97 * 2 ^ 262160 + 98 * 2 ^ 262168 + 97 * 2 ^ 262176 + 98 * 2 ^ 262184)
  m_next := 281479271677951
  m_hash := 2 ^ 65536 - 1 - 65532 * 2 ^ 18208 - 65533 * 2 ^ 29712
  lz_buf := 27691622886170880
  lz_code_pos := 7
  lz_flags_pos := 0
  m_num_flags_left := 2
  out_buf := 16563616976454729436504336220165
  out_pos := 13
  m_bits_in := 1
  m_bit_buffer := 0
  m_saved_match_dist := 0
  m_saved_match_len := 0
  m_saved_lit := 0
  m_huff_count := (3 * ((2 ^ 32 - 1) / (2 ^ 16 - 1)) * 2 ^ 1552 + 1 * 2 ^ 4096 + 1 * ((2 ^ 32 - 1) / (2 ^ 16 - 1)) * 2 ^ 12288 + 2 * 2 ^ 12320 + 3 * 2 ^ 12576)
  m_huff_codes := (1 * 2 ^ 1552 + 3 * 2 ^ 4096 + 3 * 2 ^ 12288 + 7 * 2 ^ 12304 + 1 * 2 ^ 12320)
  m_huff_code_sizes := 752684088202547545336940141978922295261236653186840217888157292298690909778745278752756173615136400670507689901285983876232987037820804710723458431101184933655344241033289480134471506530152999831566038948989550438848583352551426472373787378906329065892269116266591033872113955764049409458323809883243474709641470768080771862936905638353671023065846030085983401017524585765535963094965668808285807698950701715666974220056074878245812380736564020871025820800566953784000159983198130085367850618827105937089070472584135710228161407256255780884851549618857692394005411225921255596506568004905551672914133327886854464051068083111887533068154304464639496580846928121454114604433839430207847701881128322233175871520700739633382692762379859091171732322710124717717583911255788281398485673776625615322940248853569004503109833593125822140290847770549428660159965757435428962711943027990370344336301370910784090874157444192878438503085088000479445494467154642762772104952610738987678341257776440512137209621097642754809704828586886087948916333597854190654301987221941010648085273418307931087282301222928984674697173171078640570746714757639971996441377317950987909584685542707969544883765010544731767258681755704996997910664583878710206093819907623146644587864159156233150170472519040409968843481414284702735633459826860461617097351944619827333855726818925989971553115653243674405040296150837219720404463763882772255264114429000328544255987803463000912431660254525249310438852581962804531803616638801256933325817663465207377343737918013702987252666077037511089112825763014333441027024893348976087438039813526818856786632024393025893659483786204569217341261162864257328434973267594067596891527732430921255428307847820324554902974070562237077778280370156373171799573474715325656004808888881383701124146239114389810607703303346000913890411698974140210428823992397431418846463671148692571613196106658578694144
  sink_calls := 0
  sink_out := []
  fed := [97, 98, 97, 98, 97, 98]
  tokens := [Tok.lit 97, Tok.lit 98, Tok.lit 97, Tok.lit 98, Tok.lit 97, Tok.lit 98]

def c7F7 : CompState where
  sink_present := true
  m_flags := 0
  m_max_probes := 0
  m_greedy_parsing := false
  m_all_writes_succeeded := true
  m_adler32 := 1
  m_lookahead_pos := 6
  m_lookahead_size := 0
  m_dict_size := 6
  m_dict := (97 * 2 ^ 0 + 98 * 2 ^ 8 + 97 * 2 ^ 16 + 98 * 2 ^ 24 + 97 * 2 ^ 32 + 98 * 2 ^ 40 + 97 * 2 ^ 262144 + 98 * 2 ^ 262152 + 97 * 2 ^ 262160 + 98 * 2 ^ 262168 + 97 * 2 ^ 262176 + 98 * 2 ^ 262184)
  m_next := 281479271677951
  m_hash := 2 ^ 65536 - 1 - 65532 * 2 ^ 18208 - 65533 * 2 ^ 29712
  lz_buf := 27691622886170880
  lz_code_pos := 1
  lz_flags_pos := 0
  m_num_flags_left := 8
  out_buf := 65285357721527530153698758974619653
  out_pos := 15
  m_bits_in := 0
  m_bit_buffer := 0
  m_saved_match_dist := 0
  m_saved_match_len := 0
  m_saved_lit := 0
  m_huff_count := (3 * ((2 ^ 32 - 1) / (2 ^ 16 - 1)) * 2 ^ 1552 + 1 * 2 ^ 4096 + 1 * ((2 ^ 32 - 1) / (2 ^ 16 - 1)) * 2 ^ 12288 + 2 * 2 ^ 12320 + 3 * 2 ^ 12576)
  m_huff_codes := (1 * 2 ^ 1552 + 3 * 2 ^ 4096 + 3 * 2 ^ 12288 + 7 * 2 ^ 12304 + 1 * 2 ^ 12320)
  m_huff_code_sizes := 752684088202547545336940141978922295261236653186840217888157292298690909778745278752756173615136400670507689901285983876232987037820804710723458431101184933655344241033289480134471506530152999831566038948989550438848583352551426472373787378906329065892269116266591033872113955764049409458323809883243474709641470768080771862936905638353671023065846030085983401017524585765535963094965668808285807698950701715666974220056074878245812380736564020871025820800566953784000159983198130085367850618827105937089070472584135710228161407256255780884851549618857692394005411225921255596506568004905551672914133327886854464051068083111887533068154304464639496580846928121454114604433839430207847701881128322233175871520700739633382692762379859091171732322710124717717583911255788281398485673776625615322940248853569004503109833593125822140290847770549428660159965757435428962711943027990370344336301370910784090874157444192878438503085088000479445494467154642762772104952610738987678341257776440512137209621097642754809704828586886087948916333597854190654301987221941010648085273418307931087282301222928984674697173171078640570746714757639971996441377317950987909584685542707969544883765010544731767258681755704996997910664583878710206093819907623146644587864159156233150170472519040409968843481414284702735633459826860461617097351944619827333855726818925989971553115653243674405040296150837219720404463763882772255264114429000328544255987803463000912431660254525249310438852581962804531803616638801256933325817663465207377343737918013702987252666077037511089112825763014333441027024893348976087438039813526818856786632024393025893659483786204569217341261162864257328434973267594067596891527732430921255428307847820324554902974070562237077778280370156373171799573474715325656004808888881383701124146239114389810607703303346000913890411698974140210428823992397431418846463671148692571613196106658578694144
  sink_calls := 0
  sink_out := []
  fed := [97, 98, 97, 98, 97, 98]
  tokens := [Tok.lit 97, Tok.lit 98, Tok.lit 97, Tok.lit 98, Tok.lit 97, Tok.lit 98]

def c7F8 : CompState where
  sink_present := true
  m_flags := 0
  m_max_probes := 0
  m_greedy_parsing := false
  m_all_writes_succeeded := true
  m_adler32 := 1
  m_lookahead_pos := 6
  m_lookahead_size := 0
  m_dict_size := 6
  m_dict := (97 * 2 ^ 0 + 98 * 2 ^ 8 + 97 * 2 ^ 16 + 98 * 2 ^ 24 + 97 * 2 ^ 32 + 98 * 2 ^ 40 + 97 * 2 ^ 262144 + 98 * 2 ^ 262152 + 97 * 2 ^ 262160 + 98 * 2 ^ 262168 + 97 * 2 ^ 262176 + 98 * 2 ^ 262184)
  m_next := 281479271677951
  m_hash := 2 ^ 65536 - 1 - 65532 * 2 ^ 18208 - 65533 * 2 ^ 29712
  lz_buf := 27691622886170880
  lz_code_pos := 1
  lz_flags_pos := 0
  m_num_flags_left := 8
  out_buf := 65285357721527530153698758974619653
  out_pos := 0
  m_bits_in := 0
  m_bit_buffer := 0
  m_saved_match_dist := 0
  m_saved_match_len := 0
  m_saved_lit := 0
  m_huff_count := (3 * ((2 ^ 32 - 1) / (2 ^ 16 - 1)) * 2 ^ 1552 + 1 * 2 ^ 4096 + 1 * ((2 ^ 32 - 1) / (2 ^ 16 - 1)) * 2 ^ 12288 + 2 * 2 ^ 12320 + 3 * 2 ^ 12576)
  m_huff_codes := (1 * 2 ^ 1552 + 3 * 2 ^ 4096 + 3 * 2 ^ 12288 + 7 * 2 ^ 12304 + 1 * 2 ^ 12320)
  m_huff_code_sizes := 752684088202547545336940141978922295261236653186840217888157292298690909778745278752756173615136400670507689901285983876232987037820804710723458431101184933655344241033289480134471506530152999831566038948989550438848583352551426472373787378906329065892269116266591033872113955764049409458323809883243474709641470768080771862936905638353671023065846030085983401017524585765535963094965668808285807698950701715666974220056074878245812380736564020871025820800566953784000159983198130085367850618827105937089070472584135710228161407256255780884851549618857692394005411225921255596506568004905551672914133327886854464051068083111887533068154304464639496580846928121454114604433839430207847701881128322233175871520700739633382692762379859091171732322710124717717583911255788281398485673776625615322940248853569004503109833593125822140290847770549428660159965757435428962711943027990370344336301370910784090874157444192878438503085088000479445494467154642762772104952610738987678341257776440512137209621097642754809704828586886087948916333597854190654301987221941010648085273418307931087282301222928984674697173171078640570746714757639971996441377317950987909584685542707969544883765010544731767258681755704996997910664583878710206093819907623146644587864159156233150170472519040409968843481414284702735633459826860461617097351944619827333855726818925989971553115653243674405040296150837219720404463763882772255264114429000328544255987803463000912431660254525249310438852581962804531803616638801256933325817663465207377343737918013702987252666077037511089112825763014333441027024893348976087438039813526818856786632024393025893659483786204569217341261162864257328434973267594067596891527732430921255428307847820324554902974070562237077778280370156373171799573474715325656004808888881383701124146239114389810607703303346000913890411698974140210428823992397431418846463671148692571613196106658578694144
  sink_calls := 1
  sink_out := [[5, 192, 129, 12, 0, 0, 0, 128, 48, 214, 238, 15, 209, 146, 12]]
  fed := [97, 98, 97, 98, 97, 98]
  tokens := [Tok.lit 97, Tok.lit 98, Tok.lit 97, Tok.lit 98, Tok.lit 97, Tok.lit 98]

def c7F9 : CompState where
  sink_present := false
  m_flags := 0
  m_max_probes := 0
  m_greedy_parsing := false
  m_all_writes_succeeded := true
  m_adler32 := 1
  m_lookahead_pos := 6
  m_lookahead_size := 0
  m_dict_size := 6
  m_dict := (97 * 2 ^ 0 + 98 * 2 ^ 8 + 97 * 2 ^ 16 + 98 * 2 ^ 24 + 97 * 2 ^ 32 + 98 * 2 ^ 40 + 97 * 2 ^ 262144 + 98 * 2 ^ 262152 + 97 * 2 ^ 262160 + 98 * 2 ^ 262168 + 97 * 2 ^ 262176 + 98 * 2 ^ 262184)
  m_next := 281479271677951
  m_hash := 2 ^ 65536 - 1 - 65532 * 2 ^ 18208 - 65533 * 2 ^ 29712
  lz_buf := 27691622886170880
  lz_code_pos := 1
  lz_flags_pos := 0
  m_num_flags_left := 8
  out_buf := 65285357721527530153698758974619653
  out_pos := 0
  m_bits_in := 0
  m_bit_buffer := 0
  m_saved_match_dist := 0
  m_saved_match_len := 0
  m_saved_lit := 0
  m_huff_count := (3 * ((2 ^ 32 - 1) / (2 ^ 16 - 1)) * 2 ^ 1552 + 1 * 2 ^ 4096 + 1 * ((2 ^ 32 - 1) / (2 ^ 16 - 1)) * 2 ^ 12288 + 2 * 2 ^ 12320 + 3 * 2 ^ 12576)
  m_huff_codes := (1 * 2 ^ 1552 + 3 * 2 ^ 4096 + 3 * 2 ^ 12288 + 7 * 2 ^ 12304 + 1 * 2 ^ 12320)
  m_huff_code_sizes := 752684088202547545336940141978922295261236653186840217888157292298690909778745278752756173615136400670507689901285983876232987037820804710723458431101184933655344241033289480134471506530152999831566038948989550438848583352551426472373787378906329065892269116266591033872113955764049409458323809883243474709641470768080771862936905638353671023065846030085983401017524585765535963094965668808285807698950701715666974220056074878245812380736564020871025820800566953784000159983198130085367850618827105937089070472584135710228161407256255780884851549618857692394005411225921255596506568004905551672914133327886854464051068083111887533068154304464639496580846928121454114604433839430207847701881128322233175871520700739633382692762379859091171732322710124717717583911255788281398485673776625615322940248853569004503109833593125822140290847770549428660159965757435428962711943027990370344336301370910784090874157444192878438503085088000479445494467154642762772104952610738987678341257776440512137209621097642754809704828586886087948916333597854190654301987221941010648085273418307931087282301222928984674697173171078640570746714757639971996441377317950987909584685542707969544883765010544731767258681755704996997910664583878710206093819907623146644587864159156233150170472519040409968843481414284702735633459826860461617097351944619827333855726818925989971553115653243674405040296150837219720404463763882772255264114429000328544255987803463000912431660254525249310438852581962804531803616638801256933325817663465207377343737918013702987252666077037511089112825763014333441027024893348976087438039813526818856786632024393025893659483786204569217341261162864257328434973267594067596891527732430921255428307847820324554902974070562237077778280370156373171799573474715325656004808888881383701124146239114389810607703303346000913890411698974140210428823992397431418846463671148692571613196106658578694144
  sink_calls := 1
  sink_out := [[5, 192, 129, 12, 0, 0, 0, 128, 48, 214, 238, 15, 209, 146, 12]]
  fed := [97, 98, 97, 98, 97, 98]
  tokens := [Tok.lit 97, Tok.lit 98, Tok.lit 97, Tok.lit 98, Tok.lit 97, Tok.lit 98]

def c7Cnt0 : Nat := 1044388881413152506691752710716624382579964249047383780384233483283953907971557456848826811934997558340890106714439262837987573438185793607263236087851365277945956976543709998340361590134383718314428070011855946226376318839397712745672334684344586617496807908705803704071284048740118609114467977783598029006686938976881787785946905630190260940599579453432823469303026696443059025015972399867714215541693835559885291486318237914434496734087811872639496475100189041349008417061675093668333850551032972088269550769983616369411933015213796825837188091833656751221318492846368125550225998300412344784862595674492194617023806505913245610825731835380087608622102834270197698202313169017678006675195485079921636419370285375124784014907159135459982790513399611551794271137888247117594579802160438810689837664022721406381975065909760906896182264375389862556996516770128943077457950253845367087098470445550597726829270601876402810667201953481757484177566068822654169056620217754126174652765990483369179166005633201855856892000830622795132211573781094844407934083764872649466857132589051747121114393630804979548970425618715511304356196165186996484284136208509577719420965333802042113052693347879618571319261762112000695587023609221310927855419392

def c7SizesA : List Nat := [0, 0, 0, 0, 0, 0, 0, 0, 0, 0, 0, 0, 0, 0, 0, 0, 0, 0, 0, 0, 0, 0, 0, 0, 0, 0, 0, 0, 0, 0, 0, 0, 0, 0, 0, 0, 0, 0, 0, 0, 0, 0, 0, 0, 0, 0, 0, 0, 0, 0, 0, 0, 0, 0, 0, 0, 0, 0, 0, 0, 0, 0, 0, 0, 0, 0, 0, 0, 0, 0, 0, 0, 0, 0, 0, 0, 0, 0, 0, 0, 0, 0, 0, 0, 0, 0, 0, 0, 0, 0, 0, 0, 0, 0, 0, 0, 0, 2, 1, 0, 0, 0, 0, 0, 0, 0, 0, 0, 0, 0, 0, 0, 0, 0, 0, 0, 0, 0, 0, 0, 0, 0, 0, 0, 0, 0, 0, 0, 0]

def c7SizesB : List Nat := [0, 0, 0, 0, 0, 0, 0, 0, 0, 0, 0, 0, 0, 0, 0, 0, 0, 0, 0, 0, 0, 0, 0, 0, 0, 0, 0, 0, 0, 0, 0, 0, 0, 0, 0, 0, 0, 0, 0, 0, 0, 0, 0, 0, 0, 0, 0, 0, 0, 0, 0, 0, 0, 0, 0, 0, 0, 0, 0, 0, 0, 0, 0, 0, 0, 0, 0, 0, 0, 0, 0, 0, 0, 0, 0, 0, 0, 0, 0, 0, 0, 0, 0, 0, 0, 0, 0, 0, 0, 0, 0, 0, 0, 0, 0, 0, 0, 0, 0, 0, 0, 0, 0, 0, 0, 0, 0, 0, 0, 0, 0, 0, 0, 0, 0, 0, 0, 0, 0, 0, 0, 0, 0, 0, 0, 0, 0, 2, 0]

def c7P1 : RleState × Nat := (⟨(3 * ((2 ^ 32 - 1) / (2 ^ 16 - 1)) * 2 ^ 1552 + 1 * 2 ^ 4096 + 1 * ((2 ^ 32 - 1) / (2 ^ 16 - 1)) * 2 ^ 12304 + 1 * 2 ^ 12576), [18, 86, 2, 1], 30, 0⟩, 0)

def c7P2 : RleState × Nat := (⟨(3 * ((2 ^ 32 - 1) / (2 ^ 16 - 1)) * 2 ^ 1552 + 1 * 2 ^ 4096 + 1 * 2 ^ 12304 + 2 * 2 ^ 12320 + 3 * 2 ^ 12576), [18, 86, 2, 1, 18, 127, 18, 8, 2], 1, 0⟩, 0)

/-! Snapshots of the re-initialized session (claim C10): `c10S1` is the
closed session `c4S9` after a fresh `init` — its `m_dict`, `m_next`,
`lz_buf` and `out_buf` still hold the previous session's stale contents,
but every cursor, the hash heads, the Adler-32 and the sticky flag are
reset — and `c10F3`–`c10F9` run the empty-input terminal flush a second
time, delivering the same 18 bytes again. -/

def c10S1 : CompState where
  sink_present := true
  m_flags := 2147483748
  m_max_probes := 34
  m_greedy_parsing := false
  m_all_writes_succeeded := true
  m_adler32 := 1
  m_lookahead_pos := 0
  m_lookahead_size := 0
  m_dict_size := 0
  m_dict := 0
  m_next := 0
  m_hash := 2 ^ 65536 - 1
  lz_buf := 0
  lz_code_pos := 1
  lz_flags_pos := 0
  m_num_flags_left := 8
  out_buf := 87112286011265436930304568610072247468408
  out_pos := 2
  m_bits_in := 0
  m_bit_buffer := 0
  m_saved_match_dist := 0
  m_saved_match_len := 0
  m_saved_lit := 0
  m_huff_count := (1 * 2 ^ 4096 + 1 * ((2 ^ 32 - 1) / (2 ^ 16 - 1)) * 2 ^ 12288 + 2 * 2 ^ 12576)
  m_huff_codes := (1 * 2 ^ 12288 + 3 * 2 ^ 12304)
  m_huff_code_sizes := 752684088202547545336940141978922295256804099577552513086304092664266707287477985723350587522741182830427892873082236962620293498976238805503476009713789394102536684722085201428550148487368614945009414351010269377309931750732231065891860446819869267083512476161153476650805844912405738285858066651971997633462239551936129601339256918820088907133759996921373279464316159078609960893165066465400645184218110834697291788718927594765963632964580674993080921909289621451951032236202950074308540030503165312973491084553226819725232808704904997502326247669922580005537656357334001578462255502088687286328926848746193231398296005260949550096928010685742119185702819730684948959925157819826472304294256606561523416424786738656304564245748628722255097874225121612116508270378386145271856536429052500162597362314161602191141305798926183927599961803261898830654012821464881601318574510349901108160782106359483398166442564956691784429261894730423342340292315512179308597288551604116348106785065515119551105802401261376385677016605524115004383280679361516445797078414434141039778733333548665438534010871310622087325688204686879484247028754913415312261262704423631211200583014510837663270123993178041877603724879460429568170711092604421366980968853774575451783450283304553338062849460313040941211073494972560031453388373404640883262594994511989923703844325368708179552355775206757398679304924308585452099919144175311375757939572157357236172597139646883180829400260790130255627028307154583601193425663179612021486962129582924807102947520332301306987847232444942054417190921768800516279684694300754206410809420467451098947633424003443509097987251895877995311571045238440034572699236199680663074228595802849956010379814875453000298927946688102981652046751781047907261815812922125767683789232723581752647834893865131939279738657972549252411562768871072261362665912565259963751760929726716634902799562022674497536
  sink_calls := 1
  sink_out := [[120, 1, 5, 192, 129, 8, 0, 0, 0, 0, 32, 127, 235, 3, 0, 0, 0, 1]]
  fed := []
  tokens := []

def c10F3 : CompState where
  sink_present := true
  m_flags := 2147483748
  m_max_probes := 34
  m_greedy_parsing := false
  m_all_writes_succeeded := true
  m_adler32 := 1
  m_lookahead_pos := 0
  m_lookahead_size := 0
  m_dict_size := 0
  m_dict := 0
  m_next := 0
  m_hash := 2 ^ 65536 - 1
  lz_buf := 0
  lz_code_pos := 0
  lz_flags_pos := 0
  m_num_flags_left := 8
  out_buf := 87112286011265436930304568610072247468408
  out_pos := 2
  m_bits_in := 0
  m_bit_buffer := 0
  m_saved_match_dist := 0
  m_saved_match_len := 0
  m_saved_lit := 0
  m_huff_count := (1 * 2 ^ 4096 + 1 * ((2 ^ 32 - 1) / (2 ^ 16 - 1)) * 2 ^ 12288 + 2 * 2 ^ 12576)
  m_huff_codes := (1 * 2 ^ 12288 + 3 * 2 ^ 12304)
  m_huff_code_sizes := 752684088202547545336940141978922295256804099577552513086304092664266707287477985723350587522741182830427892873082236962620293498976238805503476009713789394102536684722085201428550148487368614945009414351010269377309931750732231065891860446819869267083512476161153476650805844912405738285858066651971997633462239551936129601339256918820088907133759996921373279464316159078609960893165066465400645184218110834697291788718927594765963632964580674993080921909289621451951032236202950074308540030503165312973491084553226819725232808704904997502326247669922580005537656357334001578462255502088687286328926848746193231398296005260949550096928010685742119185702819730684948959925157819826472304294256606561523416424786738656304564245748628722255097874225121612116508270378386145271856536429052500162597362314161602191141305798926183927599961803261898830654012821464881601318574510349901108160782106359483398166442564956691784429261894730423342340292315512179308597288551604116348106785065515119551105802401261376385677016605524115004383280679361516445797078414434141039778733333548665438534010871310622087325688204686879484247028754913415312261262704423631211200583014510837663270123993178041877603724879460429568170711092604421366980968853774575451783450283304553338062849460313040941211073494972560031453388373404640883262594994511989923703844325368708179552355775206757398679304924308585452099919144175311375757939572157357236172597139646883180829400260790130255627028307154583601193425663179612021486962129582924807102947520332301306987847232444942054417190921768800516279684694300754206410809420467451098947633424003443509097987251895877995311571045238440034572699236199680663074228595802849956010379814875453000298927946688102981652046751781047907261815812922125767683789232723581752647834893865131939279738657972549252411562768871072261362665912565259963751760929726716634902799562022674497536
  sink_calls := 1
  sink_out := [[120, 1, 5, 192, 129, 8, 0, 0, 0, 0, 32, 127, 235, 3, 0, 0, 0, 1]]
  fed := []
  tokens := []

def c10F4 : CompState where
  sink_present := true
  m_flags := 2147483748
  m_max_probes := 34
  m_greedy_parsing := false
  m_all_writes_succeeded := true
  m_adler32 := 1
  m_lookahead_pos := 0
  m_lookahead_size := 0
  m_dict_size := 0
  m_dict := 0
  m_next := 0
  m_hash := 2 ^ 65536 - 1
  lz_buf := 0
  lz_code_pos := 0
  lz_flags_pos := 0
  m_num_flags_left := 8
  out_buf := 87112286011265436930304568610072247468408
  out_pos := 2
  m_bits_in := 0
  m_bit_buffer := 0
  m_saved_match_dist := 0
  m_saved_match_len := 0
  m_saved_lit := 0
  m_huff_count := (1 * 2 ^ 4096 + 1 * ((2 ^ 32 - 1) / (2 ^ 16 - 1)) * 2 ^ 12288 + 2 * 2 ^ 12576)
  m_huff_codes := (1 * 2 ^ 12288 + 3 * 2 ^ 12304)
  m_huff_code_sizes := 752684088202547545336940141978922295256804099577552513086304092664266707287477985723350587522741182830427892873082236962620293498976238805503476009713789394102536684722085201428550148487368614945009414351010269377309931750732231065891860446819869267083512476161153476650805844912405738285858066651971997633462239551936129601339256918820088907133759996921373279464316159078609960893165066465400645184218110834697291788718927594765963632964580674993080921909289621451951032236202950074308540030503165312973491084553226819725232808704904997502326247669922580005537656357334001578462255502088687286328926848746193231398296005260949550096928010685742119185702819730684948959925157819826472304294256606561523416424786738656304564245748628722255097874225121612116508270378386145271856536429052500162597362314161602191141305798926183927599961803261898830654012821464881601318574510349901108160782106359483398166442564956691784429261894730423342340292315512179308597288551604116348106785065515119551105802401261376385677016605524115004383280679361516445797078414434141039778733333548665438534010871310622087325688204686879484247028754913415312261262704423631211200583014510837663270123993178041877603724879460429568170711092604421366980968853774575451783450283304553338062849460313040941211073494972560031453388373404640883262594994511989923703844325368708179552355775206757398679304924308585452099919144175311375757939572157357236172597139646883180829400260790130255627028307154583601193425663179612021486962129582924807102947520332301306987847232444942054417190921768800516279684694300754206410809420467451098947633424003443509097987251895877995311571045238440034572699236199680663074228595802849956010379814875453000298927946688102981652046751781047907261815812922125767683789232723581752647834893865131939279738657972549252411562768871072261362665912565259963751760929726716634902799562022674497536
  sink_calls := 1
  sink_out := [[120, 1, 5, 192, 129, 8, 0, 0, 0, 0, 32, 127, 235, 3, 0, 0, 0, 1]]
  fed := []
  tokens := []

def c10F4r : CompState where
  sink_present := true
  m_flags := 2147483748
  m_max_probes := 34
  m_greedy_parsing := false
  m_all_writes_succeeded := true
  m_adler32 := 1
  m_lookahead_pos := 0
  m_lookahead_size := 0
  m_dict_size := 0
  m_dict := 0
  m_next := 0
  m_hash := 2 ^ 65536 - 1
  lz_buf := 0
  lz_code_pos := 0
  lz_flags_pos := 0
  m_num_flags_left := 8
  out_buf := 87112286011265436930304568610072247468408
  out_pos := 2
  m_bits_in := 0
  m_bit_buffer := 0
  m_saved_match_dist := 0
  m_saved_match_len := 0
  m_saved_lit := 0
  m_huff_count := (1 * 2 ^ 4096 + 1 * ((2 ^ 32 - 1) / (2 ^ 16 - 1)) * 2 ^ 12288 + 2 * 2 ^ 12576)
  m_huff_codes := (1 * 2 ^ 12288 + 3 * 2 ^ 12304)
  m_huff_code_sizes := 752684088202547545336940141978922295256804099577552513086304092664266707287477985723350587522741182830427892873082236962620293498976238805503476009713789394102536684722085201428550148487368614945009414351010269377309931750732231065891860446819869267083512476161153476650805844912405738285858066651971997633462239551936129601339256918820088907133759996921373279464316159078609960893165066465400645184218110834697291788718927594765963632964580674993080921909289621451951032236202950074308540030503165312973491084553226819725232808704904997502326247669922580005537656357334001578462255502088687286328926848746193231398296005260949550096928010685742119185702819730684948959925157819826472304294256606561523416424786738656304564245748628722255097874225121612116508270378386145271856536429052500162597362314161602191141305798926183927599961803261898830654012821464881601318574510349901108160782106359483398166442564956691784429261894730423342340292315512179308597288551604116348106785065515119551105802401261376385677016605524115004383280679361516445797078414434141039778733333548665438534010871310622087325688204686879484247028754913415312261262704423631211200583014510837663270123993178041877603724879460429568170711092604421366980968853774575451783450283304553338062849460313040941211073494972560031453388373404640883262594994511989923703844325368708179552355775206757398679304924308585452099919144175311375757939572157357236172597139646883180829400260790130255627028307154583601193425663179612021486962129582924807102947520332301306987847232444942054417190921768800516279684694300754206410809420467451098947633424003443509097987251895877995311571045238440034572699236199680663074228595802849956010379814875453000298927946688102981652046751781047907261815812922125767683789232723581752647834893865131939279738657972549252411562768871072261362665912565259963751760929726716634902799562022674497536
  sink_calls := 1
  sink_out := [[120, 1, 5, 192, 129, 8, 0, 0, 0, 0, 32, 127, 235, 3, 0, 0, 0, 1]]
  fed := []
  tokens := []

def c10F5 : CompState where
  sink_present := true
  m_flags := 2147483748
  m_max_probes := 34
  m_greedy_parsing := false
  m_all_writes_succeeded := true
  m_adler32 := 1
  m_lookahead_pos := 0
  m_lookahead_size := 0
  m_dict_size := 0
  m_dict := 0
  m_next := 0
  m_hash := 2 ^ 65536 - 1
  lz_buf := 0
  lz_code_pos := 0
  lz_flags_pos := 0
  m_num_flags_left := 8
  out_buf := 87112286011265436930304568610072247468408
  out_pos := 2
  m_bits_in := 0
  m_bit_buffer := 0
  m_saved_match_dist := 0
  m_saved_match_len := 0
  m_saved_lit := 0
  m_huff_count := (1 * 2 ^ 4096 + 1 * ((2 ^ 32 - 1) / (2 ^ 16 - 1)) * 2 ^ 12288 + 2 * 2 ^ 12576)
  m_huff_codes := (1 * 2 ^ 12288 + 3 * 2 ^ 12304)
  m_huff_code_sizes := 752684088202547545336940141978922295256804099577552513086304092664266707287477985723350587522741182830427892873082236962620293498976238805503476009713789394102536684722085201428550148487368614945009414351010269377309931750732231065891860446819869267083512476161153476650805844912405738285858066651971997633462239551936129601339256918820088907133759996921373279464316159078609960893165066465400645184218110834697291788718927594765963632964580674993080921909289621451951032236202950074308540030503165312973491084553226819725232808704904997502326247669922580005537656357334001578462255502088687286328926848746193231398296005260949550096928010685742119185702819730684948959925157819826472304294256606561523416424786738656304564245748628722255097874225121612116508270378386145271856536429052500162597362314161602191141305798926183927599961803261898830654012821464881601318574510349901108160782106359483398166442564956691784429261894730423342340292315512179308597288551604116348106785065515119551105802401261376385677016605524115004383280679361516445797078414434141039778733333548665438534010871310622087325688204686879484247028754913415312261262704423631211200583014510837663270123993178041877603724879460429568170711092604421366980968853774575451783450283304553338062849460313040941211073494972560031453388373404640883262594994511989923703844325368708179552355775206757398679304924308585452099919144175311375757939572157357236172597139646883180829400260790130255627028307154583601193425663179612021486962129582924807102947520332301306987847232444942054417190921768800516279684694300754206410809420467451098947633424003443509097987251895877995311571045238440034572699236199680663074228595802849956010379814875453000298927946688102981652046751781047907261815812922125767683789232723581752647834893865131939279738657972549252411562768871072261362665912565259963751760929726716634902799562022674497536
  sink_calls := 1
  sink_out := [[120, 1, 5, 192, 129, 8, 0, 0, 0, 0, 32, 127, 235, 3, 0, 0, 0, 1]]
  fed := []
  tokens := []

def c10F5h : CompState where
  sink_present := true
  m_flags := 2147483748
  m_max_probes := 34
  m_greedy_parsing := false
  m_all_writes_succeeded := true
  m_adler32 := 1
  m_lookahead_pos := 0
  m_lookahead_size := 0
  m_dict_size := 0
  m_dict := 0
  m_next := 0
  m_hash := 2 ^ 65536 - 1
  lz_buf := 0
  lz_code_pos := 0
  lz_flags_pos := 0
  m_num_flags_left := 8
  out_buf := 87112286011265436930304568610072247468408
  out_pos := 10
  m_bits_in := 7
  m_bit_buffer := 32
  m_saved_match_dist := 0
  m_saved_match_len := 0
  m_saved_lit := 0
  m_huff_count := (1 * 2 ^ 4096 + 1 * ((2 ^ 32 - 1) / (2 ^ 16 - 1)) * 2 ^ 12288 + 2 * 2 ^ 12576)
  m_huff_codes := (1 * 2 ^ 12288 + 3 * 2 ^ 12304)
  m_huff_code_sizes := 752684088202547545336940141978922295256804099577552513086304092664266707287477985723350587522741182830427892873082236962620293498976238805503476009713789394102536684722085201428550148487368614945009414351010269377309931750732231065891860446819869267083512476161153476650805844912405738285858066651971997633462239551936129601339256918820088907133759996921373279464316159078609960893165066465400645184218110834697291788718927594765963632964580674993080921909289621451951032236202950074308540030503165312973491084553226819725232808704904997502326247669922580005537656357334001578462255502088687286328926848746193231398296005260949550096928010685742119185702819730684948959925157819826472304294256606561523416424786738656304564245748628722255097874225121612116508270378386145271856536429052500162597362314161602191141305798926183927599961803261898830654012821464881601318574510349901108160782106359483398166442564956691784429261894730423342340292315512179308597288551604116348106785065515119551105802401261376385677016605524115004383280679361516445797078414434141039778733333548665438534010871310622087325688204686879484247028754913415312261262704423631211200583014510837663270123993178041877603724879460429568170711092604421366980968853774575451783450283304553338062849460313040941211073494972560031453388373404640883262594994511989923703844325368708179552355775206757398679304924308585452099919144175311375757939572157357236172597139646883180829400260790130255627028307154583601193425663179612021486962129582924807102947520332301306987847232444942054417190921768800516279684694300754206410809420467451098947633424003443509097987251895877995311571045238440034572699236199680663074228595802849956010379814875453000298927946688102981652046751781047907261815812922125767683789232723581752647834893865131939279738657972549252411562768871072261362665912565259963751760929726716634902799562022674497536
  sink_calls := 1
  sink_out := [[120, 1, 5, 192, 129, 8, 0, 0, 0, 0, 32, 127, 235, 3, 0, 0, 0, 1]]
  fed := []
  tokens := []

def c10F6 : CompState where
  sink_present := true
  m_flags := 2147483748
  m_max_probes := 34
  m_greedy_parsing := false
  m_all_writes_succeeded := true
  m_adler32 := 1
  m_lookahead_pos := 0
  m_lookahead_size := 0
  m_dict_size := 0
  m_dict := 0
  m_next := 0
  m_hash := 2 ^ 65536 - 1
  lz_buf := 0
  lz_code_pos := 0
  lz_flags_pos := 0
  m_num_flags_left := 8
  out_buf := 87112286011265436930304568610072247468408
  out_pos := 13
  m_bits_in := 3
  m_bit_buffer := 3
  m_saved_match_dist := 0
  m_saved_match_len := 0
  m_saved_lit := 0
  m_huff_count := (1 * 2 ^ 4096 + 1 * ((2 ^ 32 - 1) / (2 ^ 16 - 1)) * 2 ^ 12288 + 2 * 2 ^ 12576)
  m_huff_codes := (1 * 2 ^ 12288 + 3 * 2 ^ 12304)
  m_huff_code_sizes := 752684088202547545336940141978922295256804099577552513086304092664266707287477985723350587522741182830427892873082236962620293498976238805503476009713789394102536684722085201428550148487368614945009414351010269377309931750732231065891860446819869267083512476161153476650805844912405738285858066651971997633462239551936129601339256918820088907133759996921373279464316159078609960893165066465400645184218110834697291788718927594765963632964580674993080921909289621451951032236202950074308540030503165312973491084553226819725232808704904997502326247669922580005537656357334001578462255502088687286328926848746193231398296005260949550096928010685742119185702819730684948959925157819826472304294256606561523416424786738656304564245748628722255097874225121612116508270378386145271856536429052500162597362314161602191141305798926183927599961803261898830654012821464881601318574510349901108160782106359483398166442564956691784429261894730423342340292315512179308597288551604116348106785065515119551105802401261376385677016605524115004383280679361516445797078414434141039778733333548665438534010871310622087325688204686879484247028754913415312261262704423631211200583014510837663270123993178041877603724879460429568170711092604421366980968853774575451783450283304553338062849460313040941211073494972560031453388373404640883262594994511989923703844325368708179552355775206757398679304924308585452099919144175311375757939572157357236172597139646883180829400260790130255627028307154583601193425663179612021486962129582924807102947520332301306987847232444942054417190921768800516279684694300754206410809420467451098947633424003443509097987251895877995311571045238440034572699236199680663074228595802849956010379814875453000298927946688102981652046751781047907261815812922125767683789232723581752647834893865131939279738657972549252411562768871072261362665912565259963751760929726716634902799562022674497536
  sink_calls := 1
  sink_out := [[120, 1, 5, 192, 129, 8, 0, 0, 0, 0, 32, 127, 235, 3, 0, 0, 0, 1]]
  fed := []
  tokens := []

def c10F7 : CompState where
  sink_present := true
  m_flags := 2147483748
  m_max_probes := 34
  m_greedy_parsing := false
  m_all_writes_succeeded := true
  m_adler32 := 1
  m_lookahead_pos := 0
  m_lookahead_size := 0
  m_dict_size := 0
  m_dict := 0
  m_next := 0
  m_hash := 2 ^ 65536 - 1
  lz_buf := 0
  lz_code_pos := 1
  lz_flags_pos := 0
  m_num_flags_left := 8
  out_buf := 87112286011265436930304568610072247468408
  out_pos := 14
  m_bits_in := 0
  m_bit_buffer := 0
  m_saved_match_dist := 0
  m_saved_match_len := 0
  m_saved_lit := 0
  m_huff_count := (1 * 2 ^ 4096 + 1 * ((2 ^ 32 - 1) / (2 ^ 16 - 1)) * 2 ^ 12288 + 2 * 2 ^ 12576)
  m_huff_codes := (1 * 2 ^ 12288 + 3 * 2 ^ 12304)
  m_huff_code_sizes := 752684088202547545336940141978922295256804099577552513086304092664266707287477985723350587522741182830427892873082236962620293498976238805503476009713789394102536684722085201428550148487368614945009414351010269377309931750732231065891860446819869267083512476161153476650805844912405738285858066651971997633462239551936129601339256918820088907133759996921373279464316159078609960893165066465400645184218110834697291788718927594765963632964580674993080921909289621451951032236202950074308540030503165312973491084553226819725232808704904997502326247669922580005537656357334001578462255502088687286328926848746193231398296005260949550096928010685742119185702819730684948959925157819826472304294256606561523416424786738656304564245748628722255097874225121612116508270378386145271856536429052500162597362314161602191141305798926183927599961803261898830654012821464881601318574510349901108160782106359483398166442564956691784429261894730423342340292315512179308597288551604116348106785065515119551105802401261376385677016605524115004383280679361516445797078414434141039778733333548665438534010871310622087325688204686879484247028754913415312261262704423631211200583014510837663270123993178041877603724879460429568170711092604421366980968853774575451783450283304553338062849460313040941211073494972560031453388373404640883262594994511989923703844325368708179552355775206757398679304924308585452099919144175311375757939572157357236172597139646883180829400260790130255627028307154583601193425663179612021486962129582924807102947520332301306987847232444942054417190921768800516279684694300754206410809420467451098947633424003443509097987251895877995311571045238440034572699236199680663074228595802849956010379814875453000298927946688102981652046751781047907261815812922125767683789232723581752647834893865131939279738657972549252411562768871072261362665912565259963751760929726716634902799562022674497536
  sink_calls := 1
  sink_out := [[120, 1, 5, 192, 129, 8, 0, 0, 0, 0, 32, 127, 235, 3, 0, 0, 0, 1]]
  fed := []
  tokens := []

def c10F7a : CompState where
  sink_present := true
  m_flags := 2147483748
  m_max_probes := 34
  m_greedy_parsing := false
  m_all_writes_succeeded := true
  m_adler32 := 0
  m_lookahead_pos := 0
  m_lookahead_size := 0
  m_dict_size := 0
  m_dict := 0
  m_next := 0
  m_hash := 2 ^ 65536 - 1
  lz_buf := 0
  lz_code_pos := 1
  lz_flags_pos := 0
  m_num_flags_left := 8
  out_buf := 87112286011265436930304568610072247468408
  out_pos := 18
  m_bits_in := 0
  m_bit_buffer := 0
  m_saved_match_dist := 0
  m_saved_match_len := 0
  m_saved_lit := 0
  m_huff_count := (1 * 2 ^ 4096 + 1 * ((2 ^ 32 - 1) / (2 ^ 16 - 1)) * 2 ^ 12288 + 2 * 2 ^ 12576)
  m_huff_codes := (1 * 2 ^ 12288 + 3 * 2 ^ 12304)
  m_huff_code_sizes := 752684088202547545336940141978922295256804099577552513086304092664266707287477985723350587522741182830427892873082236962620293498976238805503476009713789394102536684722085201428550148487368614945009414351010269377309931750732231065891860446819869267083512476161153476650805844912405738285858066651971997633462239551936129601339256918820088907133759996921373279464316159078609960893165066465400645184218110834697291788718927594765963632964580674993080921909289621451951032236202950074308540030503165312973491084553226819725232808704904997502326247669922580005537656357334001578462255502088687286328926848746193231398296005260949550096928010685742119185702819730684948959925157819826472304294256606561523416424786738656304564245748628722255097874225121612116508270378386145271856536429052500162597362314161602191141305798926183927599961803261898830654012821464881601318574510349901108160782106359483398166442564956691784429261894730423342340292315512179308597288551604116348106785065515119551105802401261376385677016605524115004383280679361516445797078414434141039778733333548665438534010871310622087325688204686879484247028754913415312261262704423631211200583014510837663270123993178041877603724879460429568170711092604421366980968853774575451783450283304553338062849460313040941211073494972560031453388373404640883262594994511989923703844325368708179552355775206757398679304924308585452099919144175311375757939572157357236172597139646883180829400260790130255627028307154583601193425663179612021486962129582924807102947520332301306987847232444942054417190921768800516279684694300754206410809420467451098947633424003443509097987251895877995311571045238440034572699236199680663074228595802849956010379814875453000298927946688102981652046751781047907261815812922125767683789232723581752647834893865131939279738657972549252411562768871072261362665912565259963751760929726716634902799562022674497536
  sink_calls := 1
  sink_out := [[120, 1, 5, 192, 129, 8, 0, 0, 0, 0, 32, 127, 235, 3, 0, 0, 0, 1]]
  fed := []
  tokens := []

def c10F8 : CompState where
  sink_present := true
  m_flags := 2147483748
  m_max_probes := 34
  m_greedy_parsing := false
  m_all_writes_succeeded := true
  m_adler32 := 0
  m_lookahead_pos := 0
  m_lookahead_size := 0
  m_dict_size := 0
  m_dict := 0
  m_next := 0
  m_hash := 2 ^ 65536 - 1
  lz_buf := 0
  lz_code_pos := 1
  lz_flags_pos := 0
  m_num_flags_left := 8
  out_buf := 87112286011265436930304568610072247468408
  out_pos := 0
  m_bits_in := 0
  m_bit_buffer := 0
  m_saved_match_dist := 0
  m_saved_match_len := 0
  m_saved_lit := 0
  m_huff_count := (1 * 2 ^ 4096 + 1 * ((2 ^ 32 - 1) / (2 ^ 16 - 1)) * 2 ^ 12288 + 2 * 2 ^ 12576)
  m_huff_codes := (1 * 2 ^ 12288 + 3 * 2 ^ 12304)
  m_huff_code_sizes := 752684088202547545336940141978922295256804099577552513086304092664266707287477985723350587522741182830427892873082236962620293498976238805503476009713789394102536684722085201428550148487368614945009414351010269377309931750732231065891860446819869267083512476161153476650805844912405738285858066651971997633462239551936129601339256918820088907133759996921373279464316159078609960893165066465400645184218110834697291788718927594765963632964580674993080921909289621451951032236202950074308540030503165312973491084553226819725232808704904997502326247669922580005537656357334001578462255502088687286328926848746193231398296005260949550096928010685742119185702819730684948959925157819826472304294256606561523416424786738656304564245748628722255097874225121612116508270378386145271856536429052500162597362314161602191141305798926183927599961803261898830654012821464881601318574510349901108160782106359483398166442564956691784429261894730423342340292315512179308597288551604116348106785065515119551105802401261376385677016605524115004383280679361516445797078414434141039778733333548665438534010871310622087325688204686879484247028754913415312261262704423631211200583014510837663270123993178041877603724879460429568170711092604421366980968853774575451783450283304553338062849460313040941211073494972560031453388373404640883262594994511989923703844325368708179552355775206757398679304924308585452099919144175311375757939572157357236172597139646883180829400260790130255627028307154583601193425663179612021486962129582924807102947520332301306987847232444942054417190921768800516279684694300754206410809420467451098947633424003443509097987251895877995311571045238440034572699236199680663074228595802849956010379814875453000298927946688102981652046751781047907261815812922125767683789232723581752647834893865131939279738657972549252411562768871072261362665912565259963751760929726716634902799562022674497536
  sink_calls := 2
  sink_out := [[120, 1, 5, 192, 129, 8, 0, 0, 0, 0, 32, 127, 235, 3, 0, 0, 0, 1], [120, 1, 5, 192, 129, 8, 0, 0, 0, 0, 32, 127, 235, 3, 0, 0, 0, 1]]
  fed := []
  tokens := []

def c10F9 : CompState where
  sink_present := false
  m_flags := 2147483748
  m_max_probes := 34
  m_greedy_parsing := false
  m_all_writes_succeeded := true
  m_adler32 := 0
  m_lookahead_pos := 0
  m_lookahead_size := 0
  m_dict_size := 0
  m_dict := 0
  m_next := 0
  m_hash := 2 ^ 65536 - 1
  lz_buf := 0
  lz_code_pos := 1
  lz_flags_pos := 0
  m_num_flags_left := 8
  out_buf := 87112286011265436930304568610072247468408
  out_pos := 0
  m_bits_in := 0
  m_bit_buffer := 0
  m_saved_match_dist := 0
  m_saved_match_len := 0
  m_saved_lit := 0
  m_huff_count := (1 * 2 ^ 4096 + 1 * ((2 ^ 32 - 1) / (2 ^ 16 - 1)) * 2 ^ 12288 + 2 * 2 ^ 12576)
  m_huff_codes := (1 * 2 ^ 12288 + 3 * 2 ^ 12304)
  m_huff_code_sizes := 752684088202547545336940141978922295256804099577552513086304092664266707287477985723350587522741182830427892873082236962620293498976238805503476009713789394102536684722085201428550148487368614945009414351010269377309931750732231065891860446819869267083512476161153476650805844912405738285858066651971997633462239551936129601339256918820088907133759996921373279464316159078609960893165066465400645184218110834697291788718927594765963632964580674993080921909289621451951032236202950074308540030503165312973491084553226819725232808704904997502326247669922580005537656357334001578462255502088687286328926848746193231398296005260949550096928010685742119185702819730684948959925157819826472304294256606561523416424786738656304564245748628722255097874225121612116508270378386145271856536429052500162597362314161602191141305798926183927599961803261898830654012821464881601318574510349901108160782106359483398166442564956691784429261894730423342340292315512179308597288551604116348106785065515119551105802401261376385677016605524115004383280679361516445797078414434141039778733333548665438534010871310622087325688204686879484247028754913415312261262704423631211200583014510837663270123993178041877603724879460429568170711092604421366980968853774575451783450283304553338062849460313040941211073494972560031453388373404640883262594994511989923703844325368708179552355775206757398679304924308585452099919144175311375757939572157357236172597139646883180829400260790130255627028307154583601193425663179612021486962129582924807102947520332301306987847232444942054417190921768800516279684694300754206410809420467451098947633424003443509097987251895877995311571045238440034572699236199680663074228595802849956010379814875453000298927946688102981652046751781047907261815812922125767683789232723581752647834893865131939279738657972549252411562768871072261362665912565259963751760929726716634902799562022674497536
  sink_calls := 2
  sink_out := [[120, 1, 5, 192, 129, 8, 0, 0, 0, 0, 32, 127, 235, 3, 0, 0, 0, 1], [120, 1, 5, 192, 129, 8, 0, 0, 0, 0, 32, 127, 235, 3, 0, 0, 0, 1]]
  fed := []
  tokens := []

def c10Cnt0 : Nat := 1044388881413152506691752710716624382579964249047383780384233483283953907971557456848826811934997558340890106714439262837987573438185793607263236087851365277945956976543709998340361590134383718314428070011855946226376318839397712745672334684344586617496807908705803704071284048740118609114467977783598029006686938976881787785946905630190260940599579453432823469303026696443059025015972399867714215541693835559885291486318237914434496734087811872639496475100189041349008417061675093668333850551032972088269550769983616369411933015213796825837188091833656751221318492846368125550225998300412344784862595674492194617023806505913245610825731835380087608622102834270197698202313169017678006675195485079921636419370285375124784014907159135459982790513399611551794271106831134090584272884279791554849782954323534517065223269061394905987693002122963395687782878948440616007412945674919823050571642377154816321380631045902916136926708342856440730447899971901781465763473223850267253059899795996090799469201774624817718449867455659250178329070473119433165550807568221846571746373296884912819520317457002440926616910874148385078411929804522981857338977648103126085903001302413467189726673216491511131602920781738033436090243804708340403154190336

def c10SizesA : List Nat := [0, 0, 0, 0, 0, 0, 0, 0, 0, 0, 0, 0, 0, 0, 0, 0, 0, 0, 0, 0, 0, 0, 0, 0, 0, 0, 0, 0, 0, 0, 0, 0, 0, 0, 0, 0, 0, 0, 0, 0, 0, 0, 0, 0, 0, 0, 0, 0, 0, 0, 0, 0, 0, 0, 0, 0, 0, 0, 0, 0, 0, 0, 0, 0, 0, 0, 0, 0, 0, 0, 0, 0, 0, 0, 0, 0, 0, 0, 0, 0, 0, 0, 0, 0, 0, 0, 0, 0, 0, 0, 0, 0, 0, 0, 0, 0, 0, 0, 0, 0, 0, 0, 0, 0, 0, 0, 0, 0, 0, 0, 0, 0, 0, 0, 0, 0, 0, 0, 0, 0, 0, 0, 0, 0, 0, 0, 0, 0, 0]

def c10SizesB : List Nat := [0, 0, 0, 0, 0, 0, 0, 0, 0, 0, 0, 0, 0, 0, 0, 0, 0, 0, 0, 0, 0, 0, 0, 0, 0, 0, 0, 0, 0, 0, 0, 0, 0, 0, 0, 0, 0, 0, 0, 0, 0, 0, 0, 0, 0, 0, 0, 0, 0, 0, 0, 0, 0, 0, 0, 0, 0, 0, 0, 0, 0, 0, 0, 0, 0, 0, 0, 0, 0, 0, 0, 0, 0, 0, 0, 0, 0, 0, 0, 0, 0, 0, 0, 0, 0, 0, 0, 0, 0, 0, 0, 0, 0, 0, 0, 0, 0, 0, 0, 0, 0, 0, 0, 0, 0, 0, 0, 0, 0, 0, 0, 0, 0, 0, 0, 0, 0, 0, 0, 0, 0, 0, 0, 0, 0, 0, 0, 1, 0]

def c10P1 : RleState × Nat := (⟨1044388881413152506691752710716624382579964249047383780384233483283953907971557456848826811934997558340890106714439262837987573438185793607263236087851365277945956976543709998340361590134383718314428070011855946226376318839397712745672334684344586617496807908705803704071284048740118609114467977783598029006686938976881787785946905630190260940599579453432823469303026696443059025015972399867714215541693835559885291486318237914434496734087811872639496475100189041349008417061675093668333850551032972088269550769983616369411933015213796825837188091833656751221318492846368125550225998300412344784862595674492194617023806505913245610825731835380087608622102834270197698202313169017678006675195485079921636419370285375124784014907159135459982790513399611551794271106831134090584272884279791554849782954323534517065223269061394905987693002122963395687782878948440616007412945674919823050571642377154816321380631045902916136926708342856440730447899971901781465763473223850267253059899795996090799469201774624817718449867455659250178329070473119433165550807568221846571746373296884912819520317457002440926616910874148385078411929804522981857338977648103126085903001302413467189726673216491511131602920781738033436090243804708340403154190336, [], 129, 0⟩, 0)

def c10P2 : RleState × Nat := (⟨(1 * 2 ^ 4096 + 1 * 2 ^ 12304 + 2 * 2 ^ 12576), [18, 127, 18, 107, 1], 1, 0⟩, 0)

/-- The code-length vector of Huffman table `t` (first `n` symbols) in a
state, as written by `optimize_huffman_table` (claim C3). -/
def tableSizes (s : CompState) (t n : Nat) : List Nat :=
  (List.range n).map (h8Get s.m_huff_code_sizes t)

/-- The Kraft sum of a code-length vector, scaled by `2 ^ cap`: active
symbols (nonzero length) contribute `2 ^ (cap - len)`, so the Kraft
equality "sum of 2^(-len) over active symbols = 1" reads
`kraftSum sizes cap = 2 ^ cap` (claim C3). -/
def kraftSum (sizes : List Nat) (cap : Nat) : Nat :=
  sizes.foldl (fun acc l => acc + if l = 0 then 0 else 2 ^ (cap - l)) 0

/-- How many symbols of a code-length vector are active (claim C3). -/
def activeCount (sizes : List Nat) : Nat :=
  (sizes.filter (fun l => l ≠ 0)).length

/-! ## Theorems -/

set_option exponentiation.threshold 1000000
set_option maxRecDepth 5000

theorem rleFold_append (p : RleState × Nat) (a b : List Nat) :
    rleFold p (a ++ b) = rleFold (rleFold p a) b := by
  simp [rleFold]

/-- Running the compression loop body `a + b` times is running it `a`
times and then `b` more. -/
theorem compressIterN_add (sinkOk : Nat → Bool) (srcNull : Bool)
    (p : CompState × List Nat × Bool) (a b : Nat) :
    compressIterN sinkOk srcNull p (a + b) =
      compressIterN sinkOk srcNull (compressIterN sinkOk srcNull p a) b := by
  induction a generalizing p with
  | zero => rw [Nat.zero_add]; rfl
  | succ a ih => rw [Nat.succ_add]; exact ih (compressIter sinkOk srcNull p)

/-- Once the loop has exited, further iterations change nothing. -/
theorem compressIter_done (sinkOk : Nat → Bool) (srcNull : Bool) (s : CompState)
    (src : List Nat) :
    compressIter sinkOk srcNull (s, src, true) = (s, src, true) := rfl

theorem c4_stage_init : (init sinkTrue (freshState 0 0 0 0) true flagsDefaultZlib).1 = c4S1 := by
  decide

theorem c4_stage_prep : fb_prep sinkTrue c4S1 = c4S3 := by decide

theorem c4_stage_b1 : sdb_build1 c4S3 = (c4S4, 257, 1) := by decide

theorem c4_rle_h1 :
    rleFold ({ cnt := c4Cnt0, packed := [], rle_z_count := 0, rle_repeat_count := 0 }, 0xFF)
      c4SizesA = c4P1 := by decide

theorem c4_rle_h2 : rleFold c4P1 c4SizesB = c4P2 := by decide

theorem c4_stage_rle : sdb_rle c4S4 257 1 = (c4S4r, [18, 127, 18, 107, 1, 0]) := by
  have h0 : aClear 16 c4S4.m_huff_count (2 * 384) MAX_HUFF_SYMBOLS_2 = c4Cnt0 := by decide
  have hsz : sizesToPack c4S4 257 1 = c4SizesA ++ c4SizesB := by decide
  simp only [sdb_rle, rleLoop, h0, hsz, rleFold_append, c4_rle_h1, c4_rle_h2]
  decide

theorem c4_stage_opt2 : optimize_huffman_table c4S4r 2 MAX_HUFF_SYMBOLS_2 7 = c4S5 := by decide

theorem c4_stage_b2 : sdb_build2 c4S4 257 1 = (c4S5, [18, 127, 18, 107, 1, 0]) := by
  simp only [sdb_build2, c4_stage_rle, c4_stage_opt2]

theorem c4_stage_emit_h : sdb_emit_header sinkTrue c4S5 true 257 1 = c4S5h := by decide

theorem c4_stage_emit_p : emitPacked sinkTrue c4S5h [18, 127, 18, 107, 1, 0] = c4S6 := by decide

theorem c4_stage_sdb : start_dynamic_block sinkTrue c4S3 true = c4S6 := by
  simp only [start_dynamic_block, c4_stage_b1, c4_stage_b2, sdb_emit, c4_stage_emit_h,
    c4_stage_emit_p]

theorem c4_stage_fbe : fb_emit sinkTrue c4S6 true = c4S7 := by decide

theorem c4_stage_fb : flush_block sinkTrue c4S1 true = c4S7 := by
  simp only [flush_block, c4_stage_prep, c4_stage_sdb, c4_stage_fbe]

theorem c4_stage_adl : emitAdler sinkTrue c4S7 = c4S7a := by decide

theorem c4_stage_fob : flush_output_buffer sinkTrue c4S7a = c4S8 := by decide

theorem c4_stage_fin : cd_finish sinkTrue c4S1 = c4S9 := by
  have h1 : ¬ (c4S1.m_saved_match_len ≠ 0) := by decide
  have h2 : c4S7.m_flags &&& WRITE_ZLIB_HEADER ≠ 0 := by decide
  simp only [cd_finish, h1, if_false, ite_false, h2, if_true, ite_true, c4_stage_fb,
    c4_stage_adl, c4_stage_fob]
  decide

theorem c4_session : runSession 0 0 0 0 sinkTrue flagsDefaultZlib [] = c4S9 := by
  have hn : ¬ (¬ c4S1.sink_present ∨ ¬ c4S1.m_all_writes_succeeded) := by decide
  have hz : c4S1.m_flags &&& WRITE_ZLIB_HEADER ≠ 0 := by decide
  have had : ({ c4S1 with m_adler32 := adler32 [] c4S1.m_adler32 } : CompState) = c4S1 := by
    decide
  have hloop : compressLoop sinkTrue c4S1 [] true (0 + c4S1.m_lookahead_size + 1) = c4S1 := by
    decide
  have haws : c4S9.m_all_writes_succeeded = true := by decide
  simp only [runSession, List.foldl_nil, c4_stage_init, compress_data, hn, if_false, ite_false,
    hz, if_true, ite_true, had, ite_self, List.length_nil, hloop, c4_stage_fin]

/-- C4 (amended): compressing the empty byte sequence in a session
initialized with zlib framing and default flags, then terminally flushed,
delivers exactly the 18 bytes
78 01 05 C0 81 08 00 00 00 00 20 7F EB 03 00 00 00 01 to the sink: a
zlib header, one dynamic-Huffman block coding only the end-of-block
symbol, and the Adler-32 trailer. -/
theorem C4_empty_input_bytes :
    sinkBytes (runSession 0 0 0 0 sinkTrue flagsDefaultZlib []) =
    [0x78, 0x01, 0x05, 0xC0, 0x81, 0x08, 0x00, 0x00, 0x00, 0x00, 0x20, 0x7F, 0xEB,
     0x03, 0x00, 0x00, 0x00, 0x01] := by
  rw [c4_session]; decide

/-- C4 (counterexample to the spec's byte list): the empty-input session
does not produce the claimed bytes 78 01 03 00 00 00 00 01 — that string
encodes a static-Huffman empty block, but this compressor always emits
dynamic blocks. -/
theorem C4_empty_input_not_spec_bytes :
    sinkBytes (runSession 0 0 0 0 sinkTrue flagsDefaultZlib []) ≠
    [0x78, 0x01, 0x03, 0x00, 0x00, 0x00, 0x00, 0x01] := by
  rw [c4_session]; decide

/-! ### Claim C5: the 258-byte run of 0x41 -/

theorem c5_adler : ({ c4S1 with
    m_adler32 := adler32 (List.replicate 258 65) c4S1.m_adler32 } : CompState) = c5A := by
  decide

theorem c5_iter1 : compressIter sinkTrue false (c5A, List.replicate 258 65, false) =
    (c5C, [], false) := by decide

theorem c5_iter2 : compressIter sinkTrue false (c5C, [], false) = (c5C, [], true) := by decide

theorem c5_titer1 : compressIter sinkTrue true (c5C, [], false) = (c5T, [], false) := by decide

theorem c5_titer2 : compressIter sinkTrue true (c5T, [], false) = (c5T, [], true) := by decide

theorem c5_prep : fb_prep sinkTrue c5T = c5F3 := by decide

theorem c5_b1 : sdb_build1 c5F3 = (c5F4, 285, 1) := by decide

theorem c5_rle_h1 :
    rleFold ({ cnt := c5Cnt0, packed := [], rle_z_count := 0, rle_repeat_count := 0 }, 0xFF)
      c5SizesA = c5P1 := by decide

theorem c5_rle_h2 : rleFold c5P1 c5SizesB = c5P2 := by decide

theorem c5_rle : sdb_rle c5F4 285 1 = (c5F4r, [18, 54, 2, 18, 127, 18, 41, 2, 18, 16, 1, 1]) := by
  have h0 : aClear 16 c5F4.m_huff_count (2 * 384) MAX_HUFF_SYMBOLS_2 = c5Cnt0 := by decide
  have hsz : sizesToPack c5F4 285 1 = c5SizesA ++ c5SizesB := by decide
  simp only [sdb_rle, rleLoop, h0, hsz, rleFold_append, c5_rle_h1, c5_rle_h2]
  decide

theorem c5_opt2 : optimize_huffman_table c5F4r 2 MAX_HUFF_SYMBOLS_2 7 = c5F5 := by decide

theorem c5_b2 : sdb_build2 c5F4 285 1 = (c5F5, [18, 54, 2, 18, 127, 18, 41, 2, 18, 16, 1, 1]) := by
  simp only [sdb_build2, c5_rle, c5_opt2]

theorem c5_emit_h : sdb_emit_header sinkTrue c5F5 true 285 1 = c5F5h := by decide

theorem c5_emit_p : emitPacked sinkTrue c5F5h [18, 54, 2, 18, 127, 18, 41, 2, 18, 16, 1, 1] = c5F6 := by
  decide

theorem c5_sdb : start_dynamic_block sinkTrue c5F3 true = c5F6 := by
  simp only [start_dynamic_block, c5_b1, c5_b2, sdb_emit, c5_emit_h, c5_emit_p]

theorem c5_fbe : fb_emit sinkTrue c5F6 true = c5F7 := by decide

theorem c5_fb : flush_block sinkTrue c5T true = c5F7 := by
  simp only [flush_block, c5_prep, c5_sdb, c5_fbe]

theorem c5_adl : emitAdler sinkTrue c5F7 = c5F7a := by decide

theorem c5_fob : flush_output_buffer sinkTrue c5F7a = c5F8 := by decide

theorem c5_fin : cd_finish sinkTrue c5T = c5F9 := by
  have h1 : ¬ (c5T.m_saved_match_len ≠ 0) := by decide
  have h2 : c5F7.m_flags &&& WRITE_ZLIB_HEADER ≠ 0 := by decide
  simp only [cd_finish, h1, if_false, ite_false, h2, if_true, ite_true, c5_fb, c5_adl, c5_fob]
  decide

theorem c5_chunk : (compress_data sinkTrue c4S1 false (List.replicate 258 65)).1 = c5C := by
  have hn : ¬ (¬ c4S1.sink_present ∨ ¬ c4S1.m_all_writes_succeeded) := by decide
  have hif : (if c4S1.m_flags &&& WRITE_ZLIB_HEADER ≠ 0 then
      ({ c4S1 with
        m_adler32 := adler32 (List.replicate 258 65) c4S1.m_adler32 } : CompState)
      else c4S1) = c5A := by decide
  have hf : (List.replicate 258 65).length + c5A.m_lookahead_size + 1 = 1 + (1 + 257) := by
    decide
  simp only [compress_data, hn, if_false, ite_false, hif, compressLoop, hf,
    compressIterN_add, compressIterN, c5_iter1, c5_iter2, compressIter_done,
    Bool.false_eq_true, ite_self]

theorem c5_term : (compress_data sinkTrue c5C true []).1 = c5F9 := by
  have hn : ¬ (¬ c5C.sink_present ∨ ¬ c5C.m_all_writes_succeeded) := by decide
  have hz : c5C.m_flags &&& WRITE_ZLIB_HEADER ≠ 0 := by decide
  have had : ({ c5C with m_adler32 := adler32 [] c5C.m_adler32 } : CompState) = c5C := by decide
  have hf : (List.length ([] : List Nat)) + c5C.m_lookahead_size + 1 = 1 + (1 + 256) := by decide
  simp only [compress_data, hn, if_false, ite_false, hz, not_false_eq_true, if_true,
    ite_true, ite_self, had, compressLoop, hf, compressIterN_add, compressIterN,
    c5_titer1, c5_titer2, compressIter_done, c5_fin]

theorem c5_session : runSession 0 0 0 0 sinkTrue flagsDefaultZlib [List.replicate 258 65] = c5F9 := by
  simp only [runSession, List.foldl_cons, List.foldl_nil, c4_stage_init, c5_chunk, c5_term]

/-- C5 (amended): feeding 258 copies of byte 0x41 to a default zlib
session and terminally flushing records the token sequence
[literal 0x41, match (length 257, distance 1)] — the first byte is spent
as a literal before any match can start, so the match has length 257,
not 258 — and the 22 delivered bytes decode (by a conformant zlib
inflater) back to the 258 input bytes. -/
theorem C5_long_run :
    (runSession 0 0 0 0 sinkTrue flagsDefaultZlib [List.replicate 258 65]).tokens =
      [Tok.lit 65, Tok.mtch 257 1] ∧
    zlibInflate (sinkBytes (runSession 0 0 0 0 sinkTrue flagsDefaultZlib
      [List.replicate 258 65])) = some (List.replicate 258 65) := by
  rw [c5_session]
  exact ⟨by decide, by decide⟩

/-- C5 (counterexample to the claimed length-258 match): the token
sequence of the 258-times-0x41 session contains no match token of length
258 and distance 1. -/
theorem C5_no_len258_match :
    Tok.mtch 258 1 ∉
      (runSession 0 0 0 0 sinkTrue flagsDefaultZlib [List.replicate 258 65]).tokens := by
  rw [c5_session]; decide


/-! ### Claim C9: null data pointer and the closed session -/

theorem c9_hif : (if c4S1.m_flags &&& WRITE_ZLIB_HEADER ≠ 0 then
    ({ c4S1 with m_adler32 := adler32 [65] c4S1.m_adler32 } : CompState)
    else c4S1) = c9A := by decide

theorem c9_iter1 : compressIter sinkTrue true (c9A, [65], false) = (c9B, [], false) := by
  decide

theorem c9_iter2 : compressIter sinkTrue true (c9B, [], false) = (c9B, [], true) := by decide

theorem c9_prep : fb_prep sinkTrue c9B = c9F3 := by decide

theorem c9_b1 : sdb_build1 c9F3 = (c9F4, 257, 1) := by decide

theorem c9_rle_h1 :
    rleFold ({ cnt := c9Cnt0, packed := [], rle_z_count := 0, rle_repeat_count := 0 }, 0xFF)
      c9SizesA = c9P1 := by decide

theorem c9_rle_h2 : rleFold c9P1 c9SizesB = c9P2 := by decide

theorem c9_rle : sdb_rle c9F4 257 1 = (c9F4r, [18, 54, 1, 18, 127, 18, 41, 1, 0]) := by
  have h0 : aClear 16 c9F4.m_huff_count (2 * 384) MAX_HUFF_SYMBOLS_2 = c9Cnt0 := by decide
  have hsz : sizesToPack c9F4 257 1 = c9SizesA ++ c9SizesB := by decide
  simp only [sdb_rle, rleLoop, h0, hsz, rleFold_append, c9_rle_h1, c9_rle_h2]
  decide

theorem c9_opt2 : optimize_huffman_table c9F4r 2 MAX_HUFF_SYMBOLS_2 7 = c9F5 := by decide

theorem c9_b2 : sdb_build2 c9F4 257 1 = (c9F5, [18, 54, 1, 18, 127, 18, 41, 1, 0]) := by
  simp only [sdb_build2, c9_rle, c9_opt2]

theorem c9_emit_h : sdb_emit_header sinkTrue c9F5 true 257 1 = c9F5h := by decide

theorem c9_emit_p : emitPacked sinkTrue c9F5h [18, 54, 1, 18, 127, 18, 41, 1, 0] = c9F6 := by
  decide

theorem c9_sdb : start_dynamic_block sinkTrue c9F3 true = c9F6 := by
  simp only [start_dynamic_block, c9_b1, c9_b2, sdb_emit, c9_emit_h, c9_emit_p]

theorem c9_fbe : fb_emit sinkTrue c9F6 true = c9F7 := by decide

theorem c9_fb : flush_block sinkTrue c9B true = c9F7 := by
  simp only [flush_block, c9_prep, c9_sdb, c9_fbe]

theorem c9_adl : emitAdler sinkTrue c9F7 = c9F7a := by decide

theorem c9_fob : flush_output_buffer sinkTrue c9F7a = c9F8 := by decide

theorem c9_fin : cd_finish sinkTrue c9B = c9F9 := by
  have h1 : ¬ (c9B.m_saved_match_len ≠ 0) := by decide
  have h2 : c9F7.m_flags &&& WRITE_ZLIB_HEADER ≠ 0 := by decide
  simp only [cd_finish, h1, if_false, ite_false, h2, if_true, ite_true, c9_fb, c9_adl,
    c9_fob]
  decide

theorem c9_term : compress_data sinkTrue c4S1 true [65] = (c9F9, true) := by
  have hn : ¬ (¬ c4S1.sink_present ∨ ¬ c4S1.m_all_writes_succeeded) := by decide
  have hf : [65].length + c9A.m_lookahead_size + 1 = 1 + 1 := by decide
  simp only [compress_data, hn, if_false, ite_false, c9_hif, compressLoop, hf,
    compressIterN_add, compressIterN, c9_iter1, c9_iter2, compressIter_done, c9_fin,
    ite_self, ite_true]
  decide

/-- C9 (counterexample to the null-pointer half): the code has no null
check — a call with a NULL data pointer and nonzero length processes
whatever bytes the undefined read yields (here one byte 0x41), flushes
everything to the sink, and returns true, not false. -/
theorem C9_null_nonzero_returns_true : (compress_data sinkTrue c4S1 true [65]).2 = true := by
  rw [c9_term]

/-- C9 (amended, the closed-session half): after the terminal flush has
cleared `m_pStream`, every further `compress_data` call — whatever its
arguments and sink — returns false and leaves the state (and thus the
sink) untouched. -/
theorem C9_closed_session_rejects (sinkOk : Nat → Bool) (s : CompState) (srcNull : Bool)
    (data : List Nat) (h : s.sink_present = false) :
    compress_data sinkOk s srcNull data = (s, false) := by
  simp [compress_data, h]

/-- Witness for C9: the concrete session closed by the C4 run rejects a
subsequent feed call. -/
theorem C9_closed_session_rejects_witness :
    c4S9.sink_present = false ∧ compress_data sinkTrue c4S9 false [65] = (c4S9, false) :=
  ⟨by decide, C9_closed_session_rejects sinkTrue c4S9 false [65] (by decide)⟩

theorem putBitsDrain_max_probes (sinkOk : Nat → Bool) (s : CompState) (fuel : Nat) :
    (putBitsDrain sinkOk s fuel).m_max_probes = s.m_max_probes := by
  induction fuel generalizing s with
  | zero => rfl
  | succ n ih =>
    simp only [putBitsDrain]
    split
    · split <;> simp [ih, flush_output_buffer] <;> split <;> simp
    · rfl

theorem putBits_max_probes (sinkOk : Nat → Bool) (s : CompState) (b l : Nat) :
    (putBits sinkOk s b l).m_max_probes = s.m_max_probes := by
  simp [putBits, putBitsDrain_max_probes]

/-- C6: the sink-failure flag is sticky — a failed `put_buf` during a
flush clears `m_all_writes_succeeded`; once it is false, a flush makes
no sink call and only resets the staging cursor, and every
`compress_data` call returns false with the state (and hence the sink)
untouched; a call during which the flag became false itself returns
false. -/
theorem C6_sticky_sink :
    (∀ sinkOk (s : CompState), s.m_all_writes_succeeded = true → 0 < s.out_pos →
        sinkOk s.sink_calls = false →
        (flush_output_buffer sinkOk s).m_all_writes_succeeded = false) ∧
    (∀ sinkOk (s : CompState), s.m_all_writes_succeeded = false →
        flush_output_buffer sinkOk s = { s with out_pos := 0 }) ∧
    (∀ sinkOk (s : CompState) srcNull data, s.m_all_writes_succeeded = false →
        compress_data sinkOk s srcNull data = (s, false)) ∧
    (∀ sinkOk (s : CompState) srcNull data, s.m_all_writes_succeeded = false →
        (compress_data sinkOk s srcNull data).1.m_all_writes_succeeded = false) ∧
    (∀ sinkOk (s : CompState) srcNull data,
        (compress_data sinkOk s srcNull data).1.m_all_writes_succeeded = false →
        (compress_data sinkOk s srcNull data).2 = false) := by
  have hb : ∀ sinkOk (s : CompState) srcNull data, s.m_all_writes_succeeded = false →
      compress_data sinkOk s srcNull data = (s, false) := by
    intro sinkOk s srcNull data h
    simp [compress_data, h]
  refine ⟨?_, ?_, hb, ?_, ?_⟩
  · intro sinkOk s h1 h2 h3
    simp [flush_output_buffer, h1, h2, h3]
  · intro sinkOk s h
    simp [flush_output_buffer, h]
  · intro sinkOk s srcNull data h
    rw [hb sinkOk s srcNull data h]
    exact h
  · intro sinkOk s srcNull data
    simp only [compress_data]
    split
    · intro _; rfl
    · intro h; exact h



/-! ### Claim C7: probe budget and zero-probe literal-only parsing -/

theorem c7_init : (init sinkTrue (freshState 0 0 0 0) true 0).1 = c7S1 := by decide

theorem c7_citer1 : compressIter sinkTrue false (c7S1, [97, 98, 97, 98, 97, 98], false) =
    (c7C, [], true) := by decide

theorem c7_chunk : (compress_data sinkTrue c7S1 false [97, 98, 97, 98, 97, 98]).1 = c7C := by
  have hn : ¬ (¬ c7S1.sink_present ∨ ¬ c7S1.m_all_writes_succeeded) := by decide
  have hnz : ¬ (c7S1.m_flags &&& WRITE_ZLIB_HEADER ≠ 0) := by decide
  have hf : [97, 98, 97, 98, 97, 98].length + c7S1.m_lookahead_size + 1 = 1 + 6 := by decide
  simp only [compress_data, hn, if_false, ite_false, hnz, compressLoop, hf,
    compressIterN_add, compressIterN, c7_citer1, compressIter_done, Bool.false_eq_true]

theorem c7_titer1 : compressIter sinkTrue true (c7C, [], false) = (c7T1, [], false) := by decide

theorem c7_titer2 : compressIter sinkTrue true (c7T1, [], false) = (c7T2, [], false) := by decide

theorem c7_titer3 : compressIter sinkTrue true (c7T2, [], false) = (c7T3, [], false) := by decide

theorem c7_titer4 : compressIter sinkTrue true (c7T3, [], false) = (c7T4, [], false) := by decide

theorem c7_titer5 : compressIter sinkTrue true (c7T4, [], false) = (c7T5, [], false) := by decide

theorem c7_titer6 : compressIter sinkTrue true (c7T5, [], false) = (c7T6, [], false) := by decide

theorem c7_titer7 : compressIter sinkTrue true (c7T6, [], false) = (c7T6, [], true) := by decide

theorem c7_prep : fb_prep sinkTrue c7T6 = c7F3 := by decide

theorem c7_b1 : sdb_build1 c7F3 = (c7F4, 257, 1) := by decide

theorem c7_rle_h1 :
    rleFold ({ cnt := c7Cnt0, packed := [], rle_z_count := 0, rle_repeat_count := 0 }, 0xFF)
      c7SizesA = c7P1 := by decide

theorem c7_rle_h2 : rleFold c7P1 c7SizesB = c7P2 := by decide

theorem c7_rle : sdb_rle c7F4 257 1 = (c7F4r, [18, 86, 2, 1, 18, 127, 18, 8, 2, 0]) := by
  have h0 : aClear 16 c7F4.m_huff_count (2 * 384) MAX_HUFF_SYMBOLS_2 = c7Cnt0 := by decide
  have hsz : sizesToPack c7F4 257 1 = c7SizesA ++ c7SizesB := by decide
  simp only [sdb_rle, rleLoop, h0, hsz, rleFold_append, c7_rle_h1, c7_rle_h2]
  decide

theorem c7_opt2 : optimize_huffman_table c7F4r 2 MAX_HUFF_SYMBOLS_2 7 = c7F5 := by decide

theorem c7_b2 : sdb_build2 c7F4 257 1 = (c7F5, [18, 86, 2, 1, 18, 127, 18, 8, 2, 0]) := by
  simp only [sdb_build2, c7_rle, c7_opt2]

theorem c7_emit_h : sdb_emit_header sinkTrue c7F5 true 257 1 = c7F5h := by decide

theorem c7_emit_p : emitPacked sinkTrue c7F5h [18, 86, 2, 1, 18, 127, 18, 8, 2, 0] = c7F6 := by
  decide

theorem c7_sdb : start_dynamic_block sinkTrue c7F3 true = c7F6 := by
  simp only [start_dynamic_block, c7_b1, c7_b2, sdb_emit, c7_emit_h, c7_emit_p]

theorem c7_fbe : fb_emit sinkTrue c7F6 true = c7F7 := by decide

theorem c7_fb : flush_block sinkTrue c7T6 true = c7F7 := by
  simp only [flush_block, c7_prep, c7_sdb, c7_fbe]

theorem c7_fob : flush_output_buffer sinkTrue c7F7 = c7F8 := by decide

theorem c7_fin : cd_finish sinkTrue c7T6 = c7F9 := by
  have h1 : ¬ (c7T6.m_saved_match_len ≠ 0) := by decide
  have h2 : ¬ (c7F7.m_flags &&& WRITE_ZLIB_HEADER ≠ 0) := by decide
  simp only [cd_finish, h1, if_false, ite_false, h2, c7_fb, c7_fob]
  decide

theorem c7_term : (compress_data sinkTrue c7C true []).1 = c7F9 := by
  have hn : ¬ (¬ c7C.sink_present ∨ ¬ c7C.m_all_writes_succeeded) := by decide
  have hnz : ¬ (c7C.m_flags &&& WRITE_ZLIB_HEADER ≠ 0) := by decide
  have hf : (List.length ([] : List Nat)) + c7C.m_lookahead_size + 1 = 1 + (1 + (1 + (1 + (1 + (1 + 1))))) := by decide
  simp only [compress_data, hn, if_false, ite_false, hnz, compressLoop, hf,
    compressIterN_add, compressIterN, c7_titer1, c7_titer2, c7_titer3, c7_titer4,
    c7_titer5, c7_titer6, c7_titer7, compressIter_done, c7_fin, ite_true, if_true]

theorem c7_session : runSession 0 0 0 0 sinkTrue 0 [[97, 98, 97, 98, 97, 98]] = c7F9 := by
  simp only [runSession, List.foldl_cons, List.foldl_nil, c7_init, c7_chunk, c7_term]


/-- C7: for every flags value, `init` sets the probe budget
`m_max_probes` to ((flags AND 0xFFF) + 2) / 3; with a zero budget
`find_match` performs no probes and returns its caller's running match
unchanged; and in the concrete zero-budget session (flags 0) every input
byte is recorded as a literal token. -/
theorem C7_probe_budget :
    (∀ sinkOk (s : CompState) flags,
        ((init sinkOk s true flags).1).m_max_probes = ((flags &&& 0xFFF) + 2) / 3) ∧
    (∀ (s : CompState) pos max_dist max_match_len match_dist match_len,
        s.m_max_probes = 0 →
        find_match s pos max_dist max_match_len match_dist match_len =
          (s, match_dist, match_len)) ∧
    (runSession 0 0 0 0 sinkTrue 0 [[97, 98, 97, 98, 97, 98]]).tokens =
      [97, 98, 97, 98, 97, 98].map Tok.lit := by
  refine ⟨?_, ?_, ?_⟩
  · intro sinkOk s flags
    simp only [init]
    split
    · next h => simp at h
    · split <;> simp only [putBits_max_probes] <;> split <;> rfl
  · intro s pos md mml mdist mlen h
    rw [find_match]
    split
    · rfl
    · rw [h]; rfl
  · rw [c7_session]; decide


/-! ### Claim C10: re-initialization after the terminal flush -/

theorem c10_reinit : init sinkTrue c4S9 true flagsDefaultZlib = (c10S1, true) := by decide

theorem c10_prep : fb_prep sinkTrue c10S1 = c10F3 := by decide

theorem c10_b1 : sdb_build1 c10F3 = (c10F4, 257, 1) := by decide

theorem c10_rle_h1 :
    rleFold ({ cnt := c10Cnt0, packed := [], rle_z_count := 0, rle_repeat_count := 0 }, 0xFF)
      c10SizesA = c10P1 := by decide

theorem c10_rle_h2 : rleFold c10P1 c10SizesB = c10P2 := by decide

theorem c10_rle : sdb_rle c10F4 257 1 = (c10F4r, [18, 127, 18, 107, 1, 0]) := by
  have h0 : aClear 16 c10F4.m_huff_count (2 * 384) MAX_HUFF_SYMBOLS_2 = c10Cnt0 := by decide
  have hsz : sizesToPack c10F4 257 1 = c10SizesA ++ c10SizesB := by decide
  simp only [sdb_rle, rleLoop, h0, hsz, rleFold_append, c10_rle_h1, c10_rle_h2]
  decide

theorem c10_opt2 : optimize_huffman_table c10F4r 2 MAX_HUFF_SYMBOLS_2 7 = c10F5 := by decide

theorem c10_b2 : sdb_build2 c10F4 257 1 = (c10F5, [18, 127, 18, 107, 1, 0]) := by
  simp only [sdb_build2, c10_rle, c10_opt2]

theorem c10_emit_h : sdb_emit_header sinkTrue c10F5 true 257 1 = c10F5h := by decide

theorem c10_emit_p : emitPacked sinkTrue c10F5h [18, 127, 18, 107, 1, 0] = c10F6 := by decide

theorem c10_sdb : start_dynamic_block sinkTrue c10F3 true = c10F6 := by
  simp only [start_dynamic_block, c10_b1, c10_b2, sdb_emit, c10_emit_h, c10_emit_p]

theorem c10_fbe : fb_emit sinkTrue c10F6 true = c10F7 := by decide

theorem c10_fb : flush_block sinkTrue c10S1 true = c10F7 := by
  simp only [flush_block, c10_prep, c10_sdb, c10_fbe]

theorem c10_adl : emitAdler sinkTrue c10F7 = c10F7a := by decide

theorem c10_fob : flush_output_buffer sinkTrue c10F7a = c10F8 := by decide

theorem c10_fin : cd_finish sinkTrue c10S1 = c10F9 := by
  have h1 : ¬ (c10S1.m_saved_match_len ≠ 0) := by decide
  have h2 : c10F7.m_flags &&& WRITE_ZLIB_HEADER ≠ 0 := by decide
  simp only [cd_finish, h1, if_false, ite_false, h2, if_true, ite_true, c10_fb, c10_adl,
    c10_fob]
  decide

theorem c10_term : compress_data sinkTrue c10S1 true [] = (c10F9, true) := by
  have hn : ¬ (¬ c10S1.sink_present ∨ ¬ c10S1.m_all_writes_succeeded) := by decide
  have had : ({ c10S1 with m_adler32 := adler32 [] c10S1.m_adler32 } : CompState) = c10S1 := by
    decide
  have hloop : compressLoop sinkTrue c10S1 [] true
      (List.length ([] : List Nat) + c10S1.m_lookahead_size + 1) = c10S1 := by decide
  have hz : c10S1.m_flags &&& WRITE_ZLIB_HEADER ≠ 0 := by decide
  simp only [compress_data, hn, if_false, ite_false, hz, not_false_eq_true, if_true,
    ite_true, had, ite_self, hloop, c10_fin]
  decide

/-- C10: the closed session `c4S9` (terminally flushed, `m_pStream`
cleared) is not permanently frozen — a new `init` with a non-null stream
returns true and resets the probe budget, hash heads, cursors, Adler-32
and sticky flag; the re-opened session then accepts `compress_data`
again (returning true), and a second empty run delivers exactly the same
18 bytes to the sink as the first, behaving as a fresh session. -/
theorem C10_reinit_after_close :
    (init sinkTrue c4S9 true flagsDefaultZlib).2 = true ∧
    ((init sinkTrue c4S9 true flagsDefaultZlib).1.m_max_probes = 34 ∧
      (init sinkTrue c4S9 true flagsDefaultZlib).1.m_hash = 2 ^ (16 * LZ_HASH_SIZE) - 1 ∧
      (init sinkTrue c4S9 true flagsDefaultZlib).1.m_adler32 = 1 ∧
      (init sinkTrue c4S9 true flagsDefaultZlib).1.m_all_writes_succeeded = true ∧
      (init sinkTrue c4S9 true flagsDefaultZlib).1.m_lookahead_pos = 0 ∧
      (init sinkTrue c4S9 true flagsDefaultZlib).1.m_lookahead_size = 0 ∧
      (init sinkTrue c4S9 true flagsDefaultZlib).1.m_dict_size = 0 ∧
      (init sinkTrue c4S9 true flagsDefaultZlib).1.lz_code_pos = 1 ∧
      (init sinkTrue c4S9 true flagsDefaultZlib).1.m_saved_match_len = 0) ∧
    (compress_data sinkTrue (init sinkTrue c4S9 true flagsDefaultZlib).1 true []).2 = true ∧
    sinkBytes (compress_data sinkTrue (init sinkTrue c4S9 true flagsDefaultZlib).1 true []).1 =
      sinkBytes c4S9 ++ sinkBytes c4S9 := by
  rw [c10_reinit]
  refine ⟨rfl, by decide, ?_, ?_⟩
  · rw [show (c10S1, true).1 = c10S1 from rfl, c10_term]
  · rw [show (c10S1, true).1 = c10S1 from rfl, c10_term]
    decide

/-! ### Claim C3: Kraft sums and length caps of the built tables -/

/-- C3 (amended): for the concrete blocks built in this development the
code-length caps hold (15 for the literal/length and distance tables, 7
for the code-length table), the Kraft equality holds whenever a table
has at least two active symbols, and a table with exactly one active
symbol gets the sole length 1, Kraft sum 1/2; but a table can also end
up with NO active symbols, where the Kraft sum is 0 (see the
counterexample). Shown on the 258-times-0x41 block (`c5F5`) and the
empty-input block (`c4S5`). -/
theorem C3_huffman_tables :
    (kraftSum (tableSizes c5F5 0 288) 15 = 2 ^ 15 ∧
      2 ≤ activeCount (tableSizes c5F5 0 288)) ∧
    (kraftSum (tableSizes c5F5 2 19) 7 = 2 ^ 7 ∧
      2 ≤ activeCount (tableSizes c5F5 2 19)) ∧
    (kraftSum (tableSizes c5F5 1 30) 15 = 2 ^ 14 ∧
      activeCount (tableSizes c5F5 1 30) = 1) ∧
    (kraftSum (tableSizes c4S5 0 288) 15 = 2 ^ 14 ∧
      activeCount (tableSizes c4S5 0 288) = 1) ∧
    (kraftSum (tableSizes c4S5 2 19) 7 = 2 ^ 7 ∧
      2 ≤ activeCount (tableSizes c4S5 2 19)) ∧
    (∀ l ∈ tableSizes c5F5 0 288, l ≤ 15) ∧ (∀ l ∈ tableSizes c5F5 1 30, l ≤ 15) ∧
    (∀ l ∈ tableSizes c5F5 2 19, l ≤ 7) ∧ (∀ l ∈ tableSizes c4S5 0 288, l ≤ 15) ∧
    (∀ l ∈ tableSizes c4S5 1 30, l ≤ 15) ∧ (∀ l ∈ tableSizes c4S5 2 19, l ≤ 7) := by
  decide

/-- C3 (counterexample to the unconditional Kraft property): the
distance table of the empty-input block has no active symbol at all —
every code length is 0 and its Kraft sum is 0, not 1, and the "only one
symbol active" escape clause does not apply. -/
theorem C3_empty_dist_table_kraft :
    activeCount (tableSizes c4S5 1 30) = 0 ∧ kraftSum (tableSizes c4S5 1 30) 15 = 0 := by
  decide
